import Mathlib

/-! Controller server of the Spectrum Scale CSI driver.

A shallow embedding of `driver/csiplugin/controllerserver.go` and theorems about it.

Go strings are modelled as lists of characters (`Str`).  The only separators the
controller ever splits on are the one-byte strings `";"` and `"="`, so splitting by
character and splitting by byte coincide.
-/

namespace Scale

/-- Go `string`. -/
abbrev Str := List Char

/-! ## The parts of package `strings` (and `fmt`) the controller uses -/

namespace strings

/-- Go `strings.Split(s, sep)` for a one-character separator: all the pieces of `s`
between occurrences of `sep` (always at least one piece). -/
def Split : Str → Char → List Str
  | [], _ => [[]]
  | c :: cs, sep =>
    if c = sep then [] :: Split cs sep
    else
      match Split cs sep with
      | [] => [[c]]
      | piece :: rest => (c :: piece) :: rest

/-- Go `strings.HasPrefix(s, pre)`. -/
def HasPrefix : Str → Str → Bool
  | _, [] => true
  | [], _ :: _ => false
  | c :: cs, p :: ps => if c = p then HasPrefix cs ps else false

/-- Go `strings.Contains(s, substr)`. -/
def Contains : Str → Str → Bool
  | [], substr => HasPrefix [] substr
  | c :: cs, substr => HasPrefix (c :: cs) substr || Contains cs substr

/-- Go `strings.Replace(s, old, "", 1)`: the first occurrence of `old` is removed. -/
def Replace1 : Str → Str → Str
  | [], _ => []
  | c :: cs, old =>
    if HasPrefix (c :: cs) old then (c :: cs).drop old.length
    else c :: Replace1 cs old

/-- Go `strings.Trim(s, cutset)`: leading and trailing characters of `cutset` removed. -/
def Trim (s cutset : Str) : Str :=
  ((s.dropWhile (fun c => cutset.contains c)).reverse.dropWhile
    (fun c => cutset.contains c)).reverse

end strings

/-- String literal as a Go string. -/
abbrev lit (s : String) : Str := s.toList

/-- Go `fmt.Sprintf`: the rendered pieces (literal text and `%v`/`%s` arguments) in order. -/
def Sprintf (pieces : List Str) : Str := pieces.flatten

/-- Unsigned decimal rendering (`strconv.FormatUint(n, 10)`, `%v` of a `uint64`). -/
def FormatUint (n : Nat) : Str := Nat.toDigits 10 n

/-- Signed decimal rendering (`%v` of an `int64`). -/
def FormatInt (i : Int) : Str :=
  if i < 0 then '-' :: Nat.toDigits 10 i.natAbs else Nat.toDigits 10 i.natAbs

/-- Go conversion `uint64(i)` of an `int64`. -/
def uint64 (i : Int) : Nat := (i % 2 ^ 64).toNat

/-- Go conversion `int64(n)` of a `uint64`. -/
def int64 (n : Nat) : Int :=
  if n % 2 ^ 64 < 2 ^ 63 then ((n % 2 ^ 64 : Nat) : Int) else ((n % 2 ^ 64 : Nat) : Int) - 2 ^ 64

/-! ## Errors -/

/-- The gRPC status codes (`google.golang.org/grpc/codes`) the controller returns. -/
inductive Code
  | InvalidArgument
  | NotFound
  | FailedPrecondition
  | Aborted
  | OutOfRange
  | Unimplemented
  | Internal
  deriving DecidableEq, Repr

/-- Name of a code as `codes.Code.String()` prints it. -/
def Code.String : Code → Str
  | .InvalidArgument => lit "InvalidArgument"
  | .NotFound => lit "NotFound"
  | .FailedPrecondition => lit "FailedPrecondition"
  | .Aborted => lit "Aborted"
  | .OutOfRange => lit "OutOfRange"
  | .Unimplemented => lit "Unimplemented"
  | .Internal => lit "Internal"

/-- Go `error` value: either a gRPC status (`status.Error(code, msg)`) or a plain
error (`fmt.Errorf(...)`, or whatever a connector returned). -/
inductive error
  | status (code : Code) (msg : Str)
  | errorf (msg : Str)
  deriving DecidableEq, Repr

/-- Go `err.Error()`. -/
def error.Error : error → Str
  | .status code msg =>
    Sprintf [lit "rpc error: code = ", code.String, lit " desc = ", msg]
  | .errorf msg => msg

/-- The status code of an error, if it is a gRPC status. -/
def error.code? : error → Option Code
  | .status code _ => some code
  | .errorf _ => none

/-! ## Identifier codec -/

/-- Decoded volume identifier. -/
structure scaleVolId where
  ClusterId : Str := []
  FsUUID : Str := []
  FsetId : Str := []
  SymLnkPath : Str := []
  IsFilesetBased : Bool := false
  deriving DecidableEq, Repr

/-- Decoded source-volume identifier (content source of a clone). -/
structure scaleSrcVolId where
  ClusterId : Str := []
  FsUUID : Str := []
  FsetId : Str := []
  SymLnkPath : Str := []
  IsFilesetBased : Bool := false
  FsName : Str := []
  FsetName : Str := []
  deriving DecidableEq, Repr

/-- Decoded snapshot identifier. -/
structure scaleSnapId where
  ClusterId : Str := []
  FsUUID : Str := []
  FsetName : Str := []
  SnapName : Str := []
  Path : Str := []
  FsName : Str := []
  deriving DecidableEq, Repr

/-- The format error of the volume-id decoders. -/
def invalidVolumeId (vId : Str) : error :=
  .status .Internal (Sprintf [lit "Invalid Volume Id : [", vId, lit "]"])

/-- Go `GetSnapIdMembers` (lines 806-826). -/
def GetSnapIdMembers (sId : Str) : Except error scaleSnapId :=
  let splitSid := strings.Split sId ';'
  if splitSid.length < 4 then
    .error (.status .Internal (Sprintf [lit "Invalid Snapshot Id : [", sId, lit "]"]))
  else
    /- clusterId;FSUUID;filesetName;snapshotName;path -/
    let sIdMem : scaleSnapId :=
      { ClusterId := splitSid.getD 0 []
        FsUUID := splitSid.getD 1 []
        FsetName := splitSid.getD 2 []
        SnapName := splitSid.getD 3 [] }
    if splitSid.length = 5 ∧ splitSid.getD 4 [] ≠ [] then
      .ok { sIdMem with Path := splitSid.getD 4 [] }
    else
      .ok { sIdMem with Path := lit "/" }

/-- Go `GetSrcVolIdMembers` (lines 828-869). -/
def GetSrcVolIdMembers (vId : Str) : Except error scaleSrcVolId :=
  let splitVid := strings.Split vId ';'
  if splitVid.length = 3 then
    /- This is LW volume: <cluster_id>;<filesystem_uuid>;path=<symlink_path> -/
    let SlnkPart := splitVid.getD 2 []
    let slnkSplit := strings.Split SlnkPart '='
    if slnkSplit.length < 2 then .error (invalidVolumeId vId)
    else
      .ok { ClusterId := splitVid.getD 0 []
            FsUUID := splitVid.getD 1 []
            SymLnkPath := slnkSplit.getD 1 []
            IsFilesetBased := false }
  else if splitVid.length = 4 then
    /- This is fileset based volume:
       <cluster_id>;<filesystem_uuid>;fileset=<fileset_id>;path=<symlink_path> -/
    let fileSetPart := splitVid.getD 2 []
    let fileSetSplit := strings.Split fileSetPart '='
    if fileSetSplit.length < 2 then .error (invalidVolumeId vId)
    else
      let SlnkPart := splitVid.getD 3 []
      let slnkSplit := strings.Split SlnkPart '='
      if slnkSplit.length < 2 then .error (invalidVolumeId vId)
      else
        .ok { ClusterId := splitVid.getD 0 []
              FsUUID := splitVid.getD 1 []
              FsetId := fileSetSplit.getD 1 []
              SymLnkPath := slnkSplit.getD 1 []
              IsFilesetBased := true }
  else .error (invalidVolumeId vId)

/-- Go `GetVolIdMembers` (lines 871-912). -/
def GetVolIdMembers (vId : Str) : Except error scaleVolId :=
  let splitVid := strings.Split vId ';'
  if splitVid.length = 3 then
    /- This is LW volume: <cluster_id>;<filesystem_uuid>;path=<symlink_path> -/
    let SlnkPart := splitVid.getD 2 []
    let slnkSplit := strings.Split SlnkPart '='
    if slnkSplit.length < 2 then .error (invalidVolumeId vId)
    else
      .ok { ClusterId := splitVid.getD 0 []
            FsUUID := splitVid.getD 1 []
            SymLnkPath := slnkSplit.getD 1 []
            IsFilesetBased := false }
  else if splitVid.length = 4 then
    /- This is fileset based volume:
       <cluster_id>;<filesystem_uuid>;fileset=<fileset_id>;path=<symlink_path> -/
    let fileSetPart := splitVid.getD 2 []
    let fileSetSplit := strings.Split fileSetPart '='
    if fileSetSplit.length < 2 then .error (invalidVolumeId vId)
    else
      let SlnkPart := splitVid.getD 3 []
      let slnkSplit := strings.Split SlnkPart '='
      if slnkSplit.length < 2 then .error (invalidVolumeId vId)
      else
        .ok { ClusterId := splitVid.getD 0 []
              FsUUID := splitVid.getD 1 []
              FsetId := fileSetSplit.getD 1 []
              SymLnkPath := slnkSplit.getD 1 []
              IsFilesetBased := true }
  else .error (invalidVolumeId vId)

/-! ## The connector (`connectors.SpectrumScaleConnector`) and the data it returns -/

/-- Mount details of a filesystem (`connectors.MountInfo`), the fields the controller reads. -/
structure MountInfo where
  MountPoint : Str := []
  NodesMounted : List Str := []
  RemoteDeviceName : Str := []
  Status : Str := []
  deriving DecidableEq, Repr

/-- Filesystem details (`connectors.FileSystem_v2`), the fields the controller reads. -/
structure FileSystem_v2 where
  Type_ : Str := []
  Mount : MountInfo := {}
  UUID : Str := []
  deriving DecidableEq, Repr

/-- Fileset configuration (`connectors.FilesetConfig_v2`), the fields the controller reads. -/
structure FilesetConfig_v2 where
  Path : Str := []
  ParentId : Int := 0
  deriving DecidableEq, Repr

/-- Fileset details (`connectors.Fileset_v2`), the fields the controller reads. -/
structure Fileset_v2 where
  Config : FilesetConfig_v2 := {}
  FilesetName : Str := []
  deriving DecidableEq, Repr

/-- Fileset quota details (`connectors.Quota_v2`), the field the controller reads. -/
structure Quota_v2 where
  BlockLimit : Int := 0
  deriving DecidableEq, Repr

/-- One entry of a fileset's snapshot list (`connectors.Snapshot_v2`). -/
structure Snapshot_v2 where
  SnapshotName : Str := []
  deriving DecidableEq, Repr

/-- The option map handed to `CreateFileset`: one optional entry per key the
controller may set. -/
structure FilesetOpts where
  UserSpecifiedUid : Option Str := none
  UserSpecifiedGid : Option Str := none
  UserSpecifiedFilesetType : Option Str := none
  UserSpecifiedInodeLimit : Option Str := none
  UserSpecifiedParentFset : Option Str := none
  deriving DecidableEq, Repr

/-- Identity of a connector object (one per registered cluster). -/
abbrev ConnId := Nat

/-- A call of a connector method, with its arguments. -/
inductive Call
  | CheckIfFileDirPresent (filesystemName relPath : Str)
  | GetFileSetUid (filesystemName filesetName : Str)
  | MakeDirectory (filesystemName relativePath uid gid : Str)
  | CreateSymLink (slnkfilesystemName targetFs relativePath lnkPath : Str)
  | ListFilesetQuota (filesystemName filesetName : Str)
  | SetFilesetQuota (filesystemName filesetName quota : Str)
  | GetFilesystemDetails (filesystemName : Str)
  | CheckIfFSQuotaEnabled (filesystemName : Str)
  | ListFileset (filesystemName filesetName : Str)
  | CreateFileset (filesystemName filesetName : Str) (opts : FilesetOpts)
  | LinkFileset (filesystemName filesetName linkpath : Str)
  | IsFilesetLinked (filesystemName filesetName : Str)
  | IsFilesystemMountedOnGUINode (filesystemName : Str)
  | IsSnapshotSupported
  | IsValidNodeclass (nodeclass : Str)
  | GetFilesystemName (filesystemUUID : Str)
  | GetFileSetNameFromId (filesystemName Id : Str)
  | CheckIfSnapshotExist (filesystemName filesetName snapshotName : Str)
  | CopyFilesetPath (filesystemName filesetName srcPath targetPath nodeclass : Str)
  | CopyFsetSnapshotPath
      (filesystemName filesetName snapshotName srcPath targetPath nodeclass : Str)
  | GetFilesystemMountDetails (filesystemName : Str)
  | ListFilesetSnapshots (filesystemName filesetName : Str)
  | DeleteFileset (filesystemName filesetName : Str)
  | DeleteDirectory (filesystemName dirName : Str)
  | DeleteSymLnk (filesystemName lnkName : Str)
  | MountFilesystem (filesystemName nodeName : Str)
  | GetFileSetResponseFromId (filesystemName Id : Str)
  | CreateSnapshot (filesystemName filesetName snapshotName : Str)
  | GetSnapshotCreateTimestamp (filesystemName filesetName snapName : Str)
  | GetFilesetQuotaDetails (filesystemName filesetName : Str)
  | CheckIfFilesetExist (filesystemName filesetName : Str)
  | DeleteSnapshot (filesystemName filesetName snapshotName : Str)
  deriving DecidableEq, Repr

/-- Result type of each connector method (besides the `error`). -/
@[reducible] def Call.Ret : Call → Type
  | .CheckIfFileDirPresent .. => Bool
  | .GetFileSetUid .. => Str
  | .MakeDirectory .. => Unit
  | .CreateSymLink .. => Unit
  | .ListFilesetQuota .. => Str
  | .SetFilesetQuota .. => Unit
  | .GetFilesystemDetails .. => FileSystem_v2
  | .CheckIfFSQuotaEnabled .. => Unit
  | .ListFileset .. => Fileset_v2
  | .CreateFileset .. => Unit
  | .LinkFileset .. => Unit
  | .IsFilesetLinked .. => Bool
  | .IsFilesystemMountedOnGUINode .. => Bool
  | .IsSnapshotSupported => Bool
  | .IsValidNodeclass .. => Bool
  | .GetFilesystemName .. => Str
  | .GetFileSetNameFromId .. => Str
  | .CheckIfSnapshotExist .. => Bool
  | .CopyFilesetPath .. => Unit
  | .CopyFsetSnapshotPath .. => Unit
  | .GetFilesystemMountDetails .. => MountInfo
  | .ListFilesetSnapshots .. => List Snapshot_v2
  | .DeleteFileset .. => Unit
  | .DeleteDirectory .. => Unit
  | .DeleteSymLnk .. => Unit
  | .MountFilesystem .. => Unit
  | .GetFileSetResponseFromId .. => Fileset_v2
  | .CreateSnapshot .. => Unit
  | .GetSnapshotCreateTimestamp .. => Str
  | .GetFilesetQuotaDetails .. => Quota_v2
  | .CheckIfFilesetExist .. => Bool
  | .DeleteSnapshot .. => Unit

/-- Calls that change the backend (everything that is not a query). -/
def Call.isMutating : Call → Bool
  | .MakeDirectory .. => true
  | .CreateSymLink .. => true
  | .SetFilesetQuota .. => true
  | .CreateFileset .. => true
  | .LinkFileset .. => true
  | .CopyFilesetPath .. => true
  | .CopyFsetSnapshotPath .. => true
  | .DeleteFileset .. => true
  | .DeleteDirectory .. => true
  | .DeleteSymLnk .. => true
  | .MountFilesystem .. => true
  | .CreateSnapshot .. => true
  | .DeleteSnapshot .. => true
  | _ => false

/-- The remote filesystem management API behind the connectors: an arbitrary
(possibly stateful, possibly failing) responder.  `σ` is the state of the backend. -/
structure Backend (σ : Type) where
  respond : ConnId → (k : Call) → σ → Except error k.Ret × σ

/-! ## Driver state and the controller monad -/

/-- Settings of the primary cluster (`settings.Primary`), the fields the controller reads. -/
structure Primary where
  PrimaryFs : Str := []
  PrimaryFset : Str := []
  PrimaryFSMount : Str := []
  SymlinkAbsolutePath : Str := []
  SymlinkRelativePath : Str := []
  PrimaryCid : Str := []
  deriving DecidableEq, Repr

/-- Accessor `GetPrimaryFs()` of the primary settings. -/
def Primary.GetPrimaryFs (primary : Primary) : Str := primary.PrimaryFs

/-- Controller service capabilities checked by `ValidateControllerServiceRequest`. -/
inductive ControllerServiceCapability
  | RPC_CREATE_DELETE_VOLUME
  | RPC_PUBLISH_UNPUBLISH_VOLUME
  | RPC_CREATE_DELETE_SNAPSHOT
  | RPC_EXPAND_VOLUME
  deriving DecidableEq, Repr

/-- The read-only part of `ScaleDriver`: the cluster registry `connmap`, the primary
settings, and the capability check (declared outside this file, taken as given). -/
structure ScaleDriver where
  connmap : Str → Option ConnId
  primary : Primary
  ValidateControllerServiceRequest : ControllerServiceCapability → Option error

/-- Go `ScaleControllerServer`. -/
structure ScaleControllerServer where
  Driver : ScaleDriver

/-- Everything a request can change: the backend, the in-flight set `Driver.reqmap`
(volume name to requested size), and the record of connector calls issued so far. -/
structure Sys (σ : Type) where
  backend : σ
  reqmap : Str → Option Int
  log : List (ConnId × Call) := []

/-- Controller computations: they may fail with an `error` and act on `Sys`.
The state is kept on failure too. -/
def M (σ α : Type) : Type := Sys σ → Except error α × Sys σ

/-- Sequencing: a failure stops the computation. -/
def M.bind {σ α β : Type} (m : M σ α) (f : α → M σ β) : M σ β := fun w =>
  match m w with
  | (.ok a, w1) => f a w1
  | (.error e, w1) => (.error e, w1)

instance {σ : Type} : Monad (M σ) where
  pure a := fun w => (.ok a, w)
  bind := M.bind

/-- Return of an error (`return nil, err`). -/
def fail {σ α : Type} (e : error) : M σ α := fun w => (.error e, w)

/-- Go `defer`: `cleanup` runs when `body` returns, whether it failed or not. -/
def defer {σ α : Type} (cleanup : Sys σ → Sys σ) (body : M σ α) : M σ α := fun w =>
  ((body w).1, cleanup (body w).2)

/-- Go `m[k] = v` on a map. -/
def mapSet {β : Type} (m : Str → Option β) (k : Str) (v : β) : Str → Option β :=
  fun x => if x = k then some v else m x

/-- Go `delete(m, k)` on a map. -/
def mapDelete {β : Type} (m : Str → Option β) (k : Str) : Str → Option β :=
  fun x => if x = k then none else m x

/-- A connector method call `conn.k`: the backend answers, and the call is recorded. -/
def invoke {σ : Type} (bk : Backend σ) (conn : ConnId) (k : Call) :
    M σ (Except error k.Ret) := fun w =>
  ((.ok (bk.respond conn k w.backend).1),
    { w with backend := (bk.respond conn k w.backend).2, log := w.log ++ [(conn, k)] })

/-- The pattern `x, err := conn.k; if err != nil { return ..., wrap(err) }`. -/
def call {σ : Type} (bk : Backend σ) (conn : ConnId) (k : Call) (wrap : error → error) :
    M σ k.Ret := do
  match ← invoke bk conn k with
  | .error err => fail (wrap err)
  | .ok x => pure x

/-- The volume being provisioned (`scaleVolume`), the fields the controller uses. -/
structure scaleVolume where
  VolName : Str := []
  VolSize : Nat := 0
  VolBackendFs : Str := []
  IsFilesetBased : Bool := false
  VolDirBasePath : Str := []
  VolUid : Str := []
  VolGid : Str := []
  ClusterId : Str := []
  FilesetType : Str := []
  InodeLimit : Str := []
  ParentFileset : Str := []
  NodeClass : Str := []
  Connector : ConnId := 0
  PrimaryConnector : ConnId := 0
  PrimarySLnkRelPath : Str := []
  PrimarySLnkPath : Str := []
  PrimaryFS : Str := []
  PrimaryFSMount : Str := []
  LocalFS : Str := []
  deriving DecidableEq, Repr

/-- Functions of package `scale` that live in other files and are taken as given:
the storage-class parameter parser, the quota-size parser and the remote device name
parser. -/
structure Pkg where
  getScaleVolumeOptions : List (Str × Str) → Except error scaleVolume
  ConvertToBytes : Str → Except error Nat
  getRemoteFsName : Str → Str

section Controller

variable {σ : Type} (bk : Backend σ) (pkg : Pkg) (cs : ScaleControllerServer)

/-- Go `IfSameVolReqInProcess` (lines 49-60): the pair `(bool, error)` it returns. -/
def IfSameVolReqInProcess (scVol : scaleVolume) : M σ (Bool × Option error) := fun w =>
  match w.reqmap scVol.VolName with
  | some cap =>
    if cap = int64 scVol.VolSize then (.ok (true, none), w)
    else
      (.ok (false, some (.status .Internal (Sprintf [lit "Volume ", scVol.VolName,
        lit " present in map but requested size ", FormatUint scVol.VolSize,
        lit " does not match with size ", FormatInt cap, lit " in map"]))), w)
  | none => (.ok (false, none), w)

/-- Go `GetPriConnAndSLnkPath` (lines 62-70). -/
def GetPriConnAndSLnkPath : Except error (ConnId × Str × Str × Str × Str × Str) :=
  match cs.Driver.connmap (lit "primary") with
  | some primaryConn =>
    .ok (primaryConn, cs.Driver.primary.SymlinkRelativePath, cs.Driver.primary.GetPrimaryFs,
      cs.Driver.primary.PrimaryFSMount, cs.Driver.primary.SymlinkAbsolutePath,
      cs.Driver.primary.PrimaryCid)
  | none => .error (.status .Internal (lit "Primary connector not present in configMap"))

/-- Go `getConnFromClusterID` (lines 350-357). -/
def getConnFromClusterID (cid : Str) : Except error ConnId :=
  match cs.Driver.connmap cid with
  | some connector => .ok connector
  | none =>
    .error (.status .Internal
      (Sprintf [lit "unable to find cluster [", cid, lit "] details in custom resource"]))

/-- Go `generateVolID` (lines 101-122). -/
def generateVolID (scVol : scaleVolume) (uid : Str) : M σ Str :=
  if scVol.IsFilesetBased then do
    let fSetuid ← call bk scVol.Connector (.GetFileSetUid scVol.VolBackendFs scVol.VolName)
      (fun err => .errorf (Sprintf [lit "unable to get Fset UID for [", scVol.VolName,
        lit "] in FS [", scVol.VolBackendFs, lit "]. Error [", err.Error, lit "]"]))
    /- <cluster_id>;<filesystem_uuid>;fileset=<fileset_id>;path=<symlink_path> -/
    let slink := Sprintf [scVol.PrimarySLnkPath, lit "/", scVol.VolName]
    pure (Sprintf [scVol.ClusterId, lit ";", uid, lit ";fileset=", fSetuid, lit ";path=", slink])
  else
    /- <cluster_id>;<filesystem_uuid>;path=<symlink_path> -/
    let slink := Sprintf [scVol.PrimarySLnkPath, lit "/", scVol.VolName]
    pure (Sprintf [scVol.ClusterId, lit ";", uid, lit ";path=", slink])

/-- The snapshot identifier `CreateSnapshot` returns (line 1262). -/
def snapID (ClusterId FsUUID filesetName snapName : Str) : Str :=
  Sprintf [ClusterId, lit ";", FsUUID, lit ";", filesetName, lit ";", snapName, lit ";",
    filesetName, lit "-data"]

end Controller

/-! ## Provisioning (CreateVolume) -/

/-- Constants of the controller (lines 36-43). -/
def filesystemTypeRemote : Str := lit "remote"

/-- Mount status of a mounted filesystem. -/
def filesystemMounted : Str := lit "mounted"

/-- Link path the backend reports for an unlinked fileset. -/
def filesetUnlinkedPath : Str := lit "--"

/-- A pure, possibly failing step inside a controller computation. -/
def liftE {σ α : Type} : Except error α → M σ α
  | .ok a => pure a
  | .error e => fail e

/-- The pattern `err := f(...); if err != nil { return ..., wrap(err) }` around a helper
of the controller. -/
def mapErr {σ α : Type} (wrap : error → error) (m : M σ α) : M σ α := fun w =>
  match m w with
  | (.ok a, w1) => (.ok a, w1)
  | (.error e, w1) => (.error (wrap e), w1)

/-- Access modes of a volume capability (`csi.VolumeCapability_AccessMode_Mode`). -/
inductive AccessMode
  | UNKNOWN
  | SINGLE_NODE_WRITER
  | SINGLE_NODE_READER_ONLY
  | MULTI_NODE_READER_ONLY
  | MULTI_NODE_SINGLE_WRITER
  | MULTI_NODE_MULTI_WRITER
  deriving DecidableEq, Repr

/-- A requested volume capability: whether it is a block capability (`GetBlock() != nil`)
and its access mode (`GetAccessMode().GetMode()`). -/
structure VolumeCapability where
  Block : Bool := false
  Mode : AccessMode := .UNKNOWN
  deriving DecidableEq, Repr

/-- Capacity range of a request (`csi.CapacityRange`). -/
structure CapacityRange where
  RequiredBytes : Int := 0
  LimitBytes : Int := 0
  deriving DecidableEq, Repr

/-- Content source of a new volume (`csi.VolumeContentSource`): a source volume, a
source snapshot, or a source message with neither set. -/
inductive VolumeContentSource
  | Volume (VolumeId : Str)
  | Snapshot (SnapshotId : Str)
  | Unset
  deriving DecidableEq, Repr

/-- Go `csi.CreateVolumeRequest`.  `none` stands for a nil capability list, a nil
capacity range, a nil content source. -/
structure CreateVolumeRequest where
  Name : Str := []
  CapacityRange : Option CapacityRange := none
  VolumeCapabilities : Option (List VolumeCapability) := none
  Parameters : List (Str × Str) := []
  VolumeContentSource : Option VolumeContentSource := none
  deriving DecidableEq, Repr

/-- Go `csi.Volume`. -/
structure Volume where
  VolumeId : Str
  CapacityBytes : Int
  VolumeContext : List (Str × Str)
  ContentSource : Option VolumeContentSource
  deriving DecidableEq, Repr

/-- Go `csi.CreateVolumeResponse`. -/
structure CreateVolumeResponse where
  Volume : Volume
  deriving DecidableEq, Repr

/-- The local variables of `CreateVolume` that are live when the in-flight guard is
reached (line 550). -/
structure CreateVolumeLocals where
  volName : Str
  volSize : Int
  scaleVol : scaleVolume
  volFsInfo : FileSystem_v2
  volSrc : Option VolumeContentSource
  isVolSource : Bool
  isSnapSource : Bool
  srcVolIDMembers : scaleSrcVolId
  snapIdMembers : scaleSnapId
  Parameters : List (Str × Str)

section Provisioning

variable {σ : Type} (bk : Backend σ) (pkg : Pkg) (cs : ScaleControllerServer)

/-- Go `createDirectory` (lines 137-155): create the directory if not present. -/
def createDirectory (scVol : scaleVolume) (targetPath : Str) : M σ Unit := do
  let dirExists ← call bk scVol.Connector
    (.CheckIfFileDirPresent scVol.VolBackendFs targetPath)
    (fun err => .errorf (Sprintf [lit "unable to check if directory path [", targetPath,
      lit "] exists in filesystem [", scVol.VolBackendFs, lit "]. Error : ", err.Error]))
  if dirExists = false then
    call bk scVol.Connector
      (.MakeDirectory scVol.VolBackendFs targetPath scVol.VolUid scVol.VolGid)
      (fun err => .errorf (Sprintf [lit "unable to create directory [", targetPath,
        lit "] in filesystem [", scVol.VolBackendFs, lit "]. Error : ", err.Error]))
  else pure ()

/-- Go `createLWVol` (lines 72-99): create a lightweight volume, return the relative
path of the directory created. -/
def createLWVol (scVol : scaleVolume) : M σ Str := do
  let dirExists ← call bk scVol.PrimaryConnector
    (.CheckIfFileDirPresent scVol.VolBackendFs scVol.VolDirBasePath)
    (fun err => .status .Internal (Sprintf [lit "unable to check if DirBasePath ",
      scVol.VolDirBasePath, lit " is present in filesystem ", scVol.VolBackendFs,
      lit ". Error : ", err.Error]))
  if dirExists = false then
    fail (.status .Internal (Sprintf [lit "directory base path ", scVol.VolDirBasePath,
      lit " not present in filesystem ", scVol.VolBackendFs]))
  else do
    let dirPath := Sprintf [scVol.VolDirBasePath, lit "/", scVol.VolName]
    mapErr (fun err => .status .Internal err.Error) (createDirectory bk scVol dirPath)
    pure dirPath

/-- Go `getTargetPath` (lines 124-135): relative volume path from the filesystem mount
point. -/
def getTargetPath (fsetLinkPath fsMountPoint volumeName : Str) : Except error Str :=
  if fsetLinkPath = [] ∨ fsMountPoint = [] then
    .error (.errorf (Sprintf [lit "missing details to generate target path fileset junctionpath: [",
      fsetLinkPath, lit "], filesystem mount point: [", fsMountPoint, lit "]"]))
  else
    let targetPath := strings.Replace1 fsetLinkPath fsMountPoint
    let targetPath := strings.Trim targetPath (lit "!/")
    .ok (Sprintf [targetPath, lit "/", volumeName, lit "-data"])

/-- Go `createSoftlink` (lines 157-176): create the soft link if not present. -/
def createSoftlink (scVol : scaleVolume) (target : Str) : M σ Unit := do
  let volSlnkPath := Sprintf [scVol.PrimarySLnkRelPath, lit "/", scVol.VolName]
  let symLinkExists ← call bk scVol.PrimaryConnector
    (.CheckIfFileDirPresent scVol.PrimaryFS volSlnkPath)
    (fun err => .errorf (Sprintf [lit "unable to check if symlink path [", volSlnkPath,
      lit "] exists in filesystem [", scVol.PrimaryFS, lit "]. Error: ", err.Error]))
  if symLinkExists = false then
    call bk scVol.PrimaryConnector
      (.CreateSymLink scVol.PrimaryFS scVol.LocalFS target volSlnkPath)
      (fun err => .errorf (Sprintf [lit "failed to create symlink [", volSlnkPath,
        lit "] in filesystem [", scVol.PrimaryFS, lit "], for target [", target,
        lit "] in filesystem [", scVol.LocalFS, lit "]. Error [", err.Error, lit "]"]))
  else pure ()

/-- Go `setQuota` (lines 178-210): set the quota if not set. -/
def setQuota (scVol : scaleVolume) : M σ Unit := do
  let quota ← call bk scVol.Connector (.ListFilesetQuota scVol.VolBackendFs scVol.VolName)
    (fun err => .errorf (Sprintf [lit "unable to list quota for fileset [", scVol.VolName,
      lit "] in filesystem [", scVol.VolBackendFs, lit "]. Error [", err.Error, lit "]"]))
  let filesetQuotaBytes ← (match pkg.ConvertToBytes quota with
    | .ok bytes => pure bytes
    | .error err =>
      if strings.Contains err.Error (lit "Invalid number specified") then
        /- Invalid number specified means quota is not set -/
        pure 0
      else
        fail (.errorf (Sprintf [lit "unable to convert quota for fileset [", scVol.VolName,
          lit "] in filesystem [", scVol.VolBackendFs, lit "]. Error [", err.Error, lit "]"])))
  if filesetQuotaBytes ≠ scVol.VolSize ∧ filesetQuotaBytes ≠ 0 then
    /- quota does not match and it is not 0 - it might not be fileset created by us -/
    fail (.errorf (Sprintf [lit "Fileset ", scVol.VolName, lit " present but quota ",
      FormatUint filesetQuotaBytes, lit " does not match with requested size ",
      FormatUint scVol.VolSize]))
  else if filesetQuotaBytes = 0 then
    let volsiz := FormatUint scVol.VolSize
    call bk scVol.Connector (.SetFilesetQuota scVol.VolBackendFs scVol.VolName volsiz)
      (fun _ => .errorf (Sprintf [lit "unable to set quota [", FormatUint scVol.VolSize,
        lit "] on fileset [", scVol.VolName, lit "] of FS [", scVol.VolBackendFs, lit "]"]))
  else pure ()

/-- Go `getFilesystemDetails` (lines 212-224). -/
def getFilesystemDetails (scVol : scaleVolume) : M σ FileSystem_v2 :=
  call bk scVol.Connector (.GetFilesystemDetails scVol.VolBackendFs)
    (fun err =>
      if strings.Contains err.Error (lit "Invalid value in filesystemName") then
        .status .Internal (Sprintf [lit "Filesystem ", scVol.VolBackendFs,
          lit " in not known to cluster ", scVol.ClusterId, lit ". Error: ", err.Error])
      else
        .status .Internal (Sprintf [lit "unable to check type of filesystem [",
          scVol.VolBackendFs, lit "]. Error: ", err.Error]))

/-- Go `validateRemoteFs` (lines 226-242). -/
def validateRemoteFs (fsDetails : FileSystem_v2) (scVol : scaleVolume) : Except error Unit :=
  if fsDetails.Type_ = filesystemTypeRemote then
    .error (.status .Internal (Sprintf [lit "filesystem [", scVol.VolBackendFs,
      lit "] is not local to cluster [", scVol.ClusterId, lit "]"]))
  /- if filesystem is remote, check it is mounted on remote GUI node. -/
  else if cs.Driver.primary.PrimaryCid ≠ scVol.ClusterId then
    if fsDetails.Mount.Status ≠ filesystemMounted then
      .error (.status .Internal (Sprintf [lit "Filesystem ", scVol.VolBackendFs,
        lit " in cluster ", scVol.ClusterId, lit " is not mounted"]))
    else .ok ()
  else .ok ()

/-- The option map `createFilesetBasedVol` builds (lines 267-281). -/
def filesetOptions (scVol : scaleVolume) : FilesetOpts :=
  { UserSpecifiedUid := if scVol.VolUid ≠ [] then some scVol.VolUid else none
    UserSpecifiedGid := if scVol.VolGid ≠ [] then some scVol.VolGid else none
    UserSpecifiedFilesetType := if scVol.FilesetType ≠ [] then some scVol.FilesetType else none
    UserSpecifiedInodeLimit := if scVol.InodeLimit ≠ [] then some scVol.InodeLimit else none
    UserSpecifiedParentFset :=
      if scVol.ParentFileset ≠ [] then some scVol.ParentFileset else none }

/-- Go `createFilesetBasedVol` (lines 244-343): create a fileset based volume, return
the relative path of the volume created. -/
def createFilesetBasedVol (scVol : scaleVolume) (fsDetails : FileSystem_v2) : M σ Str := do
  /- fileset can not be created if filesystem is remote. -/
  liftE (validateRemoteFs cs fsDetails scVol)
  /- check if quota is enabled on volume filesystem -/
  (if scVol.VolSize ≠ 0 then
    call bk scVol.Connector (.CheckIfFSQuotaEnabled scVol.VolBackendFs)
      (fun _ => .status .Internal (Sprintf [lit "quota not enabled for filesystem ",
        scVol.VolBackendFs, lit " of cluster ", scVol.ClusterId]))
  else pure ())
  let opt := filesetOptions scVol
  /- Check if fileset exist -/
  let listed ← invoke bk scVol.Connector (.ListFileset scVol.VolBackendFs scVol.VolName)
  let filesetInfo ← (match listed with
    | .ok info => pure info
    | .error err =>
      if strings.Contains err.Error (lit "Invalid value in 'filesetName'") then do
        /- This means fileset is not present, create it -/
        call bk scVol.Connector (.CreateFileset scVol.VolBackendFs scVol.VolName opt)
          (fun fseterr => .status .Internal (Sprintf [lit "unable to create fileset [",
            scVol.VolName, lit "] in filesystem [", scVol.VolBackendFs, lit "]. Error: ",
            fseterr.Error]))
        /- list fileset and update filesetInfo -/
        call bk scVol.Connector (.ListFileset scVol.VolBackendFs scVol.VolName)
          (fun err => .status .Internal (Sprintf [lit "unable to list newly created fileset [",
            scVol.VolName, lit "] in filesystem [", scVol.VolBackendFs, lit "]. Error: ",
            err.Error]))
      else
        fail (.status .Internal (Sprintf [lit "unable to list fileset [", scVol.VolName,
          lit "] in filesystem [", scVol.VolBackendFs, lit "]. Error: ", err.Error])))
  /- fileset is present/created. Confirm if fileset is linked -/
  let filesetInfo ←
    (if filesetInfo.Config.Path = [] ∨ filesetInfo.Config.Path = filesetUnlinkedPath then do
      /- this means not linked, link it -/
      let junctionPath := Sprintf [fsDetails.Mount.MountPoint, lit "/", scVol.VolName]
      call bk scVol.Connector (.LinkFileset scVol.VolBackendFs scVol.VolName junctionPath)
        (fun err => .status .Internal (Sprintf [lit "linking fileset [", scVol.VolName,
          lit "] in filesystem [", scVol.VolBackendFs, lit "] at path [", junctionPath,
          lit "] failed. Error: ", err.Error]))
      /- update fileset details -/
      call bk scVol.Connector (.ListFileset scVol.VolBackendFs scVol.VolName)
        (fun err => .status .Internal (Sprintf [lit "unable to list fileset [", scVol.VolName,
          lit "] in filesystem [", scVol.VolBackendFs, lit "] after linking. Error: ",
          err.Error]))
    else pure filesetInfo)
  (if scVol.VolSize ≠ 0 then
    mapErr (fun err => .status .Internal err.Error) (setQuota bk pkg scVol)
  else pure ())
  let targetBasePath ← mapErr (fun err => .status .Internal err.Error)
    (liftE (getTargetPath filesetInfo.Config.Path fsDetails.Mount.MountPoint scVol.VolName))
  mapErr (fun err => .status .Internal err.Error) (createDirectory bk scVol targetBasePath)
  pure targetBasePath

/-- Go `getVolumeSizeInBytes` (lines 345-348); the getters of a nil capacity range
return zero. -/
def getVolumeSizeInBytes (req : CreateVolumeRequest) : Int :=
  match req.CapacityRange with
  | some cap => cap.RequiredBytes
  | none => 0

/-- Go `copyVolContent` (lines 620-643). -/
def copyVolContent (scVol : scaleVolume) (vID : scaleSrcVolId) (fsDetails : FileSystem_v2)
    (targetPath : Str) : M σ Unit := do
  let conn ← liftE (getConnFromClusterID cs vID.ClusterId)
  liftE (validateRemoteFs cs fsDetails scVol)
  let fsMntPt := fsDetails.Mount.MountPoint
  let targetPath := Sprintf [fsMntPt, lit "/", targetPath]
  let path := Sprintf [vID.FsetName, lit "-data"]
  call bk conn (.CopyFilesetPath vID.FsName vID.FsetName path targetPath scVol.NodeClass)
    (fun err => .status .Internal
      (Sprintf [lit "failed to create volume from volume. Error: [", err.Error, lit "]"]))

/-- Go `copySnapContent` (lines 645-667). -/
def copySnapContent (scVol : scaleVolume) (snapId : scaleSnapId) (fsDetails : FileSystem_v2)
    (targetPath : Str) : M σ Unit := do
  let conn ← liftE (getConnFromClusterID cs snapId.ClusterId)
  liftE (validateRemoteFs cs fsDetails scVol)
  let fsMntPt := fsDetails.Mount.MountPoint
  let targetPath := Sprintf [fsMntPt, lit "/", targetPath]
  call bk conn
    (.CopyFsetSnapshotPath snapId.FsName snapId.FsetName snapId.SnapName snapId.Path targetPath
      scVol.NodeClass)
    (fun err => .status .Internal (Sprintf [lit "failed to create volume from snapshot ",
      snapId.SnapName, lit ": [", err.Error, lit "]"]))

/-- Go `validateSrcVolID` (lines 669-734); the source id is returned with the resolved
filesystem and fileset names filled in. -/
def validateSrcVolID (vID : scaleSrcVolId) (scVol : scaleVolume) (pCid : Str) :
    M σ scaleSrcVolId := do
  let conn ← liftE (getConnFromClusterID cs vID.ClusterId)
  /- This is kind of snapshot restore -/
  let isSnapSupported ← call bk conn .IsSnapshotSupported id
  if isSnapSupported = false then
    fail (.status .FailedPrecondition (Sprintf [lit "the version of Spectrum Scale on cluster ",
      vID.ClusterId, lit " does not support this operation. Min required Spectrum Scale version is 5.0.5.2"]))
  else if scVol.ClusterId ≠ [] ∧ vID.ClusterId ≠ scVol.ClusterId then
    fail (.status .InvalidArgument (Sprintf [lit "cannot create volume from a source volume from another cluster. Volume is being created in cluster ",
      scVol.ClusterId, lit ", source volume is from cluster ", vID.ClusterId, lit "."]))
  else if scVol.ClusterId = [] ∧ vID.ClusterId ≠ pCid then
    fail (.status .InvalidArgument (Sprintf [lit "cannot create volume from a source volume from another cluster. Volume is being created in cluster ",
      pCid, lit ", source volume is from cluster ", vID.ClusterId, lit "."]))
  else do
    (if scVol.NodeClass ≠ [] then do
      let isValidNodeclass ← call bk conn (.IsValidNodeclass scVol.NodeClass) id
      if isValidNodeclass = false then
        fail (.status .NotFound (Sprintf [lit "nodeclass [", scVol.NodeClass,
          lit "] not found on cluster [", scVol.ClusterId, lit "]"]))
      else pure ()
    else pure ())
    let FsName ← call bk conn (.GetFilesystemName vID.FsUUID)
      (fun err => .status .Internal (Sprintf [lit "unable to get filesystem Name for Id [",
        vID.FsUUID, lit "] and clusterId [", vID.ClusterId, lit "]. Error [", err.Error,
        lit "]"]))
    let vID := { vID with FsName := FsName }
    (if vID.FsName ≠ scVol.VolBackendFs then do
      let isFsMounted ← call bk conn (.IsFilesystemMountedOnGUINode vID.FsName)
        (fun _ => .status .Internal
          (Sprintf [lit "error in getting filesystem mount details for ", vID.FsName]))
      if isFsMounted = false then
        fail (.status .Internal
          (Sprintf [lit "filesystem ", vID.FsName, lit " is not mounted on GUI node"]))
      else pure ()
    else pure ())
    let FsetName ← call bk conn (.GetFileSetNameFromId vID.FsName vID.FsetId)
      (fun _ => .status .Internal
        (Sprintf [lit "error in getting fileset details for ", vID.FsetId]))
    let vID := { vID with FsetName := FsetName }
    let isFsetLinked ← call bk conn (.IsFilesetLinked vID.FsName vID.FsetName)
      (fun _ => .status .Internal
        (Sprintf [lit "unable to get fileset link information for [", vID.FsetName, lit "]"]))
    if isFsetLinked = false then
      fail (.status .Internal
        (Sprintf [lit "fileset [", vID.FsetName, lit "] of source volume is not linked"]))
    else pure vID

/-- Go `validateSnapId` (lines 736-804); the snapshot id is returned with the resolved
filesystem name filled in. -/
def validateSnapId (sId : scaleSnapId) (scVol : scaleVolume) (pCid : Str) :
    M σ scaleSnapId := do
  let conn ← liftE (getConnFromClusterID cs sId.ClusterId)
  let isSnapSupported ← call bk conn .IsSnapshotSupported id
  if isSnapSupported = false then
    fail (.status .FailedPrecondition (Sprintf [lit "the version of Spectrum Scale on cluster ",
      sId.ClusterId, lit " does not support this operation. Min required Spectrum Scale version is 5.0.5.2"]))
  else if scVol.ClusterId ≠ [] ∧ sId.ClusterId ≠ scVol.ClusterId then
    fail (.status .InvalidArgument (Sprintf [lit "cannot create volume from a source snapshot from another cluster. Volume is being created in cluster ",
      scVol.ClusterId, lit ", source snapshot is from cluster ", sId.ClusterId, lit "."]))
  else if scVol.ClusterId = [] ∧ sId.ClusterId ≠ pCid then
    fail (.status .InvalidArgument (Sprintf [lit "cannot create volume from a source snapshot from another cluster. Volume is being created in cluster ",
      pCid, lit ", source snapshot is from cluster ", sId.ClusterId, lit "."]))
  else do
    (if scVol.NodeClass ≠ [] then do
      let isValidNodeclass ← call bk conn (.IsValidNodeclass scVol.NodeClass) id
      if isValidNodeclass = false then
        fail (.status .NotFound (Sprintf [lit "nodeclass [", scVol.NodeClass,
          lit "] not found on cluster [", scVol.ClusterId, lit "]"]))
      else pure ()
    else pure ())
    let FsName ← call bk conn (.GetFilesystemName sId.FsUUID)
      (fun err => .status .Internal (Sprintf [lit "unable to get filesystem Name for Id [",
        sId.FsUUID, lit "] and clusterId [", sId.ClusterId, lit "]. Error [", err.Error,
        lit "]"]))
    let sId := { sId with FsName := FsName }
    (if sId.FsName ≠ scVol.VolBackendFs then do
      let isFsMounted ← call bk conn (.IsFilesystemMountedOnGUINode sId.FsName)
        (fun _ => .status .Internal
          (Sprintf [lit "error in getting filesystem mount details for ", sId.FsName]))
      if isFsMounted = false then
        fail (.status .Internal
          (Sprintf [lit "filesystem ", sId.FsName, lit " is not mounted on GUI node"]))
      else pure ()
    else pure ())
    let isFsetLinked ← call bk conn (.IsFilesetLinked sId.FsName sId.FsetName)
      (fun _ => .status .Internal
        (Sprintf [lit "unable to get fileset link information for [", sId.FsetName, lit "]"]))
    if isFsetLinked = false then
      fail (.status .Internal
        (Sprintf [lit "fileset [", sId.FsetName, lit "] of source snapshot is not linked"]))
    else do
      let isSnapExist ← call bk conn
        (.CheckIfSnapshotExist sId.FsName sId.FsetName sId.SnapName)
        (fun _ => .status .Internal
          (Sprintf [lit "unable to get snapshot information for [", sId.SnapName, lit "]"]))
      if isSnapExist = false then
        fail (.status .Internal (Sprintf [lit "snapshot [", sId.SnapName,
          lit "] does not exist for fileset [", sId.FsetName, lit "]"]))
      else pure sId

end Provisioning

section CreateVolume

variable {σ : Type} (bk : Backend σ) (pkg : Pkg) (cs : ScaleControllerServer)

/-- The capability loop of `CreateVolume` (lines 385-392): the first block-mode or
read-only-many capability is rejected. -/
def checkVolumeCapabilities : List VolumeCapability → Except error Unit
  | [] => .ok ()
  | reqCap :: rest =>
    if reqCap.Block then
      .error (.status .Unimplemented (lit "Block Volume is not supported"))
    else if reqCap.Mode = .MULTI_NODE_READER_ONLY then
      .error (.status .Unimplemented
        (lit "Volume with Access Mode ReadOnlyMany is not supported"))
    else checkVolumeCapabilities rest

/-- Go `cs.Driver.reqmap[name] = size`. -/
def reqmapSet {σ : Type} (name : Str) (size : Int) : M σ Unit := fun w =>
  (.ok (), { w with reqmap := mapSet w.reqmap name size })

/-- Go `delete(cs.Driver.reqmap, name)`. -/
def reqmapDelete {σ : Type} (name : Str) (w : Sys σ) : Sys σ :=
  { w with reqmap := mapDelete w.reqmap name }

/-- Go `CreateVolume`, lines 361-548: request validation, resolution of the primary and
of the owning cluster, the checks on the primary fileset and on the filesystems, and
the validation of the clone source.  Returns the local variables live at line 550. -/
def CreateVolume_prepare (req : Option CreateVolumeRequest) : M σ CreateVolumeLocals :=
  match cs.Driver.ValidateControllerServiceRequest .RPC_CREATE_DELETE_VOLUME with
  | some err =>
    fail (.status .Internal
      (Sprintf [lit "CreateVolume ValidateControllerServiceRequest failed: ", err.Error]))
  | none =>
  match req with
  | none => fail (.status .InvalidArgument (lit "Request cannot be empty"))
  | some req =>
  let volName := req.Name
  if volName = [] then
    fail (.status .InvalidArgument (lit "Volume Name is a required field"))
  else
  /- Get volume size in bytes -/
  let volSize := getVolumeSizeInBytes req
  match req.VolumeCapabilities with
  | none => fail (.status .InvalidArgument (lit "Volume Capabilities is a required field"))
  | some reqCapabilities => do
  liftE (checkVolumeCapabilities reqCapabilities)
  let scaleVol ← liftE (pkg.getScaleVolumeOptions req.Parameters)
  let scaleVol := { scaleVol with VolName := volName, VolSize := uint64 volSize }
  /- Get details for Primary Cluster -/
  let (pConn, PSLnkRelPath, PFS, PFSMount, PSLnkPath, PCid) ←
    liftE (GetPriConnAndSLnkPath cs)
  let scaleVol := { scaleVol with
    PrimaryConnector := pConn, PrimarySLnkRelPath := PSLnkRelPath, PrimaryFS := PFS,
    PrimaryFSMount := PFSMount, PrimarySLnkPath := PSLnkPath }
  let volSrc := req.VolumeContentSource
  let (isVolSource, srcVolIDMembers) ← (match volSrc with
    | some (.Volume srcVolID) => do
      let members ← liftE (GetSrcVolIdMembers srcVolID)
      pure (true, members)
    | _ => pure (false, ({} : scaleSrcVolId)))
  let (isSnapSource, snapIdMembers) ← (match volSrc with
    | some (.Snapshot snapId) => do
      let members ← liftE (GetSnapIdMembers snapId)
      pure (true, members)
    | _ => pure (false, ({} : scaleSnapId)))
  /- Check if Primary Fileset is linked -/
  let primaryFileset := cs.Driver.primary.PrimaryFset
  let isPrimaryFilesetLinked ← call bk scaleVol.PrimaryConnector
    (.IsFilesetLinked scaleVol.PrimaryFS primaryFileset)
    (fun err => .status .Internal (Sprintf [lit "unable to get details of Primary Fileset [",
      primaryFileset, lit "]. Error : [", err.Error, lit "]"]))
  if isPrimaryFilesetLinked = false then
    fail (.status .Internal
      (Sprintf [lit "primary fileset [", primaryFileset, lit "] is not linked"]))
  else do
  (if scaleVol.PrimaryFS ≠ scaleVol.VolBackendFs then do
    /- primary filesytem must be mounted on GUI node so that we can create the softlink;
       skip if primary and volume filesystem is same -/
    let isPfsMounted ← call bk scaleVol.PrimaryConnector
      (.IsFilesystemMountedOnGUINode scaleVol.PrimaryFS)
      (fun err => .status .Internal (Sprintf [lit "unable to get filesystem mount details for ",
        scaleVol.PrimaryFS, lit " on Primary cluster. Error: ", err.Error]))
    if isPfsMounted = false then
      fail (.status .Internal (Sprintf [lit "primary filesystem ", scaleVol.PrimaryFS,
        lit " is not mounted on GUI node of Primary cluster"]))
    else pure ()
  else pure ())
  let volFsInfo ← call bk scaleVol.PrimaryConnector
    (.GetFilesystemDetails scaleVol.VolBackendFs)
    (fun err =>
      if strings.Contains err.Error (lit "Invalid value in filesystemName") then
        .status .Internal (Sprintf [lit "filesystem ", scaleVol.VolBackendFs,
          lit " in not known to primary cluster. Error: ", err.Error])
      else
        .status .Internal (Sprintf [lit "unable to get details for filesystem [",
          scaleVol.VolBackendFs, lit "] in Primary cluster. Error: ", err.Error]))
  if volFsInfo.Mount.Status ≠ filesystemMounted then
    fail (.status .Internal (Sprintf [lit "volume filesystem ", scaleVol.VolBackendFs,
      lit " is not mounted on GUI node of Primary cluster"]))
  else do
  /- scaleVol.VolBackendFs will always be local cluster FS. So we need to find a remote
     cluster FS in case local cluster FS is remotely mounted. -/
  let scaleVol : scaleVolume :=
    if scaleVol.IsFilesetBased then
      { scaleVol with
        LocalFS := scaleVol.VolBackendFs
        VolBackendFs := pkg.getRemoteFsName volFsInfo.Mount.RemoteDeviceName }
    else { scaleVol with LocalFS := scaleVol.VolBackendFs }
  let scaleVol ← (
    if scaleVol.IsFilesetBased then do
      let scaleVol ← (
        if scaleVol.ClusterId = [] then
          if volFsInfo.Type_ = filesystemTypeRemote then
            fail (.status .Internal (Sprintf [lit "volume filesystem ", scaleVol.VolBackendFs,
              lit " is remotely mounted on Primary cluster, Specify owning cluster ID in storageClass"]))
          else pure { scaleVol with ClusterId := PCid }
        else pure scaleVol)
      let conn ← liftE (getConnFromClusterID cs scaleVol.ClusterId)
      pure { scaleVol with Connector := conn }
    else
      pure { scaleVol with Connector := scaleVol.PrimaryConnector, ClusterId := PCid })
  let srcVolIDMembers ←
    (if isVolSource then validateSrcVolID bk cs srcVolIDMembers scaleVol PCid
     else pure srcVolIDMembers)
  let snapIdMembers ←
    (if isSnapSource then validateSnapId bk cs snapIdMembers scaleVol PCid
     else pure snapIdMembers)
  pure
    { volName := volName, volSize := volSize, scaleVol := scaleVol, volFsInfo := volFsInfo,
      volSrc := volSrc, isVolSource := isVolSource, isSnapSource := isSnapSource,
      srcVolIDMembers := srcVolIDMembers, snapIdMembers := snapIdMembers,
      Parameters := req.Parameters }

/-- Go `CreateVolume`, lines 565-617: the part that runs while the volume name is
registered in the in-flight set. -/
def CreateVolume_provision (loc : CreateVolumeLocals) : M σ CreateVolumeResponse := do
  let fsDetails ← getFilesystemDetails bk loc.scaleVol
  let targetPath ←
    (if loc.scaleVol.IsFilesetBased then createFilesetBasedVol bk pkg cs loc.scaleVol fsDetails
     else createLWVol bk loc.scaleVol)
  /- Create symbolic link if not present -/
  mapErr (fun err => .status .Internal err.Error) (createSoftlink bk loc.scaleVol targetPath)
  let volID ← mapErr
    (fun err => .status .Internal
      (Sprintf [lit "failed to generate volume id. Error: ", err.Error]))
    (generateVolID bk loc.scaleVol loc.volFsInfo.UUID)
  (if loc.isVolSource then
    copyVolContent bk cs loc.scaleVol loc.srcVolIDMembers fsDetails targetPath
  else pure ())
  (if loc.isSnapSource then
    copySnapContent bk cs loc.scaleVol loc.snapIdMembers fsDetails targetPath
  else pure ())
  pure
    { Volume :=
      { VolumeId := volID, CapacityBytes := int64 loc.scaleVol.VolSize,
        VolumeContext := loc.Parameters, ContentSource := loc.volSrc } }

/-- Go `CreateVolume` (lines 359-618). -/
def CreateVolume (req : Option CreateVolumeRequest) : M σ CreateVolumeResponse := do
  let loc ← CreateVolume_prepare bk pkg cs req
  let (volReqInProcess, err) ← IfSameVolReqInProcess loc.scaleVol
  match err with
  | some err => fail err
  | none =>
  if volReqInProcess then
    fail (.status .Aborted
      (Sprintf [lit "volume creation already in process : ", loc.scaleVol.VolName]))
  else do
  /- Update driver map with new volume. Make sure to defer delete -/
  reqmapSet loc.scaleVol.VolName loc.volSize
  defer (reqmapDelete loc.scaleVol.VolName) (CreateVolume_provision bk pkg cs loc)

end CreateVolume

/-! ## Concrete instances used to evaluate the definitions -/

/-- A backend without state in which every connector call fails. -/
def bkNone : Backend Unit where
  respond := fun _ _ s => (.error (.errorf (lit "unreachable")), s)

/-- An idle system: no request in flight, no call issued. -/
def sysIdle : Sys Unit := { backend := (), reqmap := fun _ => none }

/-- A registry holding the primary cluster only, as connector `0`. -/
def csPrimaryOnly : ScaleControllerServer where
  Driver :=
    { connmap := fun cid => if cid = lit "primary" then some 0 else none
      primary :=
        { PrimaryFs := lit "fs1", PrimaryFset := lit "csifset", PrimaryFSMount := lit "/ibm/fs1",
          SymlinkAbsolutePath := lit "/ibm/fs1/csifset/.volumes",
          SymlinkRelativePath := lit "csifset/.volumes", PrimaryCid := lit "c1" }
      ValidateControllerServiceRequest := fun _ => none }

/-- A backend without state in which the primary fileset is linked and every
filesystem is mounted; all other calls fail. -/
def bkMounted : Backend Unit where
  respond := fun _ k s =>
    match k with
    | .IsFilesetLinked .. => (.ok true, s)
    | .GetFilesystemDetails .. =>
      (.ok { Type_ := lit "local", UUID := lit "0A0B:1",
             Mount := { MountPoint := lit "/ibm/fs1", Status := lit "mounted" } }, s)
    | _ => (.error (.errorf (lit "unavailable")), s)

/-- Storage-class parsing that always yields a lightweight volume under `fs1`. -/
def pkgLightweight : Pkg where
  getScaleVolumeOptions := fun _ =>
    .ok { VolBackendFs := lit "fs1", VolDirBasePath := lit "lwdir" }
  ConvertToBytes := fun _ => .error (.errorf (lit "Invalid number specified"))
  getRemoteFsName := fun name => name

/-- The request of the spec's in-flight example: `pvc-1`, 1 GiB, one mount capability. -/
def reqPvc1 : CreateVolumeRequest :=
  { Name := lit "pvc-1"
    CapacityRange := some { RequiredBytes := 1073741824 }
    VolumeCapabilities := some [{ Mode := .MULTI_NODE_MULTI_WRITER }] }

/-- A system in which `pvc-1` of 1 GiB is already being provisioned. -/
def sysPvc1InFlight : Sys Unit :=
  { backend := (), reqmap := fun name => if name = lit "pvc-1" then some 1073741824 else none }

/-! ## Vocabulary for statements about controller computations -/

/-- A relation between the state before and the state after that is closed under doing
nothing and under sequencing. -/
structure StepRel {σ : Type} (R : Sys σ → Sys σ → Prop) : Prop where
  refl : ∀ w, R w w
  trans : ∀ a b c, R a b → R b c → R a c

/-- Every run of `m`, failing or not, relates the initial to the final state by `R`. -/
structure Maintains {σ α : Type} (R : Sys σ → Sys σ → Prop) (m : M σ α) : Prop where
  run : ∀ w, R w (m w).2

/-- Every value `m` returns satisfies `Q`. -/
structure Returns {σ α : Type} (Q : α → Prop) (m : M σ α) : Prop where
  run : ∀ w a, (m w).1 = .ok a → Q a

/-- The in-flight set is the same before and after. -/
def sameReqmap {σ : Type} (w w1 : Sys σ) : Prop := w1.reqmap = w.reqmap

/-- The in-flight set is the same before and after, and the connector calls issued in
between are all queries (none of them changes the backend). -/
def queriesOnly {σ : Type} (w w1 : Sys σ) : Prop :=
  w1.reqmap = w.reqmap ∧
    ∃ calls, w1.log = w.log ++ calls ∧ ∀ c ∈ calls, c.2.isMutating = false

/-! ## Deletion, publishing, snapshots and expansion -/

namespace filepath

/-- Go `filepath.Base(path)` (separator `/`): the last element of the path, trailing
slashes removed first; `.` for the empty path and `/` for a path of slashes only. -/
def Base (path : Str) : Str :=
  if path = [] then lit "."
  else
    /- Strip trailing slashes. -/
    let path := (path.reverse.dropWhile (fun c => c = '/')).reverse
    /- Find the last element. -/
    let path := (path.reverse.takeWhile (fun c => c ≠ '/')).reverse
    /- If empty now, it had only slashes. -/
    if path = [] then lit "/" else path

end filepath

/-- Constants of the controller (lines 36-43): `no`. -/
def no : Str := lit "no"

/-- Constants of the controller (lines 36-43): `yes`. -/
def yes : Str := lit "yes"

/-- Constants of the controller (lines 36-43): `notFound`. -/
def notFound : Str := lit "NOT_FOUND"

/-- Functions of other packages that are taken as given: `utils.GetEnv(name, default)`,
`utils.StringInSlice(a, list)`, and the Unix seconds of `time.Parse(longForm, createTS)`
(zero time on a parse error, which the controller ignores). -/
structure Ext where
  GetEnv : Str → Str → Str
  StringInSlice : Str → List Str → Bool
  ParseUnix : Str → Int

/-- A method call on a connector that is not in the registry (a nil interface) panics;
the panic is modelled as a failure with this error. -/
def nilConnectorPanic : error :=
  .errorf (lit "panic: runtime error: invalid memory address or nil pointer dereference")

/-- Go `csi.DeleteVolumeRequest` (a nil request reads as the empty one). -/
structure DeleteVolumeRequest where
  VolumeId : Str := []
  deriving DecidableEq, Repr

/-- Go `csi.DeleteVolumeResponse`. -/
structure DeleteVolumeResponse where
  deriving DecidableEq, Repr

/-- The local variables of `DeleteVolume` that are live once the identifier is decoded
and the backend filesystem is resolved (line 964). -/
structure DeleteVolumeLocals where
  volumeIdMembers : scaleVolId
  conn : ConnId
  primaryConn : ConnId
  FilesystemName : Str
  sLinkRelPath : Str
  deriving DecidableEq, Repr

/-- Go `csi.ControllerPublishVolumeRequest` (a nil request reads as the empty one). -/
structure ControllerPublishVolumeRequest where
  VolumeId : Str := []
  NodeId : Str := []
  deriving DecidableEq, Repr

/-- Go `csi.ControllerPublishVolumeResponse`. -/
structure ControllerPublishVolumeResponse where
  deriving DecidableEq, Repr

/-- Go `csi.ControllerUnpublishVolumeRequest`. -/
structure ControllerUnpublishVolumeRequest where
  VolumeId : Str := []
  deriving DecidableEq, Repr

/-- Go `csi.ControllerUnpublishVolumeResponse`. -/
structure ControllerUnpublishVolumeResponse where
  deriving DecidableEq, Repr

/-- The local variables of `ControllerPublishVolume` that are live once the mount state
of both filesystems on the node is known (line 1145). -/
structure ControllerPublishVolumeLocals where
  primary : ConnId
  primaryfsName : Str
  fsName : Str
  scalenodeID : Str
  skipMountUnmount : Str
  ispFsMounted : Bool
  isFsMounted : Bool
  deriving DecidableEq, Repr

/-- Go `csi.CreateSnapshotRequest`. -/
structure CreateSnapshotRequest where
  SourceVolumeId : Str := []
  Name : Str := []
  deriving DecidableEq, Repr

/-- Go `timestamp.Timestamp`. -/
structure Timestamp where
  Seconds : Int := 0
  Nanos : Int := 0
  deriving DecidableEq, Repr

/-- Go `csi.Snapshot`. -/
structure Snapshot where
  SnapshotId : Str
  SourceVolumeId : Str
  ReadyToUse : Bool
  CreationTime : Timestamp
  SizeBytes : Int
  deriving DecidableEq, Repr

/-- Go `csi.CreateSnapshotResponse`. -/
structure CreateSnapshotResponse where
  Snapshot : Snapshot
  deriving DecidableEq, Repr

/-- The local variables of `CreateSnapshot` that are live once the source fileset is
resolved and checked (line 1234). -/
structure CreateSnapshotLocals where
  volID : Str
  volumeIDMembers : scaleVolId
  conn : ConnId
  filesystemName : Str
  filesetName : Str
  snapName : Str
  deriving DecidableEq, Repr

/-- Go `csi.DeleteSnapshotRequest`. -/
structure DeleteSnapshotRequest where
  SnapshotId : Str := []
  deriving DecidableEq, Repr

/-- Go `csi.DeleteSnapshotResponse`. -/
structure DeleteSnapshotResponse where
  deriving DecidableEq, Repr

/-- The local variables of `DeleteSnapshot` that are live once the cluster and the
filesystem of the identifier are resolved (line 1359). -/
structure DeleteSnapshotLocals where
  conn : ConnId
  filesystemName : Str
  filesetName : Str
  snapshotName : Str
  deriving DecidableEq, Repr

/-- Go `csi.ControllerExpandVolumeRequest`. -/
structure ControllerExpandVolumeRequest where
  VolumeId : Str := []
  CapacityRange : Option CapacityRange := none
  deriving DecidableEq, Repr

/-- Go `csi.ControllerExpandVolumeResponse`. -/
structure ControllerExpandVolumeResponse where
  CapacityBytes : Int
  NodeExpansionRequired : Bool
  deriving DecidableEq, Repr

/-- The local variables of `ControllerExpandVolume` that are live once the fileset is
resolved and the name-integrity check has passed (line 1464). -/
structure ControllerExpandVolumeLocals where
  capacity : Nat
  conn : ConnId
  filesystemName : Str
  filesetResp : Fileset_v2
  deriving DecidableEq, Repr

section Lifecycle

variable {σ : Type} (bk : Backend σ) (pkg : Pkg) (ext : Ext) (cs : ScaleControllerServer)

/-- Go `DeleteVolume`, lines 914-962: the identifier is decoded, the connectors are
resolved, the backend filesystem and the relative symlink path are computed. -/
def DeleteVolume_resolve (req : DeleteVolumeRequest) : M σ DeleteVolumeLocals :=
  match cs.Driver.ValidateControllerServiceRequest .RPC_CREATE_DELETE_VOLUME with
  | some err =>
    /- the `%v` of the request is rendered by its volume id -/
    fail (.status .InvalidArgument (Sprintf [lit "invalid delete volume req (",
      req.VolumeId, lit "): ", err.Error]))
  | none =>
  /- For now the image get unconditionally deleted, but here retention policy can be
     checked -/
  let volumeID := req.VolumeId
  if volumeID = [] then
    fail (.status .InvalidArgument (lit "volume Id is missing"))
  else do
  let volumeIdMembers ← liftE (GetVolIdMembers volumeID)
  let conn ← liftE (getConnFromClusterID cs volumeIdMembers.ClusterId)
  match cs.Driver.connmap (lit "primary") with
  | none =>
    fail (.status .Internal (lit "unable to find primary cluster details in custom resource"))
  | some primaryConn => do
  /- FsUUID in volumeIdMembers will be of Primary cluster. So lets get Name of it from
     Primary cluster -/
  let FilesystemName ← call bk primaryConn (.GetFilesystemName volumeIdMembers.FsUUID)
    (fun err => .status .Internal (Sprintf [lit "unable to get filesystem Name for Id [",
      volumeIdMembers.FsUUID, lit "] and clusterId [", volumeIdMembers.ClusterId,
      lit "]. Error [", err.Error, lit "]"]))
  let mountInfo ← call bk primaryConn (.GetFilesystemMountDetails FilesystemName)
    (fun _ => .status .Internal (Sprintf [lit "unable to get mount info for FS [",
      FilesystemName, lit "] in primary cluster"]))
  let FilesystemName := pkg.getRemoteFsName mountInfo.RemoteDeviceName
  let sLinkRelPath :=
    strings.Replace1 volumeIdMembers.SymLnkPath cs.Driver.primary.PrimaryFSMount
  let sLinkRelPath := strings.Trim sLinkRelPath (lit "!/")
  pure
    { volumeIdMembers := volumeIdMembers, conn := conn, primaryConn := primaryConn,
      FilesystemName := FilesystemName, sLinkRelPath := sLinkRelPath }

/-- Go `DeleteVolume`, lines 964-1000: the backing object is removed, the fileset of a
fileset-backed volume (if it is still the one of this volume and has no snapshot) or
the directory of a lightweight volume. -/
def DeleteVolume_backing (loc : DeleteVolumeLocals) : M σ Unit :=
  if loc.volumeIdMembers.IsFilesetBased then do
    let FilesetName ← call bk loc.conn
      (.GetFileSetNameFromId loc.FilesystemName loc.volumeIdMembers.FsetId)
      (fun _ => .status .Internal (Sprintf [lit "unable to get Fileset Name for Id [",
        loc.volumeIdMembers.FsetId, lit "] FS [", loc.FilesystemName, lit "] ClusterId [",
        loc.volumeIdMembers.ClusterId, lit "]"]))
    if FilesetName ≠ [] then
      /- Confirm it is same fileset which was created for this PV -/
      let pvName := filepath.Base loc.sLinkRelPath
      if pvName = FilesetName then do
        /- Check if fileset exist has any snapshot -/
        let snapshotList ← call bk loc.conn
          (.ListFilesetSnapshots loc.FilesystemName FilesetName)
          (fun err => .status .Internal (Sprintf [lit "unable to list snapshot for fileset [",
            FilesetName, lit "]. Error: [", err.Error, lit "]"]))
        if snapshotList.length > 0 then
          fail (.status .InvalidArgument (Sprintf [lit "volume fileset [", FilesetName,
            lit "] contains one or more snapshot, delete snapshot/volumesnapshot"]))
        else
          call bk loc.conn (.DeleteFileset loc.FilesystemName FilesetName)
            (fun err => .status .Internal (Sprintf [lit "unable to Delete Fileset [",
              FilesetName, lit "] for FS [", loc.FilesystemName, lit "] and clusterId [",
              loc.volumeIdMembers.ClusterId, lit "].Error : [", err.Error, lit "]"]))
      else
        /- PV name from path does not match with filesetName. Skipping delete of fileset -/
        pure ()
    else pure ()
  else
    /- Delete Dir for Lw volume -/
    call bk loc.primaryConn
      (.DeleteDirectory cs.Driver.primary.GetPrimaryFs loc.sLinkRelPath)
      (fun err => .status .Internal (Sprintf [lit "unable to Delete Dir using FS [",
        cs.Driver.primary.GetPrimaryFs, lit "] Relative SymLink [", loc.sLinkRelPath,
        lit "]. Error [", err.Error, lit "]"]))

/-- Go `DeleteVolume`, lines 1002-1008: the access symlink is deleted. -/
def DeleteVolume_symlink (loc : DeleteVolumeLocals) : M σ DeleteVolumeResponse := do
  call bk loc.primaryConn (.DeleteSymLnk cs.Driver.primary.GetPrimaryFs loc.sLinkRelPath)
    (fun err => .status .Internal (Sprintf [lit "unable to delete symlnk [",
      cs.Driver.primary.GetPrimaryFs, lit ":", loc.sLinkRelPath, lit "] Error [", err.Error,
      lit "]"]))
  pure {}

/-- Go `DeleteVolume` (lines 914-1009).  On a failure the response the code may return
next to the error is dropped. -/
def DeleteVolume (req : DeleteVolumeRequest) : M σ DeleteVolumeResponse := do
  let loc ← DeleteVolume_resolve bk pkg cs req
  DeleteVolume_backing bk cs loc
  DeleteVolume_symlink bk cs loc

/-- Go `ControllerUnpublishVolume` (lines 1042-1060). -/
def ControllerUnpublishVolume (req : ControllerUnpublishVolumeRequest) :
    M σ ControllerUnpublishVolumeResponse :=
  match cs.Driver.ValidateControllerServiceRequest .RPC_PUBLISH_UNPUBLISH_VOLUME with
  | some err =>
    fail (.status .Internal (Sprintf
      [lit "ControllerUnpublishVolume: ValidateControllerServiceRequest failed: ", err.Error]))
  | none =>
  let volumeID := req.VolumeId
  /- <cluster_id>;<filesystem_uuid>;path=<symlink_path> -/
  let splitVolID := strings.Split volumeID ';'
  if splitVolID.length < 3 then
    fail (.status .InvalidArgument
      (lit "ControllerUnpublishVolume VolumeID is not in proper format"))
  else pure {}

/-- Go `ControllerPublishVolume`, lines 1062-1145: the request is checked, the node
identifier is translated and the mount state of the primary and of the volume's
filesystem on the node is determined. -/
def ControllerPublishVolume_resolve (req : ControllerPublishVolumeRequest) :
    M σ ControllerPublishVolumeLocals :=
  match cs.Driver.ValidateControllerServiceRequest .RPC_PUBLISH_UNPUBLISH_VOLUME with
  | some err =>
    fail (.status .Internal (Sprintf
      [lit "ControllerPublishVolume: ValidateControllerServiceRequest failed: ", err.Error]))
  | none =>
  let nodeID := req.NodeId
  if nodeID = [] then
    fail (.status .InvalidArgument (lit "NodeID not present"))
  else
  let volumeID := req.VolumeId
  if volumeID = [] then
    fail (.status .InvalidArgument (lit "ControllerPublishVolume : VolumeID is not present"))
  else
  /- VolumeID format : <cluster_id>;<filesystem_uuid>;path=<symlink_path> -/
  let splitVolID := strings.Split volumeID ';'
  if splitVolID.length < 3 then
    fail (.status .InvalidArgument
      (lit "ControllerPublishVolume : VolumeID is not in proper format"))
  else
  let filesystemID := splitVolID.getD 1 []
  /- if SKIP_MOUNT_UNMOUNT == "yes" then mount/unmount will not be invoked -/
  let skipMountUnmount := ext.GetEnv (lit "SKIP_MOUNT_UNMOUNT") yes
  match cs.Driver.connmap (lit "primary") with
  | none => fail nilConnectorPanic
  | some primary => do
  /- Get filesystem name from UUID -/
  let fsName ← call bk primary (.GetFilesystemName filesystemID)
    (fun err => .status .Internal (Sprintf
      [lit "ControllerPublishVolume : Error in getting filesystem Name for filesystem ID of ",
        filesystemID, lit ". Error [", err.Error, lit "]"]))
  /- Check if primary filesystem is mounted. -/
  let primaryfsName := cs.Driver.primary.GetPrimaryFs
  let pfsMount ← call bk primary (.GetFilesystemMountDetails primaryfsName)
    (fun err => .status .Internal (Sprintf
      [lit "ControllerPublishVolume : Error in getting filesystem mount details for ",
        primaryfsName, lit ". Error [", err.Error, lit "]"]))
  /- Node mapping check -/
  let scalenodeID := ext.GetEnv nodeID notFound
  /- Additional node mapping check in case of k8s node id start with number. -/
  let scalenodeID :=
    if scalenodeID = notFound then
      let mappingPrefix := ext.GetEnv (lit "SCALE_NODE_MAPPING_PREFIX") (lit "K8sNodePrefix_")
      let scalenodeID := ext.GetEnv (mappingPrefix ++ nodeID) notFound
      if scalenodeID = notFound then nodeID else scalenodeID
    else scalenodeID
  let ispFsMounted := ext.StringInSlice scalenodeID pfsMount.NodesMounted
  /- Skip if primary filesystem and volume filesystem is same -/
  let isFsMounted ← (
    if primaryfsName ≠ fsName then do
      /- Check if filesystem is mounted -/
      let fsMount ← call bk primary (.GetFilesystemMountDetails fsName)
        (fun err => .status .Internal (Sprintf
          [lit "ControllerPublishVolume : Error in getting filesystem mount details for ",
            fsName, lit ". Error [", err.Error, lit "]"]))
      pure (ext.StringInSlice scalenodeID fsMount.NodesMounted)
    else pure ispFsMounted)
  pure
    { primary := primary, primaryfsName := primaryfsName, fsName := fsName,
      scalenodeID := scalenodeID, skipMountUnmount := skipMountUnmount,
      ispFsMounted := ispFsMounted, isFsMounted := isFsMounted }

/-- Go `ControllerPublishVolume`, lines 1147-1176: the mount decision. -/
def ControllerPublishVolume_mount (loc : ControllerPublishVolumeLocals) :
    M σ ControllerPublishVolumeResponse :=
  if loc.isFsMounted ∧ loc.ispFsMounted then pure {}
  else if loc.skipMountUnmount = lit "yes" ∧ (¬ loc.isFsMounted ∨ ¬ loc.ispFsMounted) then
    fail (.status .Internal (Sprintf
      [lit "ControllerPublishVolume : SKIP_MOUNT_UNMOUNT == yes and either ",
        loc.primaryfsName, lit " or ", loc.fsName, lit " is not mounted on node ",
        loc.scalenodeID, lit "."]))
  else do
  /- mount the primary filesystem if not mounted -/
  (if ¬ loc.ispFsMounted ∧ loc.skipMountUnmount = no then
    call bk loc.primary (.MountFilesystem loc.primaryfsName loc.scalenodeID)
      (fun err => .status .Internal (Sprintf
        [lit "ControllerPublishVolume :  Error in mounting filesystem ", loc.primaryfsName,
          lit " on node ", loc.scalenodeID, lit ". Error [", err.Error, lit "]"]))
  else pure ())
  /- mount the volume filesystem if mounted -/
  (if ¬ loc.isFsMounted ∧ loc.skipMountUnmount = no ∧ loc.primaryfsName ≠ loc.fsName then
    call bk loc.primary (.MountFilesystem loc.fsName loc.scalenodeID)
      (fun err => .status .Internal (Sprintf
        [lit "ControllerPublishVolume : Error in mounting filesystem ", loc.fsName,
          lit " on node ", loc.scalenodeID, lit ". Error [", err.Error, lit "]"]))
  else pure ())
  pure {}

/-- Go `ControllerPublishVolume` (lines 1062-1177). -/
def ControllerPublishVolume (req : ControllerPublishVolumeRequest) :
    M σ ControllerPublishVolumeResponse := do
  let loc ← ControllerPublishVolume_resolve bk ext cs req
  ControllerPublishVolume_mount bk loc

/-- Go `getSnapshotCreateTimestamp` (lines 1287-1303). -/
def getSnapshotCreateTimestamp (conn : ConnId) (fs fset snap : Str) : M σ Timestamp := do
  let createTS ← call bk conn (.GetSnapshotCreateTimestamp fs fset snap) id
  /- "2006-01-02 15:04:05,000" is the format in which REST API return creation timestamp -/
  pure { Seconds := ext.ParseUnix createTS, Nanos := 0 }

/-- Go `getSnapRestoreSize` (lines 1305-1319). -/
def getSnapRestoreSize (conn : ConnId) (filesystemName filesetName : Str) : M σ Int := do
  let quotaResp ← call bk conn (.GetFilesetQuotaDetails filesystemName filesetName) id
  if quotaResp.BlockLimit < 0 then
    fail (.status .Internal (Sprintf [lit "invalid block limit [",
      FormatInt quotaResp.BlockLimit, lit "] for fileset [", filesystemName, lit ":",
      filesetName, lit "] found"]))
  else
    /- REST API returns block limit in kb, convert it to bytes and return -/
    pure (int64 (uint64 (quotaResp.BlockLimit * 1024)))

/-- Go `CreateSnapshot`, lines 1181-1234: the source volume identifier is decoded, its
fileset is resolved and checked to be an independent fileset with the name the path
gives. -/
def CreateSnapshot_resolve (req : Option CreateSnapshotRequest) : M σ CreateSnapshotLocals :=
  match cs.Driver.ValidateControllerServiceRequest .RPC_CREATE_DELETE_SNAPSHOT with
  | some err =>
    fail (.status .Internal (Sprintf
      [lit "CreateSnapshot ValidateControllerServiceRequest failed: ", err.Error]))
  | none =>
  match req with
  | none => fail (.status .InvalidArgument (lit "CreateSnapshot - Request cannot be empty"))
  | some req =>
  let volID := req.SourceVolumeId
  if volID = [] then
    fail (.status .InvalidArgument
      (lit "CreateSnapshot - Source Volume ID is a required field"))
  else do
  let volumeIDMembers ← mapErr
    (fun err => .status .InvalidArgument (Sprintf
      [lit "CreateSnapshot - Error in source Volume ID ", volID, lit ": ", err.Error]))
    (liftE (GetVolIdMembers volID))
  if volumeIDMembers.IsFilesetBased = false then
    fail (.status .InvalidArgument (Sprintf [lit "CreateSnapshot - volume [", volID,
      lit "] - Volume snapshot can only be created when source volume is independent fileset"]))
  else do
  let conn ← liftE (getConnFromClusterID cs volumeIDMembers.ClusterId)
  let filesystemName ← call bk conn (.GetFilesystemName volumeIDMembers.FsUUID)
    (fun err => .status .Internal (Sprintf
      [lit "CreateSnapshot - Unable to get filesystem Name for Filesystem Uid [",
        volumeIDMembers.FsUUID, lit "] and clusterId [", volumeIDMembers.ClusterId,
        lit "]. Error [", err.Error, lit "]"]))
  let filesetResp ← call bk conn
    (.GetFileSetResponseFromId filesystemName volumeIDMembers.FsetId)
    (fun _ => .status .Internal (Sprintf
      [lit "CreateSnapshot - Unable to get Fileset Name for Fileset Id [",
        volumeIDMembers.FsetId, lit "] FS [", filesystemName, lit "] ClusterId [",
        volumeIDMembers.ClusterId, lit "]"]))
  if filesetResp.Config.ParentId > 0 then
    fail (.status .InvalidArgument (Sprintf [lit "CreateSnapshot - volume [", volID,
      lit "] - Volume snapshot can only be created when source volume is independent fileset"]))
  else
  let filesetName := filesetResp.FilesetName
  let sLinkRelPath :=
    strings.Replace1 volumeIDMembers.SymLnkPath cs.Driver.primary.PrimaryFSMount
  let sLinkRelPath := strings.Trim sLinkRelPath (lit "!/")
  /- Confirm it is same fileset which was created for this PV -/
  let pvName := filepath.Base sLinkRelPath
  if pvName ≠ filesetName then
    fail (.status .Internal (Sprintf [lit "CreateSnapshot - PV name from path [", pvName,
      lit "] does not match with filesetName [", filesetName, lit "]."]))
  else
  let snapName := req.Name
  pure
    { volID := volID, volumeIDMembers := volumeIDMembers, conn := conn,
      filesystemName := filesystemName, filesetName := filesetName, snapName := snapName }

/-- Go `CreateSnapshot`, lines 1236-1259: the snapshot is created unless it exists
already or the fileset has reached the limit of snapshots. -/
def CreateSnapshot_ensure (loc : CreateSnapshotLocals) : M σ Unit := do
  let snapExist ← call bk loc.conn
    (.CheckIfSnapshotExist loc.filesystemName loc.filesetName loc.snapName)
    (fun err => .status .Internal (Sprintf [lit "Unable to get the snapshot details for [",
      loc.snapName, lit "]. Error [", err.Error, lit "]"]))
  if snapExist = false then do
    let snapshotList ← call bk loc.conn
      (.ListFilesetSnapshots loc.filesystemName loc.filesetName)
      (fun err => .status .Internal (Sprintf [lit "unable to list snapshots for fileset [",
        loc.filesystemName, lit ":", loc.filesetName, lit "]. Error: [", err.Error, lit "]"]))
    if snapshotList.length ≥ 256 then
      fail (.status .OutOfRange (Sprintf [lit "max limit of snapshots reached for fileset [",
        loc.filesystemName, lit ":", loc.filesetName,
        lit "]. No more snapshots can be created for this fileset."]))
    else
      call bk loc.conn (.CreateSnapshot loc.filesystemName loc.filesetName loc.snapName)
        (fun snaperr => .status .Internal (Sprintf [lit "unable to create snapshot [",
          loc.snapName, lit "]. Error [", snaperr.Error, lit "]"]))
  else pure ()

/-- Go `CreateSnapshot`, lines 1261-1284: the identifier, the creation time and the
restore size of the snapshot are put in the response. -/
def CreateSnapshot_respond (loc : CreateSnapshotLocals) : M σ CreateSnapshotResponse := do
  /- clusterId;FSUUID;filesetName;snapshotName;path -/
  let snapID := snapID loc.volumeIDMembers.ClusterId loc.volumeIDMembers.FsUUID
    loc.filesetName loc.snapName
  let timestamp ← getSnapshotCreateTimestamp bk ext loc.conn loc.filesystemName
    loc.filesetName loc.snapName
  let restoreSize ← getSnapRestoreSize bk loc.conn loc.filesystemName loc.filesetName
  pure
    { Snapshot :=
      { SnapshotId := snapID, SourceVolumeId := loc.volID, ReadyToUse := true,
        CreationTime := timestamp, SizeBytes := restoreSize } }

/-- Go `CreateSnapshot` (lines 1179-1285). -/
def CreateSnapshot (req : Option CreateSnapshotRequest) : M σ CreateSnapshotResponse := do
  let loc ← CreateSnapshot_resolve bk cs req
  CreateSnapshot_ensure bk loc
  CreateSnapshot_respond bk ext loc

/-- Go `DeleteSnapshot`, lines 1322-1357: the identifier is split and its cluster and
filesystem are resolved. -/
def DeleteSnapshot_resolve (req : Option DeleteSnapshotRequest) : M σ DeleteSnapshotLocals :=
  match cs.Driver.ValidateControllerServiceRequest .RPC_CREATE_DELETE_SNAPSHOT with
  | some err =>
    fail (.status .Internal (Sprintf
      [lit "DeleteSnapshot - ValidateControllerServiceRequest failed: ", err.Error]))
  | none =>
  match req with
  | none => fail (.status .InvalidArgument (lit "DeleteSnapshot - request cannot be empty"))
  | some req =>
  let snapID := req.SnapshotId
  if snapID = [] then
    fail (.status .InvalidArgument (lit "DeleteSnapshot - snapshot Id is a required field"))
  else
  let splitSid := strings.Split snapID ';'
  if splitSid.length < 4 then
    fail (.status .InvalidArgument (Sprintf [lit "DeleteSnapshot - snapshot Id [", snapID,
      lit "] is not in a valid format"]))
  else do
  let clusterID := splitSid.getD 0 []
  let fsUUID := splitSid.getD 1 []
  let filesetName := splitSid.getD 2 []
  let snapshotName := splitSid.getD 3 []
  let conn ← liftE (getConnFromClusterID cs clusterID)
  let filesystemName ← call bk conn (.GetFilesystemName fsUUID)
    (fun err => .status .Internal (Sprintf
      [lit "DeleteSnapshot - unable to get filesystem Name for Filesystem UID [", fsUUID,
        lit "] and clusterId [", clusterID, lit "]. Error [", err.Error, lit "]"]))
  pure
    { conn := conn, filesystemName := filesystemName, filesetName := filesetName,
      snapshotName := snapshotName }

/-- Go `DeleteSnapshot`, lines 1359-1383.  The value is the response of the Go pair
`(response, error)` when the error is nil: `none` is the pair `(nil, nil)`, which line
1378 returns (its `err` is the nil error of the existence check above it, not
`snaperr`). -/
def DeleteSnapshot_delete (loc : DeleteSnapshotLocals) : M σ (Option DeleteSnapshotResponse) := do
  let filesetExist ← call bk loc.conn (.CheckIfFilesetExist loc.filesystemName loc.filesetName)
    (fun err => .status .Internal (Sprintf [lit "DeleteSnapshot - unable to get the fileset ",
      loc.filesetName, lit " details details. Error [", err.Error, lit "]"]))
  /- skip delete if snapshot not exist, return success -/
  if filesetExist then do
    let snapExist ← call bk loc.conn
      (.CheckIfSnapshotExist loc.filesystemName loc.filesetName loc.snapshotName)
      (fun err => .status .Internal (Sprintf
        [lit "DeleteSnapshot - unable to get the snapshot details. Error [", err.Error,
          lit "]"]))
    /- skip delete snapshot if not exist, return success -/
    if snapExist then do
      let deleted ← invoke bk loc.conn
        (.DeleteSnapshot loc.filesystemName loc.filesetName loc.snapshotName)
      match deleted with
      | .error _ => pure none
      | .ok _ => pure (some {})
    else pure (some {})
  else pure (some {})

/-- Go `DeleteSnapshot` (lines 1321-1384). -/
def DeleteSnapshot (req : Option DeleteSnapshotRequest) :
    M σ (Option DeleteSnapshotResponse) := do
  let loc ← DeleteSnapshot_resolve bk cs req
  DeleteSnapshot_delete bk loc

/-- Go `ControllerExpandVolume`, lines 1399-1462: the request is checked, the fileset of
the identifier is resolved and its name is compared with the name the path gives. -/
def ControllerExpandVolume_resolve (req : ControllerExpandVolumeRequest) :
    M σ ControllerExpandVolumeLocals :=
  match cs.Driver.ValidateControllerServiceRequest .RPC_EXPAND_VOLUME with
  | some err =>
    fail (.status .Internal (Sprintf
      [lit "ControllerExpandVolume ValidateControllerServiceRequest failed: ", err.Error]))
  | none =>
  let volID := req.VolumeId
  if volID.length = 0 then
    fail (.status .InvalidArgument (lit "Volume ID missing in request"))
  else
  match req.CapacityRange with
  | none => fail (.status .InvalidArgument (lit "Capacity range not provided"))
  | some capRange => do
  let capacity := uint64 capRange.RequiredBytes
  let volumeIDMembers ← mapErr
    (fun err => .status .InvalidArgument (Sprintf
      [lit "ControllerExpandVolume - Error in source Volume ID ", volID, lit ": ", err.Error]))
    (liftE (GetVolIdMembers volID))
  if volumeIDMembers.IsFilesetBased = false then
    fail (.status .InvalidArgument (Sprintf [lit "ControllerExpandVolume - volume [", volID,
      lit "] - Volume exapansion is supported with fileset based volumes"]))
  else do
  let conn ← liftE (getConnFromClusterID cs volumeIDMembers.ClusterId)
  let filesystemName ← call bk conn (.GetFilesystemName volumeIDMembers.FsUUID)
    (fun err => .status .Internal (Sprintf
      [lit "ControllerExpandVolume - Unable to get filesystem Name for Filesystem Uid [",
        volumeIDMembers.FsUUID, lit "] and clusterId [", volumeIDMembers.ClusterId,
        lit "]. Error [", err.Error, lit "]"]))
  let filesetResp ← call bk conn
    (.GetFileSetResponseFromId filesystemName volumeIDMembers.FsetId)
    (fun err =>
      if strings.Contains err.Error (lit "no filesets found for Id") then
        .status .NotFound (Sprintf [lit "ControllerExpandVolume - fileset Id [",
          volumeIDMembers.FsetId, lit "] in filesystem [", filesystemName,
          lit "] and ClusterId [", volumeIDMembers.ClusterId, lit "] not found"])
      else
        .status .Internal (Sprintf
          [lit "ControllerExpandVolume - unable to get Fileset Name for Fileset Id [",
            volumeIDMembers.FsetId, lit "] FS [", filesystemName, lit "] ClusterId [",
            volumeIDMembers.ClusterId, lit "]"]))
  let sLinkRelPath :=
    strings.Replace1 volumeIDMembers.SymLnkPath cs.Driver.primary.PrimaryFSMount
  let sLinkRelPath := strings.Trim sLinkRelPath (lit "!/")
  /- Confirm it is same fileset which was created for this PV -/
  let pvName := filepath.Base sLinkRelPath
  let filesetName := filesetResp.FilesetName
  if pvName ≠ filesetName then
    fail (.status .NotFound (Sprintf [lit "ControllerExpandVolume - PV name from path [",
      pvName, lit "] does not match with filesetName [", filesetName, lit "]."]))
  else
  pure
    { capacity := capacity, conn := conn, filesystemName := filesystemName,
      filesetResp := filesetResp }

/-- Go `ControllerExpandVolume`, lines 1464-1490: the quota is raised if it is below
the requested capacity. -/
def ControllerExpandVolume_expand (loc : ControllerExpandVolumeLocals) :
    M σ ControllerExpandVolumeResponse := do
  let quota ← call bk loc.conn
    (.ListFilesetQuota loc.filesystemName loc.filesetResp.FilesetName)
    (fun err => .status .Internal (Sprintf [lit "unable to list quota for fileset [",
      loc.filesetResp.FilesetName, lit "] in filesystem [", loc.filesystemName,
      lit "]. Error [", err.Error, lit "]"]))
  let filesetQuotaBytes ← mapErr
    (fun err => .status .Internal (Sprintf [lit "unable to convert quota for fileset [",
      loc.filesetResp.FilesetName, lit "] in filesystem [", loc.filesystemName,
      lit "]. Error [", err.Error, lit "]"]))
    (liftE (pkg.ConvertToBytes quota))
  let capacity ← (
    if filesetQuotaBytes < loc.capacity then do
      let volsize := FormatUint loc.capacity
      call bk loc.conn
        (.SetFilesetQuota loc.filesystemName loc.filesetResp.FilesetName volsize)
        (fun err => .status .Internal
          (Sprintf [lit "unable to expand the volume. Error [", err.Error, lit "]"]))
      pure loc.capacity
    else pure filesetQuotaBytes)
  pure { CapacityBytes := int64 capacity, NodeExpansionRequired := false }

/-- Go `ControllerExpandVolume` (lines 1398-1491). -/
def ControllerExpandVolume (req : ControllerExpandVolumeRequest) :
    M σ ControllerExpandVolumeResponse := do
  let loc ← ControllerExpandVolume_resolve bk cs req
  ControllerExpandVolume_expand bk pkg loc

end Lifecycle

/-- The answer of the backend to the connector call `conn.k` issued in state `w`. -/
def reply {σ : Type} (bk : Backend σ) (conn : ConnId) (k : Call) (w : Sys σ) :
    Except error k.Ret :=
  (bk.respond conn k w.backend).1

/-- The state after the connector call `conn.k` was issued in state `w`. -/
def after {σ : Type} (bk : Backend σ) (conn : ConnId) (k : Call) (w : Sys σ) : Sys σ :=
  { w with backend := (bk.respond conn k w.backend).2, log := w.log ++ [(conn, k)] }

/-- The in-flight set is the same before and after, and every connector call issued in
between satisfies `P`. -/
def onlyCalls {σ : Type} (P : Call → Bool) (w w1 : Sys σ) : Prop :=
  w1.reqmap = w.reqmap ∧ ∃ calls, w1.log = w.log ++ calls ∧ ∀ c ∈ calls, P c.2 = true

/-- The calls that delete an access symlink. -/
def Call.isDeleteSymLnk : Call → Bool
  | .DeleteSymLnk .. => true
  | _ => false

/-- The calls `CreateSnapshot` issues to fill in its response. -/
def Call.isSnapshotDetail : Call → Bool
  | .GetSnapshotCreateTimestamp .. => true
  | .GetFilesetQuotaDetails .. => true
  | _ => false

/-! ## A configurable backend for evaluating the lifecycle operations -/

/-- What the backend of `bkScenario` holds and which of its calls fail. -/
structure Scenario where
  filesetName : Str := lit "pvc-1"
  parentId : Int := 0
  snapshots : List Snapshot_v2 := []
  snapshotExists : Bool := false
  filesetExists : Bool := true
  quota : Str := lit "1073741824"
  nodesMounted : List Str := []
  failing : Call → Bool := fun _ => false

/-- A backend without state that answers from a `Scenario`: one filesystem `fs1`
(UUID `u1`, remote device `c1:fs1`) with one fileset. -/
def bkScenario (sc : Scenario) : Backend Unit where
  respond := fun _ k s =>
    if sc.failing k then (.error (.errorf (lit "backend failure")), s)
    else
      match k with
      | .GetFilesystemName .. => (.ok (lit "fs1"), s)
      | .GetFilesystemMountDetails .. =>
        (.ok { MountPoint := lit "/ibm/fs1", NodesMounted := sc.nodesMounted,
               RemoteDeviceName := lit "c1:fs1", Status := lit "mounted" }, s)
      | .GetFileSetNameFromId .. => (.ok sc.filesetName, s)
      | .GetFileSetResponseFromId .. =>
        (.ok { Config := { Path := lit "/ibm/fs1/pvc-1", ParentId := sc.parentId },
               FilesetName := sc.filesetName }, s)
      | .ListFilesetSnapshots .. => (.ok sc.snapshots, s)
      | .CheckIfSnapshotExist .. => (.ok sc.snapshotExists, s)
      | .CheckIfFilesetExist .. => (.ok sc.filesetExists, s)
      | .ListFilesetQuota .. => (.ok sc.quota, s)
      | .GetSnapshotCreateTimestamp .. => (.ok (lit "2020-06-01 10:00:00,000"), s)
      | .GetFilesetQuotaDetails .. => (.ok { BlockLimit := 1048576 }, s)
      | .SetFilesetQuota .. => (.ok (), s)
      | .DeleteFileset .. => (.ok (), s)
      | .DeleteDirectory .. => (.ok (), s)
      | .DeleteSymLnk .. => (.ok (), s)
      | .MountFilesystem .. => (.ok (), s)
      | .CreateSnapshot .. => (.ok (), s)
      | .DeleteSnapshot .. => (.ok (), s)
      | _ => (.error (.errorf (lit "unavailable")), s)

/-- A registry with the primary cluster and cluster `c1`, both served by connector `0`. -/
def csTwoKeys : ScaleControllerServer where
  Driver :=
    { connmap := fun cid =>
        if cid = lit "primary" then some 0 else if cid = lit "c1" then some 0 else none
      primary :=
        { PrimaryFs := lit "fs1", PrimaryFset := lit "csifset", PrimaryFSMount := lit "/ibm/fs1",
          SymlinkAbsolutePath := lit "/ibm/fs1/csifset/.volumes",
          SymlinkRelativePath := lit "csifset/.volumes", PrimaryCid := lit "c1" }
      ValidateControllerServiceRequest := fun _ => none }

/-- Quota sizes are read as decimal byte counts; anything else is no quota. -/
def pkgDecimal : Pkg where
  getScaleVolumeOptions := fun _ =>
    .ok { VolBackendFs := lit "fs1", IsFilesetBased := true }
  ConvertToBytes := fun quota =>
    if quota = lit "1073741824" then .ok 1073741824
    else if quota = lit "2147483648" then .ok 2147483648
    else .error (.errorf (lit "Invalid number specified"))
  getRemoteFsName := fun name => (strings.Split name ':').getD 1 []

/-- An environment in which the skip mode is the given one and no node mapping is set. -/
def extSkip (mode : Str) : Ext where
  GetEnv := fun name dflt => if name = lit "SKIP_MOUNT_UNMOUNT" then mode else dflt
  StringInSlice := fun a list => list.contains a
  ParseUnix := fun _ => 0

/-- The identifier of the fileset-backed volume `pvc-1` in cluster `c1`. -/
def volIdPvc1 : Str := lit "c1;u1;fileset=7;path=/ibm/fs1/csifset/.volumes/pvc-1"

/-- The identifier of snapshot `snap-1` of the fileset `pvc-1`. -/
def snapIdPvc1 : Str := lit "c1;u1;pvc-1;snap-1;pvc-1-data"

/-- The volume `pvc-1` of 1 GiB on filesystem `fs1`. -/
def scVolPvc1 : scaleVolume :=
  { VolName := lit "pvc-1", VolSize := 1073741824, VolBackendFs := lit "fs1" }

/-- The lookups by which the lifecycle operations resolve an identifier. -/
def Call.isResolution : Call → Bool
  | .GetFilesystemName .. => true
  | .GetFilesystemMountDetails .. => true
  | .GetFileSetResponseFromId .. => true
  | _ => false

/-- The quota-set calls. -/
def Call.isSetFilesetQuota : Call → Bool
  | .SetFilesetQuota .. => true
  | _ => false

/-- The delete-snapshot calls. -/
def Call.isDeleteSnapshot : Call → Bool
  | .DeleteSnapshot .. => true
  | _ => false

/-- The mount calls. -/
def Call.isMountFilesystem : Call → Bool
  | .MountFilesystem .. => true
  | _ => false

/-- A request to expand `pvc-1` to the given number of bytes. -/
def reqExpand (bytes : Int) : ControllerExpandVolumeRequest :=
  { VolumeId := volIdPvc1, CapacityRange := some { RequiredBytes := bytes } }

/-- The registry of `csTwoKeys` with another primary filesystem, `fs0`. -/
def csPrimaryFs0 : ScaleControllerServer where
  Driver :=
    { connmap := csTwoKeys.Driver.connmap
      primary :=
        { PrimaryFs := lit "fs0", PrimaryFset := lit "csifset", PrimaryFSMount := lit "/ibm/fs0",
          SymlinkAbsolutePath := lit "/ibm/fs0/csifset/.volumes",
          SymlinkRelativePath := lit "csifset/.volumes", PrimaryCid := lit "c1" }
      ValidateControllerServiceRequest := fun _ => none }

/-! ## More concrete instances: environments, two clusters, a backend with state -/

/-- An environment given by the list of its variables: `utils.GetEnv` answers with the
value of a variable that is set and with the default otherwise. -/
def extEnv (env : List (Str × Str)) : Ext where
  GetEnv := fun name dflt =>
    match env.lookup name with
    | some value => value
    | none => dflt
  StringInSlice := fun a list => list.contains a
  ParseUnix := fun _ => 0

/-- A registry with two clusters: the primary cluster `c1` behind connector `0` (also
under the reserved key `primary`) and the cluster `c2` behind connector `1`. -/
def csRemote : ScaleControllerServer where
  Driver :=
    { connmap := fun cid =>
        if cid = lit "primary" then some 0
        else if cid = lit "c1" then some 0
        else if cid = lit "c2" then some 1
        else none
      primary := csTwoKeys.Driver.primary
      ValidateControllerServiceRequest := fun _ => none }

/-- The identifier of the fileset-backed volume `pvc-1` owned by cluster `c2`. -/
def volIdRemote : Str := lit "c2;u1;fileset=7;path=/ibm/fs1/csifset/.volumes/pvc-1"

/-- The identifier of snapshot `snap-1` of the fileset `pvc-1` owned by cluster `c2`. -/
def snapIdRemote : Str := lit "c2;u1;pvc-1;snap-1;pvc-1-data"

/-- The filesystem-name lookups. -/
def Call.isGetFilesystemName : Call → Bool
  | .GetFilesystemName .. => true
  | _ => false

/-- A backend without state whose filesets all have the given block limit. -/
def bkBlockLimit (blockLimit : Int) : Backend Unit where
  respond := fun _ k s =>
    match k with
    | .GetFilesetQuotaDetails .. => (.ok { BlockLimit := blockLimit }, s)
    | _ => (.error (.errorf (lit "unavailable")), s)

/-- State of the backend `bkStore`: the filesets of filesystem `fs1` with their link
paths (`--` when not linked), their quotas, and the directories and symlinks present. -/
structure Store where
  filesets : List (Str × Str) := []
  quotas : List (Str × Str) := []
  paths : List Str := []
  deriving DecidableEq, Repr

/-- A backend with state: one local filesystem `fs1` (UUID `u1`, mounted at `/ibm/fs1`)
in which filesets, quotas, directories and symlinks are created on request and
remembered. -/
def bkStore : Backend Store where
  respond := fun _ k s =>
    match k with
    | .IsFilesetLinked .. => (.ok true, s)
    | .GetFilesystemDetails .. =>
      (.ok { Type_ := lit "local", UUID := lit "u1",
             Mount := { MountPoint := lit "/ibm/fs1", RemoteDeviceName := lit "c1:fs1",
                        Status := lit "mounted" } }, s)
    | .CheckIfFSQuotaEnabled .. => (.ok (), s)
    | .ListFileset _ filesetName =>
      match s.filesets.lookup filesetName with
      | some path => (.ok { Config := { Path := path }, FilesetName := filesetName }, s)
      | none => (.error (.errorf (lit "Invalid value in 'filesetName'")), s)
    | .CreateFileset _ filesetName _ =>
      (.ok (), { s with filesets := (filesetName, lit "--") :: s.filesets })
    | .LinkFileset _ filesetName linkpath =>
      (.ok (), { s with filesets := (filesetName, linkpath) :: s.filesets })
    | .ListFilesetQuota _ filesetName =>
      match s.quotas.lookup filesetName with
      | some quota => (.ok quota, s)
      | none => (.ok (lit "0"), s)
    | .SetFilesetQuota _ filesetName quota =>
      (.ok (), { s with quotas := (filesetName, quota) :: s.quotas })
    | .CheckIfFileDirPresent _ relPath => (.ok (s.paths.contains relPath), s)
    | .MakeDirectory _ relativePath _ _ => (.ok (), { s with paths := relativePath :: s.paths })
    | .CreateSymLink _ _ _ lnkPath => (.ok (), { s with paths := lnkPath :: s.paths })
    | .GetFileSetUid .. => (.ok (lit "7"), s)
    | _ => (.error (.errorf (lit "unavailable")), s)

/-- An idle system over the backend `bkStore` in the given state. -/
def sysStore (store : Store) : Sys Store := { backend := store, reqmap := fun _ => none }

/-- The request `reqPvc1` without its capacity range. -/
def reqNoCapacity : CreateVolumeRequest :=
  { Name := lit "pvc-1"
    VolumeCapabilities := some [{ Mode := .MULTI_NODE_MULTI_WRITER }] }

/-- The fileset-backed volume `pvc-1` of 1 GiB as `CreateVolume` sets it up for the
registry `csTwoKeys`. -/
def scVolFileset : scaleVolume :=
  { VolName := lit "pvc-1", VolSize := 1073741824, VolBackendFs := lit "fs1",
    IsFilesetBased := true, ClusterId := lit "c1", PrimarySLnkRelPath := lit "csifset/.volumes",
    PrimarySLnkPath := lit "/ibm/fs1/csifset/.volumes", PrimaryFS := lit "fs1",
    PrimaryFSMount := lit "/ibm/fs1", LocalFS := lit "fs1" }

/-- The details `bkStore` reports for filesystem `fs1`. -/
def fsDetailsFs1 : FileSystem_v2 :=
  { Type_ := lit "local", UUID := lit "u1",
    Mount := { MountPoint := lit "/ibm/fs1", RemoteDeviceName := lit "c1:fs1",
               Status := lit "mounted" } }

/-- The registry of `csTwoKeys` with an empty relative symlink path: the symlinks are
made directly under the primary mount point. -/
def csEmptyRel : ScaleControllerServer where
  Driver :=
    { connmap := csTwoKeys.Driver.connmap
      primary :=
        { PrimaryFs := lit "fs1", PrimaryFset := lit "csifset", PrimaryFSMount := lit "/ibm/fs1",
          SymlinkAbsolutePath := lit "/ibm/fs1/",
          SymlinkRelativePath := [], PrimaryCid := lit "c1" }
      ValidateControllerServiceRequest := fun _ => none }

/-- The lightweight volume `pvc-1` as `CreateVolume` sets it up for the registry
`csEmptyRel`. -/
def scVolEmptyRel : scaleVolume :=
  { VolName := lit "pvc-1", VolBackendFs := lit "fs1", ClusterId := lit "c1",
    PrimarySLnkRelPath := [], PrimarySLnkPath := lit "/ibm/fs1/", PrimaryFS := lit "fs1",
    PrimaryFSMount := lit "/ibm/fs1", LocalFS := lit "fs1" }

/-- The state of `bkStore` once the volume `pvc-1` of 1 GiB has been provisioned. -/
def storeProvisioned : Store :=
  { filesets := [(lit "pvc-1", lit "/ibm/fs1/pvc-1"), (lit "pvc-1", lit "--")]
    quotas := [(lit "pvc-1", lit "1073741824")]
    paths := [lit "csifset/.volumes/pvc-1", lit "pvc-1/pvc-1-data"] }

/-! ## Vocabulary for the ways `DeleteVolume` ends -/

section DeleteOutcome

variable {σ : Type} (bk : Backend σ) (cs : ScaleControllerServer)

/-- The run `run` of `DeleteVolume` ends with the delete-symlink call, issued at state
`w2`: its final state is `w2` followed by that call, it succeeds when the call
succeeds, and it fails with Internal when the call fails. -/
@[reducible] def endsWithDeleteSymLnk (loc : DeleteVolumeLocals) (w2 : Sys σ)
    (run : Except error DeleteVolumeResponse × Sys σ) : Prop :=
  run.2 = after bk loc.primaryConn
    (.DeleteSymLnk cs.Driver.primary.GetPrimaryFs loc.sLinkRelPath) w2 ∧
  (reply bk loc.primaryConn
      (.DeleteSymLnk cs.Driver.primary.GetPrimaryFs loc.sLinkRelPath) w2 = .ok () →
    run.1 = .ok {}) ∧
  (∀ e, reply bk loc.primaryConn
      (.DeleteSymLnk cs.Driver.primary.GetPrimaryFs loc.sLinkRelPath) w2 = .error e →
    ∃ msg, run.1 = .error (.status .Internal msg))

/-- The run `run` stops at state `w2` with an error of the given code: nothing is
issued after `w2`. -/
@[reducible] def stopsAt {α : Type} (code : Code) (w2 : Sys σ)
    (run : Except error α × Sys σ) : Prop :=
  ∃ msg, run = (.error (.status code msg), w2)

end DeleteOutcome

/-! ## The two parts of `createFilesetBasedVol` -/

section FilesetSteps

variable {σ : Type} (bk : Backend σ) (pkg : Pkg) (cs : ScaleControllerServer)

/-- Go `createFilesetBasedVol`, lines 252-323: the fileset is made to exist and to be
linked; the details of the fileset as last listed are handed on. -/
def createFilesetBasedVol_fileset (scVol : scaleVolume) (fsDetails : FileSystem_v2) :
    M σ Fileset_v2 := do
  /- fileset can not be created if filesystem is remote. -/
  liftE (validateRemoteFs cs fsDetails scVol)
  /- check if quota is enabled on volume filesystem -/
  (if scVol.VolSize ≠ 0 then
    call bk scVol.Connector (.CheckIfFSQuotaEnabled scVol.VolBackendFs)
      (fun _ => .status .Internal (Sprintf [lit "quota not enabled for filesystem ",
        scVol.VolBackendFs, lit " of cluster ", scVol.ClusterId]))
  else pure ())
  let opt := filesetOptions scVol
  /- Check if fileset exist -/
  let listed ← invoke bk scVol.Connector (.ListFileset scVol.VolBackendFs scVol.VolName)
  let filesetInfo ← (match listed with
    | .ok info => pure info
    | .error err =>
      if strings.Contains err.Error (lit "Invalid value in 'filesetName'") then do
        /- This means fileset is not present, create it -/
        call bk scVol.Connector (.CreateFileset scVol.VolBackendFs scVol.VolName opt)
          (fun fseterr => .status .Internal (Sprintf [lit "unable to create fileset [",
            scVol.VolName, lit "] in filesystem [", scVol.VolBackendFs, lit "]. Error: ",
            fseterr.Error]))
        /- list fileset and update filesetInfo -/
        call bk scVol.Connector (.ListFileset scVol.VolBackendFs scVol.VolName)
          (fun err => .status .Internal (Sprintf [lit "unable to list newly created fileset [",
            scVol.VolName, lit "] in filesystem [", scVol.VolBackendFs, lit "]. Error: ",
            err.Error]))
      else
        fail (.status .Internal (Sprintf [lit "unable to list fileset [", scVol.VolName,
          lit "] in filesystem [", scVol.VolBackendFs, lit "]. Error: ", err.Error])))
  /- fileset is present/created. Confirm if fileset is linked -/
  if filesetInfo.Config.Path = [] ∨ filesetInfo.Config.Path = filesetUnlinkedPath then do
    /- this means not linked, link it -/
    let junctionPath := Sprintf [fsDetails.Mount.MountPoint, lit "/", scVol.VolName]
    call bk scVol.Connector (.LinkFileset scVol.VolBackendFs scVol.VolName junctionPath)
      (fun err => .status .Internal (Sprintf [lit "linking fileset [", scVol.VolName,
        lit "] in filesystem [", scVol.VolBackendFs, lit "] at path [", junctionPath,
        lit "] failed. Error: ", err.Error]))
    /- update fileset details -/
    call bk scVol.Connector (.ListFileset scVol.VolBackendFs scVol.VolName)
      (fun err => .status .Internal (Sprintf [lit "unable to list fileset [", scVol.VolName,
        lit "] in filesystem [", scVol.VolBackendFs, lit "] after linking. Error: ",
        err.Error]))
  else pure filesetInfo

/-- Go `createFilesetBasedVol`, lines 325-342: the quota is set, the target path is
computed from the link path of the fileset, and the directory is made. -/
def createFilesetBasedVol_finish (scVol : scaleVolume) (fsDetails : FileSystem_v2)
    (filesetInfo : Fileset_v2) : M σ Str := do
  (if scVol.VolSize ≠ 0 then
    mapErr (fun err => .status .Internal err.Error) (setQuota bk pkg scVol)
  else pure ())
  let targetBasePath ← mapErr (fun err => .status .Internal err.Error)
    (liftE (getTargetPath filesetInfo.Config.Path fsDetails.Mount.MountPoint scVol.VolName))
  mapErr (fun err => .status .Internal err.Error) (createDirectory bk scVol targetBasePath)
  pure targetBasePath

end FilesetSteps

/-- The calls about quota: the check that quota is enabled, the listing and the
setting of a fileset quota. -/
def Call.isQuotaCall : Call → Bool
  | .CheckIfFSQuotaEnabled .. => true
  | .ListFilesetQuota .. => true
  | .SetFilesetQuota .. => true
  | _ => false

/-! ## Facts about splitting -/

namespace strings

theorem Split_ne_nil (s : Str) (sep : Char) : Split s sep ≠ [] := by
  cases s with
  | nil => simp [Split]
  | cons c cs =>
    simp only [Split]
    split
    · simp
    · split <;> simp

theorem Split_cons_sep (cs : Str) (sep : Char) :
    Split (sep :: cs) sep = [] :: Split cs sep := by
  simp [Split]

theorem Split_of_not_mem {s : Str} {sep : Char} (h : sep ∉ s) : Split s sep = [s] := by
  induction s with
  | nil => simp [Split]
  | cons c cs ih =>
    have hc : c ≠ sep := fun e => h (by simp [e])
    have hcs : sep ∉ cs := fun m => h (List.mem_cons_of_mem _ m)
    simp [Split, hc, ih hcs]

theorem Split_append_sep {a : Str} {sep : Char} (h : sep ∉ a) (b : Str) :
    Split (a ++ sep :: b) sep = a :: Split b sep := by
  induction a with
  | nil => simp [Split]
  | cons c cs ih =>
    have hc : c ≠ sep := fun e => h (by simp [e])
    have hcs : sep ∉ cs := fun m => h (List.mem_cons_of_mem _ m)
    simp [Split, hc, ih hcs]

theorem length_Split_cons_ne {c sep : Char} (h : c ≠ sep) (cs : Str) :
    (Split (c :: cs) sep).length = (Split cs sep).length := by
  simp only [Split, if_neg h]
  split
  · next e => exact absurd e (Split_ne_nil cs sep)
  · next e => simp [e]

theorem length_Split_lt_two_iff (s : Str) (sep : Char) :
    (Split s sep).length < 2 ↔ sep ∉ s := by
  induction s with
  | nil => simp [Split]
  | cons c cs ih =>
    by_cases hc : c = sep
    · subst hc
      have := Split_ne_nil cs c
      have hpos : 0 < (Split cs c).length := List.length_pos.mpr this
      simp [Split_cons_sep]
      omega
    · rw [length_Split_cons_ne hc, ih]
      simp [List.mem_cons, Ne.symm hc]

end strings

theorem int64_uint64 (s : Int) (hlo : -2 ^ 63 ≤ s) (hhi : s < 2 ^ 63) :
    int64 (uint64 s) = s := by
  unfold int64 uint64
  have h64 : (2 : Int) ^ 64 = 18446744073709551616 := by norm_num
  have h63 : (2 : Int) ^ 63 = 9223372036854775808 := by norm_num
  have hn64 : (2 : Nat) ^ 64 = 18446744073709551616 := by norm_num
  have hn63 : (2 : Nat) ^ 63 = 9223372036854775808 := by norm_num
  rw [h63] at hlo hhi
  rw [h64, hn64, hn63]
  have hnn : 0 ≤ s % 18446744073709551616 := Int.emod_nonneg _ (by norm_num)
  have hlt : s % 18446744073709551616 < 18446744073709551616 := Int.emod_lt_of_pos _ (by norm_num)
  have hcast : (((s % 18446744073709551616).toNat : Nat) : Int) = s % 18446744073709551616 :=
    Int.toNat_of_nonneg hnn
  have hmod : (s % 18446744073709551616).toNat % 18446744073709551616
      = (s % 18446744073709551616).toNat := by
    apply Nat.mod_eq_of_lt
    omega
  rw [hmod]
  split
  · next h => omega
  · next h => omega

/-! ## Identifier codec -/

theorem lit_path : lit ";path=" = [';', 'p', 'a', 't', 'h', '='] := rfl

theorem lit_fileset : lit ";fileset=" = [';', 'f', 'i', 'l', 'e', 's', 'e', 't', '='] := rfl

theorem lit_semicolon : lit ";" = [';'] := rfl

theorem lit_slash : lit "/" = ['/'] := rfl

theorem lit_data : lit "-data" = ['-', 'd', 'a', 't', 'a'] := rfl

/-- Decoding of a well-formed lightweight identifier. -/
theorem GetVolIdMembers_lw (c u p : Str) (hc : ';' ∉ c) (hu : ';' ∉ u) (hp : ';' ∉ p)
    (hp2 : '=' ∉ p) :
    GetVolIdMembers (c ++ ';' :: (u ++ ';' :: ('p' :: 'a' :: 't' :: 'h' :: '=' :: p))) =
      .ok { ClusterId := c, FsUUID := u, FsetId := [], SymLnkPath := p,
            IsFilesetBased := false } := by
  have hrest : ';' ∉ 'p' :: 'a' :: 't' :: 'h' :: '=' :: p := by
    simp only [List.mem_cons, not_or]
    exact ⟨by decide, by decide, by decide, by decide, by decide, hp⟩
  have hs : strings.Split (c ++ ';' :: (u ++ ';' :: ('p' :: 'a' :: 't' :: 'h' :: '=' :: p))) ';'
      = [c, u, 'p' :: 'a' :: 't' :: 'h' :: '=' :: p] := by
    rw [strings.Split_append_sep hc, strings.Split_append_sep hu, strings.Split_of_not_mem hrest]
  have hkv : strings.Split ('p' :: 'a' :: 't' :: 'h' :: '=' :: p) '='
      = [['p', 'a', 't', 'h'], p] := by
    have := @strings.Split_append_sep ['p', 'a', 't', 'h'] '=' (by decide) p
    rw [strings.Split_of_not_mem hp2] at this
    simpa using this
  simp [GetVolIdMembers, hs, hkv]

/-- Decoding of a well-formed fileset-backed identifier. -/
theorem GetVolIdMembers_fs (c u f p : Str) (hc : ';' ∉ c) (hu : ';' ∉ u) (hf : ';' ∉ f)
    (hp : ';' ∉ p) (hf2 : '=' ∉ f) (hp2 : '=' ∉ p) :
    GetVolIdMembers (c ++ ';' :: (u ++ ';' :: ('f' :: 'i' :: 'l' :: 'e' :: 's' :: 'e' :: 't' ::
        '=' :: (f ++ ';' :: 'p' :: 'a' :: 't' :: 'h' :: '=' :: p)))) =
      .ok { ClusterId := c, FsUUID := u, FsetId := f, SymLnkPath := p,
            IsFilesetBased := true } := by
  have hpath : ';' ∉ 'p' :: 'a' :: 't' :: 'h' :: '=' :: p := by
    simp only [List.mem_cons, not_or]
    exact ⟨by decide, by decide, by decide, by decide, by decide, hp⟩
  have hfs : ';' ∉ 'f' :: 'i' :: 'l' :: 'e' :: 's' :: 'e' :: 't' :: '=' :: f := by
    simp only [List.mem_cons, not_or]
    exact ⟨by decide, by decide, by decide, by decide, by decide, by decide, by decide,
      by decide, hf⟩
  have hs : strings.Split (c ++ ';' :: (u ++ ';' :: ('f' :: 'i' :: 'l' :: 'e' :: 's' :: 'e' ::
        't' :: '=' :: (f ++ ';' :: 'p' :: 'a' :: 't' :: 'h' :: '=' :: p)))) ';'
      = [c, u, 'f' :: 'i' :: 'l' :: 'e' :: 's' :: 'e' :: 't' :: '=' :: f,
          'p' :: 'a' :: 't' :: 'h' :: '=' :: p] := by
    rw [strings.Split_append_sep hc, strings.Split_append_sep hu]
    have := @strings.Split_append_sep _ ';' hfs ('p' :: 'a' :: 't' :: 'h' :: '=' :: p)
    rw [strings.Split_of_not_mem hpath] at this
    simpa using this
  have hkv : strings.Split ('p' :: 'a' :: 't' :: 'h' :: '=' :: p) '='
      = [['p', 'a', 't', 'h'], p] := by
    have := @strings.Split_append_sep ['p', 'a', 't', 'h'] '=' (by decide) p
    rw [strings.Split_of_not_mem hp2] at this
    simpa using this
  have hkf : strings.Split ('f' :: 'i' :: 'l' :: 'e' :: 's' :: 'e' :: 't' :: '=' :: f) '='
      = [['f', 'i', 'l', 'e', 's', 'e', 't'], f] := by
    have := @strings.Split_append_sep ['f', 'i', 'l', 'e', 's', 'e', 't'] '='
      (by decide) f
    rw [strings.Split_of_not_mem hf2] at this
    simpa using this
  simp [GetVolIdMembers, hs, hkv, hkf]

theorem not_mem_slink {ch : Char} (hch : ch ≠ '/') {p n : Str} (hp : ch ∉ p) (hn : ch ∉ n) :
    ch ∉ Sprintf [p, lit "/", n] := by
  simp [Sprintf, lit_slash, hp, hn, hch]

/-- C1 (amended): volume identifier round trip.  When the cluster id, the filesystem
UUID, the fileset id, the primary symlink path and the volume name contain no `;`, and
the fileset id, symlink path and volume name contain no `=`, `generateVolID` produces an
identifier (in the fileset shape: as soon as the backend reports the fileset id) that
`GetVolIdMembers` decodes to the same cluster id, UUID, fileset id and shape flag, with
path `<PrimarySLnkPath>/<VolName>`. -/
theorem generateVolID_roundtrip {σ : Type} (bk : Backend σ) (scVol : scaleVolume) (uid : Str)
    (w : Sys σ)
    (hc : ';' ∉ scVol.ClusterId) (hu : ';' ∉ uid)
    (hp : ';' ∉ scVol.PrimarySLnkPath) (hn : ';' ∉ scVol.VolName)
    (hp2 : '=' ∉ scVol.PrimarySLnkPath) (hn2 : '=' ∉ scVol.VolName) :
    (scVol.IsFilesetBased = false →
      ∃ volId, generateVolID bk scVol uid w = (.ok volId, w) ∧
        GetVolIdMembers volId =
          .ok { ClusterId := scVol.ClusterId, FsUUID := uid, FsetId := [],
                SymLnkPath := Sprintf [scVol.PrimarySLnkPath, lit "/", scVol.VolName],
                IsFilesetBased := false }) ∧
    (scVol.IsFilesetBased = true → ∀ fSetuid : Str,
      (bk.respond scVol.Connector (.GetFileSetUid scVol.VolBackendFs scVol.VolName)
        w.backend).1 = .ok fSetuid →
      ';' ∉ fSetuid → '=' ∉ fSetuid →
      ∃ volId, (generateVolID bk scVol uid w).1 = .ok volId ∧
        GetVolIdMembers volId =
          .ok { ClusterId := scVol.ClusterId, FsUUID := uid, FsetId := fSetuid,
                SymLnkPath := Sprintf [scVol.PrimarySLnkPath, lit "/", scVol.VolName],
                IsFilesetBased := true }) := by
  have hs1 := @not_mem_slink ';' (by decide) _ _ hp hn
  have hs2 := @not_mem_slink '=' (by decide) _ _ hp2 hn2
  constructor
  · intro hshape
    refine ⟨Sprintf [scVol.ClusterId, lit ";", uid, lit ";path=",
      Sprintf [scVol.PrimarySLnkPath, lit "/", scVol.VolName]], ?_, ?_⟩
    · simp [generateVolID, hshape, pure]
    · have := GetVolIdMembers_lw scVol.ClusterId uid _ hc hu hs1 hs2
      simpa [Sprintf, lit_path, lit_semicolon] using this
  · intro hshape fSetuid hreply hf hf2
    refine ⟨Sprintf [scVol.ClusterId, lit ";", uid, lit ";fileset=", fSetuid, lit ";path=",
      Sprintf [scVol.PrimarySLnkPath, lit "/", scVol.VolName]], ?_, ?_⟩
    · simp [generateVolID, hshape, call, invoke, bind, M.bind, hreply, pure]
    · have := GetVolIdMembers_fs scVol.ClusterId uid fSetuid _ hc hu hf hs1 hf2 hs2
      simpa [Sprintf, lit_path, lit_fileset, lit_semicolon] using this

/-- Witness of `generateVolID_roundtrip`: a lightweight volume `pvc-1`. -/
theorem generateVolID_roundtrip_witness :
    (∃ volId, generateVolID bkNone
        { VolName := lit "pvc-1", ClusterId := lit "c1", PrimarySLnkPath := lit "/ibm/fs1/vols" }
        (lit "0A0B:1") sysIdle = (.ok volId, sysIdle) ∧
      GetVolIdMembers volId =
        .ok { ClusterId := lit "c1", FsUUID := lit "0A0B:1", FsetId := [],
              SymLnkPath := Sprintf [lit "/ibm/fs1/vols", lit "/", lit "pvc-1"],
              IsFilesetBased := false }) :=
  (generateVolID_roundtrip bkNone
    { VolName := lit "pvc-1", ClusterId := lit "c1", PrimarySLnkPath := lit "/ibm/fs1/vols" }
    (lit "0A0B:1") sysIdle (by decide) (by decide) (by decide) (by decide) (by decide)
    (by decide)).1 rfl

/-- C1 as stated fails: a cluster id containing `;` yields an identifier that does not
decode (here a lightweight volume in cluster `a;b`). -/
theorem generateVolID_roundtrip_counterexample :
    (generateVolID bkNone
        { VolName := lit "v", ClusterId := lit "a;b", PrimarySLnkPath := lit "/p" }
        (lit "u") sysIdle).1 = .ok (lit "a;b;u;path=/p/v") ∧
      GetVolIdMembers (lit "a;b;u;path=/p/v") = .error (invalidVolumeId (lit "a;b;u;path=/p/v")) :=
  ⟨rfl, rfl⟩

/-- C2: `GetVolIdMembers` fails with the format error when the number of `;`-separated
fields is neither 3 nor 4; and whenever it succeeds the field count is 3 or 4, the result
is lightweight for 3 fields and fileset-backed for 4, and `ClusterId` and `FsUUID` are the
first and second fields. -/
theorem GetVolIdMembers_shape (s : Str) :
    ((strings.Split s ';').length ≠ 3 → (strings.Split s ';').length ≠ 4 →
      GetVolIdMembers s = .error (invalidVolumeId s)) ∧
    (∀ v, GetVolIdMembers s = .ok v →
      ((strings.Split s ';').length = 3 ∨ (strings.Split s ';').length = 4) ∧
      ((strings.Split s ';').length = 3 → v.IsFilesetBased = false) ∧
      ((strings.Split s ';').length = 4 → v.IsFilesetBased = true) ∧
      v.ClusterId = (strings.Split s ';').getD 0 [] ∧
      v.FsUUID = (strings.Split s ';').getD 1 []) := by
  constructor
  · intro h3 h4
    simp [GetVolIdMembers, h3, h4]
  · intro v hv
    unfold GetVolIdMembers at hv
    simp only at hv
    split at hv
    · next h3 =>
      split at hv
      · cases hv
      · cases hv
        simp [h3]
    · next h3 =>
      split at hv
      · next h4 =>
        split at hv
        · cases hv
        · split at hv
          · cases hv
          · cases hv
            simp [h4]
      · cases hv

/-- Witness of `GetVolIdMembers_shape` on a lightweight identifier. -/
theorem GetVolIdMembers_shape_witness :
    ((strings.Split (lit "c1;u1;path=/ibm/fs1/pvc-1") ';').length = 3 ∨
      (strings.Split (lit "c1;u1;path=/ibm/fs1/pvc-1") ';').length = 4) ∧
    ((strings.Split (lit "c1;u1;path=/ibm/fs1/pvc-1") ';').length = 3 →
      (false : Bool) = false) ∧
    ((strings.Split (lit "c1;u1;path=/ibm/fs1/pvc-1") ';').length = 4 →
      (false : Bool) = true) ∧
    lit "c1" = (strings.Split (lit "c1;u1;path=/ibm/fs1/pvc-1") ';').getD 0 [] ∧
    lit "u1" = (strings.Split (lit "c1;u1;path=/ibm/fs1/pvc-1") ';').getD 1 [] :=
  (GetVolIdMembers_shape (lit "c1;u1;path=/ibm/fs1/pvc-1")).2
    { ClusterId := lit "c1", FsUUID := lit "u1", SymLnkPath := lit "/ibm/fs1/pvc-1" } rfl

/-- C3: on an identifier with exactly 3 (resp. 4) fields, `GetVolIdMembers` fails if and
only if its key=value field (resp. one of its two key=value fields) contains no `=`; the
failure is the format error. -/
theorem GetVolIdMembers_fails_iff (s : Str) :
    ((strings.Split s ';').length = 3 →
      ((∃ e, GetVolIdMembers s = .error e) ↔ '=' ∉ (strings.Split s ';').getD 2 [])) ∧
    ((strings.Split s ';').length = 4 →
      ((∃ e, GetVolIdMembers s = .error e) ↔
        ('=' ∉ (strings.Split s ';').getD 2 [] ∨ '=' ∉ (strings.Split s ';').getD 3 []))) ∧
    (∀ e, GetVolIdMembers s = .error e → e = invalidVolumeId s) := by
  refine ⟨?_, ?_, ?_⟩
  · intro h3
    rw [← strings.length_Split_lt_two_iff]
    by_cases hk : (strings.Split ((strings.Split s ';').getD 2 []) '=').length < 2
    · simp only [GetVolIdMembers, if_pos h3, if_pos hk]
      exact ⟨fun _ => hk, fun _ => ⟨_, rfl⟩⟩
    · simp only [GetVolIdMembers, if_pos h3, if_neg hk]
      exact ⟨fun ⟨e, he⟩ => (by cases he), fun h => absurd h hk⟩
  · intro h4
    have h3 : ¬ (strings.Split s ';').length = 3 := by omega
    rw [← strings.length_Split_lt_two_iff, ← strings.length_Split_lt_two_iff]
    by_cases hk : (strings.Split ((strings.Split s ';').getD 2 []) '=').length < 2
    · simp only [GetVolIdMembers, if_neg h3, if_pos h4, if_pos hk]
      exact ⟨fun _ => Or.inl hk, fun _ => ⟨_, rfl⟩⟩
    · by_cases hk2 : (strings.Split ((strings.Split s ';').getD 3 []) '=').length < 2
      · simp only [GetVolIdMembers, if_neg h3, if_pos h4, if_neg hk, if_pos hk2]
        exact ⟨fun _ => Or.inr hk2, fun _ => ⟨_, rfl⟩⟩
      · simp only [GetVolIdMembers, if_neg h3, if_pos h4, if_neg hk, if_neg hk2]
        exact ⟨fun ⟨e, he⟩ => (by cases he), fun h => h.elim (absurd · hk) (absurd · hk2)⟩
  · intro e he
    unfold GetVolIdMembers at he
    simp only at he
    split at he
    · split at he
      · cases he; rfl
      · cases he
    · split at he
      · split at he
        · cases he; rfl
        · split at he
          · cases he; rfl
          · cases he
      · cases he; rfl

/-- Witness of `GetVolIdMembers_fails_iff`: a 3-field identifier whose third field has
no `=` is rejected. -/
theorem GetVolIdMembers_fails_iff_witness :
    ∃ e, GetVolIdMembers (lit "c1;u1;pvc-1") = .error e :=
  ((GetVolIdMembers_fails_iff (lit "c1;u1;pvc-1")).1 (by decide)).2 (by decide)

/-- C4 (the code at the failing input): a symlink path containing `=` is cut at its
first `=` by both volume-id decoders, not returned whole. -/
theorem GetVolIdMembers_value_with_equals :
    GetVolIdMembers (lit "c1;u1;path=/ibm/fs1/a=b") =
      .ok { ClusterId := lit "c1", FsUUID := lit "u1", SymLnkPath := lit "/ibm/fs1/a" } ∧
    GetSrcVolIdMembers (lit "c1;u1;path=/ibm/fs1/a=b") =
      .ok { ClusterId := lit "c1", FsUUID := lit "u1", SymLnkPath := lit "/ibm/fs1/a" } ∧
    lit "/ibm/fs1/a" ≠ lit "/ibm/fs1/a=b" :=
  ⟨rfl, rfl, by decide⟩

/-- C5 (amended): snapshot identifier round trip.  When the cluster id, filesystem UUID,
fileset name and snapshot name contain no `;`, `GetSnapIdMembers` decodes the identifier
`cluster;fsUUID;filesetName;snapName;<filesetName>-data` to exactly these four values and
the path `<filesetName>-data`. -/
theorem GetSnapIdMembers_roundtrip (c u f n : Str) (hc : ';' ∉ c) (hu : ';' ∉ u)
    (hf : ';' ∉ f) (hn : ';' ∉ n) :
    GetSnapIdMembers (snapID c u f n) =
      .ok { ClusterId := c, FsUUID := u, FsetName := f, SnapName := n,
            Path := Sprintf [f, lit "-data"], FsName := [] } := by
  have hd : ';' ∉ f ++ ['-', 'd', 'a', 't', 'a'] := by
    simp only [List.mem_append, not_or]
    exact ⟨hf, by decide⟩
  have hs : strings.Split (c ++ ';' :: (u ++ ';' :: (f ++ ';' :: (n ++ ';' ::
      (f ++ ['-', 'd', 'a', 't', 'a']))))) ';' = [c, u, f, n, f ++ ['-', 'd', 'a', 't', 'a']] := by
    rw [strings.Split_append_sep hc, strings.Split_append_sep hu, strings.Split_append_sep hf,
      strings.Split_append_sep hn, strings.Split_of_not_mem hd]
  have hid : snapID c u f n = c ++ ';' :: (u ++ ';' :: (f ++ ';' :: (n ++ ';' ::
      (f ++ ['-', 'd', 'a', 't', 'a'])))) := by
    simp [snapID, Sprintf, lit_semicolon, lit_data]
  rw [hid]
  simp [GetSnapIdMembers, hs, Sprintf, lit_data]

/-- Witness of `GetSnapIdMembers_roundtrip`. -/
theorem GetSnapIdMembers_roundtrip_witness :
    GetSnapIdMembers (snapID (lit "c1") (lit "u1") (lit "pvc-1") (lit "snap-1")) =
      .ok { ClusterId := lit "c1", FsUUID := lit "u1", FsetName := lit "pvc-1",
            SnapName := lit "snap-1", Path := Sprintf [lit "pvc-1", lit "-data"], FsName := [] } :=
  GetSnapIdMembers_roundtrip (lit "c1") (lit "u1") (lit "pvc-1") (lit "snap-1")
    (by decide) (by decide) (by decide) (by decide)

/-- C5 as stated fails: `CreateSnapshot` asked for the snapshot name `s;x` on the
volume `pvc-1` returns the identifier `c1;u1;pvc-1;s;x;pvc-1-data`, which has six
fields; the decoder succeeds on it and returns the snapshot name `s` and the path `/`
instead of `s;x` and `pvc-1-data`. -/
theorem GetSnapIdMembers_roundtrip_counterexample :
    (CreateSnapshot (bkScenario {}) (extSkip no) csTwoKeys
        (some { SourceVolumeId := volIdPvc1, Name := lit "s;x" }) sysIdle).1 =
      .ok { Snapshot :=
            { SnapshotId := lit "c1;u1;pvc-1;s;x;pvc-1-data", SourceVolumeId := volIdPvc1,
              ReadyToUse := true, CreationTime := { Seconds := 0, Nanos := 0 },
              SizeBytes := 1073741824 } } ∧
    snapID (lit "c1") (lit "u1") (lit "pvc-1") (lit "s;x") = lit "c1;u1;pvc-1;s;x;pvc-1-data" ∧
    GetSnapIdMembers (lit "c1;u1;pvc-1;s;x;pvc-1-data") =
      .ok { ClusterId := lit "c1", FsUUID := lit "u1", FsetName := lit "pvc-1",
            SnapName := lit "s", Path := lit "/", FsName := [] } ∧
    lit "s" ≠ lit "s;x" ∧ lit "/" ≠ lit "pvc-1-data" :=
  ⟨rfl, rfl, rfl, by decide, by decide⟩

/-- C6 (amended): `GetSnapIdMembers` fails if and only if the identifier has fewer than 4
`;`-separated fields; otherwise it returns the first four fields as cluster id, filesystem
UUID, fileset name and snapshot name, and the path is the fifth field when there are
exactly five fields and the fifth is non-empty, and `/` in every other case. -/
theorem GetSnapIdMembers_fields (s : Str) :
    ((∃ e, GetSnapIdMembers s = .error e) ↔ (strings.Split s ';').length < 4) ∧
    (4 ≤ (strings.Split s ';').length →
      ∃ v, GetSnapIdMembers s = .ok v ∧
        v.ClusterId = (strings.Split s ';').getD 0 [] ∧
        v.FsUUID = (strings.Split s ';').getD 1 [] ∧
        v.FsetName = (strings.Split s ';').getD 2 [] ∧
        v.SnapName = (strings.Split s ';').getD 3 [] ∧
        v.Path = (if (strings.Split s ';').length = 5 ∧ (strings.Split s ';').getD 4 [] ≠ []
          then (strings.Split s ';').getD 4 [] else lit "/")) := by
  by_cases h4 : (strings.Split s ';').length < 4
  · constructor
    · simp [GetSnapIdMembers, h4]
    · intro h
      omega
  · by_cases h5 : (strings.Split s ';').length = 5 ∧ (strings.Split s ';').getD 4 [] ≠ []
    · constructor
      · simp only [GetSnapIdMembers, if_neg h4, if_pos h5]
        simp [h4]
      · intro _
        simp only [GetSnapIdMembers, if_neg h4, if_pos h5]
        exact ⟨_, rfl, rfl, rfl, rfl, rfl, rfl⟩
    · constructor
      · simp only [GetSnapIdMembers, if_neg h4, if_neg h5]
        simp [h4]
      · intro _
        simp only [GetSnapIdMembers, if_neg h4, if_neg h5]
        exact ⟨_, rfl, rfl, rfl, rfl, rfl, rfl⟩

/-- Witness of `GetSnapIdMembers_fields` on a four-field identifier: the path is `/`. -/
theorem GetSnapIdMembers_fields_witness :
    ∃ v, GetSnapIdMembers (lit "c1;u1;pvc-1;snap-1") = .ok v ∧
      v.ClusterId = (strings.Split (lit "c1;u1;pvc-1;snap-1") ';').getD 0 [] ∧
      v.FsUUID = (strings.Split (lit "c1;u1;pvc-1;snap-1") ';').getD 1 [] ∧
      v.FsetName = (strings.Split (lit "c1;u1;pvc-1;snap-1") ';').getD 2 [] ∧
      v.SnapName = (strings.Split (lit "c1;u1;pvc-1;snap-1") ';').getD 3 [] ∧
      v.Path = (if (strings.Split (lit "c1;u1;pvc-1;snap-1") ';').length = 5 ∧
          (strings.Split (lit "c1;u1;pvc-1;snap-1") ';').getD 4 [] ≠ []
        then (strings.Split (lit "c1;u1;pvc-1;snap-1") ';').getD 4 [] else lit "/") :=
  (GetSnapIdMembers_fields (lit "c1;u1;pvc-1;snap-1")).2 (by decide)

/-- C6 as stated fails: with six fields the fifth field is present and non-empty, yet the
decoded path is `/`. -/
theorem GetSnapIdMembers_fields_counterexample :
    (strings.Split (lit "c1;u1;pvc-1;snap-1;pvc-1-data;x") ';').getD 4 [] = lit "pvc-1-data" ∧
    GetSnapIdMembers (lit "c1;u1;pvc-1;snap-1;pvc-1-data;x") =
      .ok { ClusterId := lit "c1", FsUUID := lit "u1", FsetName := lit "pvc-1",
            SnapName := lit "snap-1", Path := lit "/", FsName := [] } ∧
    lit "/" ≠ lit "pvc-1-data" :=
  ⟨rfl, rfl, by decide⟩

/-! ## In-flight guard and cluster registry -/

/-- C7: in-flight guard acquire.  For a request of size `s` (an `int64`, stored in the
volume as `uint64(s)`), `IfSameVolReqInProcess` returns `(false, nil)` when the name is
not in the in-flight set, `(true, nil)` when it is there with size `s`, and `(false, err)`
with an Internal error when it is there with another size; the state is unchanged in all
three cases. -/
theorem IfSameVolReqInProcess_spec {σ : Type} (scVol : scaleVolume) (s : Int) (w : Sys σ)
    (hlo : -2 ^ 63 ≤ s) (hhi : s < 2 ^ 63) (hsize : scVol.VolSize = uint64 s) :
    (w.reqmap scVol.VolName = none →
      IfSameVolReqInProcess scVol w = (.ok (false, none), w)) ∧
    (w.reqmap scVol.VolName = some s →
      IfSameVolReqInProcess scVol w = (.ok (true, none), w)) ∧
    (∀ cap, w.reqmap scVol.VolName = some cap → cap ≠ s →
      ∃ msg, IfSameVolReqInProcess scVol w =
        (.ok (false, some (.status .Internal msg)), w)) := by
  have hconv : int64 scVol.VolSize = s := by rw [hsize]; exact int64_uint64 s hlo hhi
  refine ⟨?_, ?_, ?_⟩
  · intro h
    simp [IfSameVolReqInProcess, h]
  · intro h
    simp [IfSameVolReqInProcess, h, hconv]
  · intro cap h hne
    simp only [IfSameVolReqInProcess, h, hconv, if_neg hne]
    exact ⟨_, rfl⟩

/-- Witness of `IfSameVolReqInProcess_spec`: `pvc-1` of size 1 GiB on an idle system. -/
theorem IfSameVolReqInProcess_spec_witness :
    IfSameVolReqInProcess { VolName := lit "pvc-1", VolSize := 1073741824 } sysIdle =
      (.ok (false, none), sysIdle) :=
  (IfSameVolReqInProcess_spec { VolName := lit "pvc-1", VolSize := 1073741824 } 1073741824
    sysIdle (by decide) (by decide) (by decide)).1 rfl

/-- C10 (amended): `getConnFromClusterID` returns the registered connector, with no
error, when the id is a key of the registry, and fails with an Internal error (message
`unable to find cluster [id] details in custom resource`) when it is absent. -/
theorem getConnFromClusterID_spec (cs : ScaleControllerServer) (cid : Str) :
    (∀ conn, cs.Driver.connmap cid = some conn → getConnFromClusterID cs cid = .ok conn) ∧
    (cs.Driver.connmap cid = none →
      getConnFromClusterID cs cid = .error (.status .Internal
        (Sprintf [lit "unable to find cluster [", cid, lit "] details in custom resource"]))) := by
  constructor
  · intro conn h
    simp [getConnFromClusterID, h]
  · intro h
    simp [getConnFromClusterID, h]

/-- Witness of `getConnFromClusterID_spec`: the primary entry resolves. -/
theorem getConnFromClusterID_spec_witness :
    getConnFromClusterID csPrimaryOnly (lit "primary") = .ok 0 :=
  (getConnFromClusterID_spec csPrimaryOnly (lit "primary")).1 0 (by decide)

/-- C10 as stated fails: for an id absent from the registry the error is Internal, not
NotFound. -/
theorem getConnFromClusterID_counterexample :
    csPrimaryOnly.Driver.connmap (lit "c9") = none ∧
    (∃ msg, getConnFromClusterID csPrimaryOnly (lit "c9") = .error (.status .Internal msg)) ∧
    Code.Internal ≠ Code.NotFound :=
  ⟨by decide, ⟨_, rfl⟩, by decide⟩

/-! ## Reasoning about controller computations -/

theorem run_bind_ok {σ α β : Type} {m : M σ α} {f : α → M σ β} {w w1 : Sys σ} {a : α}
    (h : m w = (.ok a, w1)) : (m >>= f) w = f a w1 := by
  show M.bind m f w = f a w1
  simp [M.bind, h]

theorem run_bind_error {σ α β : Type} {m : M σ α} {f : α → M σ β} {w w1 : Sys σ} {e : error}
    (h : m w = (.error e, w1)) : (m >>= f) w = (.error e, w1) := by
  show M.bind m f w = (.error e, w1)
  simp [M.bind, h]

theorem run_cases {σ α : Type} (m : M σ α) (w : Sys σ) :
    (∃ a, m w = (.ok a, (m w).2)) ∨ (∃ e, m w = (.error e, (m w).2)) := by
  rcases hm : m w with ⟨r, w1⟩
  cases r with
  | ok a => exact Or.inl ⟨a, rfl⟩
  | error e => exact Or.inr ⟨e, rfl⟩

theorem maintains_pure {σ α : Type} {R : Sys σ → Sys σ → Prop} (hR : StepRel R) (a : α) :
    Maintains R (pure a : M σ α) :=
  ⟨fun w => hR.refl w⟩

theorem maintains_fail {σ α : Type} {R : Sys σ → Sys σ → Prop} (hR : StepRel R) (e : error) :
    Maintains R (fail e : M σ α) :=
  ⟨fun w => hR.refl w⟩

theorem maintains_bind {σ α β : Type} {R : Sys σ → Sys σ → Prop} (hR : StepRel R)
    {m : M σ α} {f : α → M σ β} (hm : Maintains R m) (hf : ∀ a, Maintains R (f a)) :
    Maintains R (m >>= f) := by
  constructor
  intro w
  rcases run_cases m w with ⟨a, h⟩ | ⟨e, h⟩
  · rw [run_bind_ok h]
    exact hR.trans _ _ _ (hm.run w) ((hf a).run _)
  · rw [run_bind_error h]
    exact hm.run w

theorem maintains_liftE {σ α : Type} {R : Sys σ → Sys σ → Prop} (hR : StepRel R)
    (x : Except error α) : Maintains R (liftE x : M σ α) := by
  cases x with
  | ok a => exact maintains_pure hR a
  | error e => exact maintains_fail hR e

theorem maintains_mapErr {σ α : Type} {R : Sys σ → Sys σ → Prop} {m : M σ α}
    (wrap : error → error) (hm : Maintains R m) : Maintains R (mapErr wrap m) := by
  constructor
  intro w
  have := hm.run w
  rcases run_cases m w with ⟨a, h⟩ | ⟨e, h⟩
  · simp only [Scale.mapErr]
    rw [h]
    exact this
  · simp only [Scale.mapErr]
    rw [h]
    exact this

theorem maintains_call {σ : Type} {R : Sys σ → Sys σ → Prop} (hR : StepRel R)
    {bk : Backend σ} {conn : ConnId} {k : Call} (wrap : error → error)
    (h : Maintains R (invoke bk conn k)) : Maintains R (call bk conn k wrap) := by
  unfold Scale.call
  apply maintains_bind hR h
  intro r
  cases r with
  | ok a => exact maintains_pure hR a
  | error e => exact maintains_fail hR _

theorem returns_pure {σ α : Type} {Q : α → Prop} {a : α} (h : Q a) :
    Returns Q (pure a : M σ α) := by
  constructor
  intro w b hb
  cases hb
  exact h

theorem returns_fail {σ α : Type} {Q : α → Prop} (e : error) :
    Returns Q (fail e : M σ α) := by
  constructor
  intro w b hb
  cases hb

theorem returns_bind {σ α β : Type} {Q : β → Prop} (P : α → Prop) {m : M σ α}
    {f : α → M σ β} (hm : Returns P m) (hf : ∀ a, P a → Returns Q (f a)) :
    Returns Q (m >>= f) := by
  constructor
  intro w b hb
  rcases run_cases m w with ⟨a, h⟩ | ⟨e, h⟩
  · rw [run_bind_ok h] at hb
    exact (hf a (hm.run w a (by rw [h]))).run _ b hb
  · rw [run_bind_error h] at hb
    cases hb

theorem returns_bind_any {σ α β : Type} {Q : β → Prop} {m : M σ α} {f : α → M σ β}
    (hf : ∀ a, Returns Q (f a)) : Returns Q (m >>= f) :=
  returns_bind (fun _ => True) ⟨fun _ _ _ => trivial⟩ (fun a _ => hf a)

theorem stepRel_sameReqmap {σ : Type} : StepRel (@sameReqmap σ) :=
  ⟨fun _ => rfl, fun _ _ _ h1 h2 => h2.trans h1⟩

theorem stepRel_queriesOnly {σ : Type} : StepRel (@queriesOnly σ) := by
  constructor
  · intro w
    exact ⟨rfl, [], by simp, by simp⟩
  · rintro a b c ⟨h1, l1, hl1, hq1⟩ ⟨h2, l2, hl2, hq2⟩
    refine ⟨h2.trans h1, l1 ++ l2, by rw [hl2, hl1, List.append_assoc], ?_⟩
    intro x hx
    rcases List.mem_append.mp hx with hx | hx
    · exact hq1 x hx
    · exact hq2 x hx

theorem sameReqmap_invoke {σ : Type} (bk : Backend σ) (conn : ConnId) (k : Call) :
    Maintains sameReqmap (invoke bk conn k) :=
  ⟨fun _ => rfl⟩

theorem queriesOnly_invoke {σ : Type} (bk : Backend σ) (conn : ConnId) (k : Call)
    (hk : k.isMutating = false) : Maintains queriesOnly (invoke bk conn k) := by
  constructor
  intro w
  refine ⟨rfl, [(conn, k)], rfl, ?_⟩
  intro c hc
  simp only [List.mem_singleton] at hc
  rw [hc]
  exact hk

theorem sameReqmap_call {σ : Type} (bk : Backend σ) (conn : ConnId) (k : Call)
    (wrap : error → error) : Maintains sameReqmap (call bk conn k wrap) :=
  maintains_call stepRel_sameReqmap wrap (sameReqmap_invoke bk conn k)

theorem queriesOnly_call {σ : Type} (bk : Backend σ) (conn : ConnId) (k : Call)
    (wrap : error → error) (hk : k.isMutating = false) :
    Maintains queriesOnly (call bk conn k wrap) :=
  maintains_call stepRel_queriesOnly wrap (queriesOnly_invoke bk conn k hk)

/-! ## The provisioning helpers leave the in-flight set alone -/

theorem createDirectory_sameReqmap {σ : Type} (bk : Backend σ) (scVol : scaleVolume)
    (targetPath : Str) : Maintains sameReqmap (createDirectory bk scVol targetPath) := by
  unfold createDirectory
  repeat' first
    | exact maintains_pure stepRel_sameReqmap _
    | exact maintains_fail stepRel_sameReqmap _
    | exact sameReqmap_call _ _ _ _
    | exact sameReqmap_invoke _ _ _
    | exact maintains_liftE stepRel_sameReqmap _
    | apply maintains_mapErr
    | apply maintains_bind stepRel_sameReqmap
    | intro _
    | split

theorem createLWVol_sameReqmap {σ : Type} (bk : Backend σ) (scVol : scaleVolume) :
    Maintains sameReqmap (createLWVol bk scVol) := by
  unfold createLWVol
  repeat' first
    | exact maintains_pure stepRel_sameReqmap _
    | exact maintains_fail stepRel_sameReqmap _
    | exact sameReqmap_call _ _ _ _
    | exact createDirectory_sameReqmap _ _ _
    | apply maintains_mapErr
    | apply maintains_bind stepRel_sameReqmap
    | intro _
    | split

theorem createSoftlink_sameReqmap {σ : Type} (bk : Backend σ) (scVol : scaleVolume)
    (target : Str) : Maintains sameReqmap (createSoftlink bk scVol target) := by
  unfold createSoftlink
  repeat' first
    | exact maintains_pure stepRel_sameReqmap _
    | exact maintains_fail stepRel_sameReqmap _
    | exact sameReqmap_call _ _ _ _
    | apply maintains_bind stepRel_sameReqmap
    | intro _
    | split

theorem setQuota_sameReqmap {σ : Type} (bk : Backend σ) (pkg : Pkg) (scVol : scaleVolume) :
    Maintains sameReqmap (setQuota bk pkg scVol) := by
  unfold setQuota
  repeat' first
    | exact maintains_pure stepRel_sameReqmap _
    | exact maintains_fail stepRel_sameReqmap _
    | exact sameReqmap_call _ _ _ _
    | apply maintains_bind stepRel_sameReqmap
    | intro _
    | split

theorem getFilesystemDetails_sameReqmap {σ : Type} (bk : Backend σ) (scVol : scaleVolume) :
    Maintains sameReqmap (getFilesystemDetails bk scVol) :=
  sameReqmap_call _ _ _ _

theorem createFilesetBasedVol_sameReqmap {σ : Type} (bk : Backend σ) (pkg : Pkg)
    (cs : ScaleControllerServer) (scVol : scaleVolume) (fsDetails : FileSystem_v2) :
    Maintains sameReqmap (createFilesetBasedVol bk pkg cs scVol fsDetails) := by
  unfold createFilesetBasedVol
  repeat' first
    | exact maintains_pure stepRel_sameReqmap _
    | exact maintains_fail stepRel_sameReqmap _
    | exact sameReqmap_call _ _ _ _
    | exact sameReqmap_invoke _ _ _
    | exact maintains_liftE stepRel_sameReqmap _
    | exact setQuota_sameReqmap _ _ _
    | exact createDirectory_sameReqmap _ _ _
    | apply maintains_mapErr
    | apply maintains_bind stepRel_sameReqmap
    | intro _
    | split

theorem generateVolID_sameReqmap {σ : Type} (bk : Backend σ) (scVol : scaleVolume)
    (uid : Str) : Maintains sameReqmap (generateVolID bk scVol uid) := by
  unfold generateVolID
  repeat' first
    | exact maintains_pure stepRel_sameReqmap _
    | exact sameReqmap_call _ _ _ _
    | apply maintains_bind stepRel_sameReqmap
    | intro _
    | split

theorem copyVolContent_sameReqmap {σ : Type} (bk : Backend σ) (cs : ScaleControllerServer)
    (scVol : scaleVolume) (vID : scaleSrcVolId) (fsDetails : FileSystem_v2) (targetPath : Str) :
    Maintains sameReqmap (copyVolContent bk cs scVol vID fsDetails targetPath) := by
  unfold copyVolContent
  repeat' first
    | exact sameReqmap_call _ _ _ _
    | exact maintains_liftE stepRel_sameReqmap _
    | apply maintains_bind stepRel_sameReqmap
    | intro _

theorem copySnapContent_sameReqmap {σ : Type} (bk : Backend σ) (cs : ScaleControllerServer)
    (scVol : scaleVolume) (snapId : scaleSnapId) (fsDetails : FileSystem_v2)
    (targetPath : Str) :
    Maintains sameReqmap (copySnapContent bk cs scVol snapId fsDetails targetPath) := by
  unfold copySnapContent
  repeat' first
    | exact sameReqmap_call _ _ _ _
    | exact maintains_liftE stepRel_sameReqmap _
    | apply maintains_bind stepRel_sameReqmap
    | intro _

theorem CreateVolume_provision_sameReqmap {σ : Type} (bk : Backend σ) (pkg : Pkg)
    (cs : ScaleControllerServer) (loc : CreateVolumeLocals) :
    Maintains sameReqmap (CreateVolume_provision bk pkg cs loc) := by
  unfold CreateVolume_provision
  repeat' first
    | exact maintains_pure stepRel_sameReqmap _
    | exact getFilesystemDetails_sameReqmap _ _
    | exact createFilesetBasedVol_sameReqmap _ _ _ _ _
    | exact createLWVol_sameReqmap _ _
    | exact createSoftlink_sameReqmap _ _ _
    | exact generateVolID_sameReqmap _ _ _
    | exact copyVolContent_sameReqmap _ _ _ _ _ _
    | exact copySnapContent_sameReqmap _ _ _ _ _ _
    | apply maintains_mapErr
    | apply maintains_bind stepRel_sameReqmap
    | intro _
    | split

/-! ## The steps before the in-flight guard only query the backend -/

theorem validateSrcVolID_queriesOnly {σ : Type} (bk : Backend σ) (cs : ScaleControllerServer)
    (vID : scaleSrcVolId) (scVol : scaleVolume) (pCid : Str) :
    Maintains queriesOnly (validateSrcVolID bk cs vID scVol pCid) := by
  unfold validateSrcVolID
  repeat' first
    | exact maintains_pure stepRel_queriesOnly _
    | exact maintains_fail stepRel_queriesOnly _
    | exact queriesOnly_call _ _ _ _ rfl
    | exact maintains_liftE stepRel_queriesOnly _
    | apply maintains_bind stepRel_queriesOnly
    | intro _
    | split

theorem validateSnapId_queriesOnly {σ : Type} (bk : Backend σ) (cs : ScaleControllerServer)
    (sId : scaleSnapId) (scVol : scaleVolume) (pCid : Str) :
    Maintains queriesOnly (validateSnapId bk cs sId scVol pCid) := by
  unfold validateSnapId
  repeat' first
    | exact maintains_pure stepRel_queriesOnly _
    | exact maintains_fail stepRel_queriesOnly _
    | exact queriesOnly_call _ _ _ _ rfl
    | exact maintains_liftE stepRel_queriesOnly _
    | apply maintains_bind stepRel_queriesOnly
    | intro _
    | split

theorem CreateVolume_prepare_queriesOnly {σ : Type} (bk : Backend σ) (pkg : Pkg)
    (cs : ScaleControllerServer) (req : Option CreateVolumeRequest) :
    Maintains queriesOnly (CreateVolume_prepare bk pkg cs req) := by
  unfold CreateVolume_prepare
  repeat' first
    | exact maintains_pure stepRel_queriesOnly _
    | exact maintains_fail stepRel_queriesOnly _
    | exact queriesOnly_call _ _ _ _ rfl
    | exact maintains_liftE stepRel_queriesOnly _
    | exact validateSrcVolID_queriesOnly _ _ _ _ _
    | exact validateSnapId_queriesOnly _ _ _ _ _
    | apply maintains_bind stepRel_queriesOnly
    | intro _
    | split
    | dsimp only

/-! ## The in-flight guard around provisioning -/

theorem returns_ite {σ α : Type} {Q : α → Prop} {c : Prop} [Decidable c] {a b : M σ α}
    (ht : c → Returns Q a) (he : ¬ c → Returns Q b) : Returns Q (if c then a else b) := by
  by_cases h : c
  · rw [if_pos h]; exact ht h
  · rw [if_neg h]; exact he h

/-- When the steps before the guard succeed, the volume they hand on carries the name
and the size of the request. -/
theorem CreateVolume_prepare_returns {σ : Type} (bk : Backend σ) (pkg : Pkg)
    (cs : ScaleControllerServer) (req : Option CreateVolumeRequest) :
    Returns (fun loc => ∃ r, req = some r ∧ loc.scaleVol.VolName = r.Name ∧
        loc.scaleVol.VolSize = uint64 (getVolumeSizeInBytes r) ∧
        loc.volSize = getVolumeSizeInBytes r)
      (CreateVolume_prepare bk pkg cs req) := by
  cases req with
  | none =>
    unfold CreateVolume_prepare
    split <;> exact returns_fail _
  | some r =>
    unfold CreateVolume_prepare
    split
    · exact returns_fail _
    refine returns_ite (fun _ => returns_fail _) (fun _ => ?_)
    split
    · exact returns_fail _
    refine returns_bind_any (fun _ => ?_)
    refine returns_bind_any (fun scaleVol0 => ?_)
    refine returns_bind_any (fun pri => ?_)
    refine returns_bind_any (fun src => ?_)
    refine returns_bind_any (fun snap => ?_)
    refine returns_bind_any (fun linked => ?_)
    refine returns_ite (fun _ => returns_fail _) (fun _ => ?_)
    refine returns_bind_any (fun _ => ?_)
    refine returns_bind_any (fun volFsInfo => ?_)
    refine returns_ite (fun _ => returns_fail _) (fun _ => ?_)
    refine returns_bind
      (fun sv : scaleVolume =>
        sv.VolName = r.Name ∧ sv.VolSize = uint64 (getVolumeSizeInBytes r)) ?_ ?_
    · refine returns_ite (fun _ => ?_) (fun _ => ?_)
      · refine returns_bind
          (fun sv : scaleVolume =>
            sv.VolName = r.Name ∧ sv.VolSize = uint64 (getVolumeSizeInBytes r)) ?_ ?_
        · refine returns_ite (fun _ => ?_) (fun _ => ?_)
          · refine returns_ite (fun _ => returns_fail _) (fun _ => ?_)
            exact returns_pure ⟨by split <;> rfl, by split <;> rfl⟩
          · exact returns_pure ⟨by split <;> rfl, by split <;> rfl⟩
        · intro sv hsv
          refine returns_bind_any (fun conn => ?_)
          exact returns_pure hsv
      · exact returns_pure ⟨by split <;> rfl, by split <;> rfl⟩
    · intro sv hsv
      refine returns_bind_any (fun _ => ?_)
      refine returns_bind_any (fun _ => ?_)
      exact returns_pure ⟨r, rfl, hsv.1, hsv.2, rfl⟩

theorem mapDelete_mapSet_of_none {β : Type} (m : Str → Option β) (k : Str) (v : β)
    (h : m k = none) : mapDelete (mapSet m k v) k = m := by
  funext x
  by_cases hx : x = k
  · simp [mapDelete, hx, h]
  · simp [mapDelete, mapSet, hx]

/-- What `CreateVolume` does once the steps before the guard have succeeded on a name
that is not in flight: register, provision, release. -/
theorem CreateVolume_of_absent {σ : Type} (bk : Backend σ) (pkg : Pkg)
    (cs : ScaleControllerServer) (req : Option CreateVolumeRequest) (w w1 : Sys σ)
    (loc : CreateVolumeLocals) (hprep : CreateVolume_prepare bk pkg cs req w = (.ok loc, w1))
    (habsent : w1.reqmap loc.scaleVol.VolName = none) :
    CreateVolume bk pkg cs req w =
      defer (reqmapDelete loc.scaleVol.VolName) (CreateVolume_provision bk pkg cs loc)
        { w1 with reqmap := mapSet w1.reqmap loc.scaleVol.VolName loc.volSize } := by
  unfold CreateVolume
  rw [run_bind_ok hprep]
  have hguard : IfSameVolReqInProcess loc.scaleVol w1 = (.ok (false, none), w1) := by
    simp [IfSameVolReqInProcess, habsent]
  rw [run_bind_ok hguard]
  simp only [Bool.false_eq_true, if_false]
  rfl

/-- What `CreateVolume` does once the steps before the guard have succeeded on a name
that is in flight with the same size: it aborts on the spot. -/
theorem CreateVolume_of_present {σ : Type} (bk : Backend σ) (pkg : Pkg)
    (cs : ScaleControllerServer) (req : Option CreateVolumeRequest) (w w1 : Sys σ)
    (loc : CreateVolumeLocals) (hprep : CreateVolume_prepare bk pkg cs req w = (.ok loc, w1))
    (hpresent : w1.reqmap loc.scaleVol.VolName = some (int64 loc.scaleVol.VolSize)) :
    CreateVolume bk pkg cs req w =
      (.error (.status .Aborted
        (Sprintf [lit "volume creation already in process : ", loc.scaleVol.VolName])), w1) := by
  unfold CreateVolume
  rw [run_bind_ok hprep]
  have hguard : IfSameVolReqInProcess loc.scaleVol w1 = (.ok (true, none), w1) := by
    simp [IfSameVolReqInProcess, hpresent]
  rw [run_bind_ok hguard]
  rfl

/-- C8: in-flight guard release.  On an in-flight set that does not contain the
request's volume name, whatever the backend answers and wherever `CreateVolume` stops,
the in-flight set after the call equals the set before the call. -/
theorem CreateVolume_releases_guard {σ : Type} (bk : Backend σ) (pkg : Pkg)
    (cs : ScaleControllerServer) (req : Option CreateVolumeRequest) (w : Sys σ)
    (habsent : ∀ r, req = some r → w.reqmap r.Name = none) :
    (CreateVolume bk pkg cs req w).2.reqmap = w.reqmap := by
  have hq := (CreateVolume_prepare_queriesOnly bk pkg cs req).run w
  rcases run_cases (CreateVolume_prepare bk pkg cs req) w with ⟨loc, h⟩ | ⟨e, h⟩
  · obtain ⟨r, hr, hname, -, -⟩ :=
      (CreateVolume_prepare_returns bk pkg cs req).run w loc (by rw [h])
    have hnone : (CreateVolume_prepare bk pkg cs req w).2.reqmap loc.scaleVol.VolName = none := by
      rw [hq.1, hname]
      exact habsent r hr
    rw [CreateVolume_of_absent bk pkg cs req w _ loc h hnone]
    simp only [defer, reqmapDelete]
    rw [(CreateVolume_provision_sameReqmap bk pkg cs loc).run _]
    simp only
    rw [mapDelete_mapSet_of_none _ _ _ hnone]
    exact hq.1
  · have : CreateVolume bk pkg cs req w = (.error e, (CreateVolume_prepare bk pkg cs req w).2) := by
      unfold CreateVolume
      rw [run_bind_error h]
    rw [this]
    exact hq.1

/-- Witness of `CreateVolume_releases_guard`: the request `pvc-1` on an idle system. -/
theorem CreateVolume_releases_guard_witness :
    (CreateVolume bkMounted pkgLightweight csPrimaryOnly (some reqPvc1) sysIdle).2.reqmap =
      sysIdle.reqmap :=
  CreateVolume_releases_guard bkMounted pkgLightweight csPrimaryOnly (some reqPvc1) sysIdle
    (fun _ _ => rfl)

/-- C9 (amended): in-flight dedup.  A `CreateVolume` request whose volume name is already
in the in-flight set with the same size never succeeds; if the steps that precede the
guard (request validation, the checks on the primary fileset and the filesystems,
connector resolution, clone-source validation) pass, it fails with Aborted; every
connector call it issues is a query, none changes the backend; and the in-flight set,
with the entry of the first request, is left as it was. -/
theorem CreateVolume_inflight_dedup {σ : Type} (bk : Backend σ) (pkg : Pkg)
    (cs : ScaleControllerServer) (r : CreateVolumeRequest) (w : Sys σ)
    (hlo : -2 ^ 63 ≤ getVolumeSizeInBytes r) (hhi : getVolumeSizeInBytes r < 2 ^ 63)
    (hin : w.reqmap r.Name = some (getVolumeSizeInBytes r)) :
    (∃ e, (CreateVolume bk pkg cs (some r) w).1 = .error e) ∧
    (∀ loc, (CreateVolume_prepare bk pkg cs (some r) w).1 = .ok loc →
      (CreateVolume bk pkg cs (some r) w).1 = .error (.status .Aborted
        (Sprintf [lit "volume creation already in process : ", r.Name]))) ∧
    (CreateVolume bk pkg cs (some r) w).2.reqmap = w.reqmap ∧
    (∃ calls, (CreateVolume bk pkg cs (some r) w).2.log = w.log ++ calls ∧
      ∀ c ∈ calls, c.2.isMutating = false) := by
  have hq := (CreateVolume_prepare_queriesOnly bk pkg cs (some r)).run w
  rcases run_cases (CreateVolume_prepare bk pkg cs (some r)) w with ⟨loc, h⟩ | ⟨e, h⟩
  · obtain ⟨r1, hr, hname, hsize, -⟩ :=
      (CreateVolume_prepare_returns bk pkg cs (some r)).run w loc (by rw [h])
    cases hr
    have hpresent : (CreateVolume_prepare bk pkg cs (some r) w).2.reqmap loc.scaleVol.VolName =
        some (int64 loc.scaleVol.VolSize) := by
      rw [hq.1, hname, hsize, int64_uint64 _ hlo hhi]
      exact hin
    rw [CreateVolume_of_present bk pkg cs (some r) w _ loc h hpresent, hname]
    exact ⟨⟨_, rfl⟩, fun _ _ => rfl, hq.1, hq.2⟩
  · have hrun : CreateVolume bk pkg cs (some r) w =
        (.error e, (CreateVolume_prepare bk pkg cs (some r) w).2) := by
      unfold CreateVolume
      rw [run_bind_error h]
    rw [hrun]
    refine ⟨⟨_, rfl⟩, ?_, hq.1, hq.2⟩
    intro loc hloc
    rw [h] at hloc
    cases hloc

/-- Witness of `CreateVolume_inflight_dedup`: a second request for `pvc-1` of 1 GiB while
the first is in flight is aborted. -/
theorem CreateVolume_inflight_dedup_witness :
    (CreateVolume bkMounted pkgLightweight csPrimaryOnly (some reqPvc1) sysPvc1InFlight).1 =
      .error (.status .Aborted
        (Sprintf [lit "volume creation already in process : ", reqPvc1.Name])) :=
  (CreateVolume_inflight_dedup bkMounted pkgLightweight csPrimaryOnly reqPvc1 sysPvc1InFlight
    (by decide) (by decide) (by decide)).2.1 _ rfl

/-- C9 as stated fails: the duplicate request for `pvc-1` is aborted only after it has
issued two connector calls (the primary-fileset check and the filesystem lookup). -/
theorem CreateVolume_inflight_dedup_counterexample :
    sysPvc1InFlight.log = [] ∧
    (CreateVolume bkMounted pkgLightweight csPrimaryOnly (some reqPvc1) sysPvc1InFlight).1 =
      .error (.status .Aborted (lit "volume creation already in process : pvc-1")) ∧
    (CreateVolume bkMounted pkgLightweight csPrimaryOnly (some reqPvc1) sysPvc1InFlight).2.log =
      [(0, .IsFilesetLinked (lit "fs1") (lit "csifset")),
       (0, .GetFilesystemDetails (lit "fs1"))] :=
  ⟨rfl, rfl, rfl⟩

/-! ## Running a computation step by step -/

theorem bind_run {σ α β : Type} (m : M σ α) (f : α → M σ β) (w : Sys σ) :
    (m >>= f) w =
      match m w with
      | (.ok a, w1) => f a w1
      | (.error e, w1) => (.error e, w1) := rfl

theorem pure_run {σ α : Type} (a : α) (w : Sys σ) : (pure a : M σ α) w = (.ok a, w) := rfl

theorem fail_run {σ α : Type} (e : error) (w : Sys σ) : (fail e : M σ α) w = (.error e, w) :=
  rfl

theorem liftE_run {σ α : Type} (x : Except error α) (w : Sys σ) :
    (liftE x : M σ α) w = (x, w) := by
  cases x <;> rfl

theorem mapErr_run {σ α : Type} (wrap : error → error) (m : M σ α) (w : Sys σ) :
    mapErr wrap m w =
      match m w with
      | (.ok a, w1) => (.ok a, w1)
      | (.error e, w1) => (.error (wrap e), w1) := rfl

theorem invoke_run {σ : Type} (bk : Backend σ) (conn : ConnId) (k : Call) (w : Sys σ) :
    invoke bk conn k w = (.ok (reply bk conn k w), after bk conn k w) := rfl

theorem call_run {σ : Type} (bk : Backend σ) (conn : ConnId) (k : Call) (wrap : error → error)
    (w : Sys σ) :
    call bk conn k wrap w =
      match reply bk conn k w with
      | .ok x => (.ok x, after bk conn k w)
      | .error e => (.error (wrap e), after bk conn k w) := by
  show (invoke bk conn k >>= _) w = _
  rw [bind_run, invoke_run]
  cases reply bk conn k w <;> rfl

theorem after_log {σ : Type} (bk : Backend σ) (conn : ConnId) (k : Call) (w : Sys σ) :
    (after bk conn k w).log = w.log ++ [(conn, k)] := rfl

theorem after_reqmap {σ : Type} (bk : Backend σ) (conn : ConnId) (k : Call) (w : Sys σ) :
    (after bk conn k w).reqmap = w.reqmap := rfl

/-! ## Quota reconciliation -/

/-- C11: quota reconciliation.  With the fileset's current quota `q` in bytes (`q = 0`
when the quota listed does not parse because none is set) and requested size `s`,
`setQuota` fails after the quota listing alone when `q ≠ 0` and `q ≠ s`; issues the
listing and exactly one quota-set call, with the decimal rendering of `s`, when `q = 0`
(and succeeds exactly when that call does); and succeeds after the listing alone when
`q = s ≠ 0`. -/
theorem setQuota_reconciles {σ : Type} (bk : Backend σ) (pkg : Pkg) (scVol : scaleVolume)
    (w : Sys σ) (quota : Str) (q : Nat)
    (hlist : reply bk scVol.Connector (.ListFilesetQuota scVol.VolBackendFs scVol.VolName) w =
      .ok quota)
    (hq : pkg.ConvertToBytes quota = .ok q ∨
      (q = 0 ∧ ∃ err, pkg.ConvertToBytes quota = .error err ∧
        strings.Contains err.Error (lit "Invalid number specified") = true)) :
    (q ≠ 0 → q ≠ scVol.VolSize →
      (∃ e, (setQuota bk pkg scVol w).1 = .error e) ∧
      (setQuota bk pkg scVol w).2.log =
        w.log ++ [(scVol.Connector, .ListFilesetQuota scVol.VolBackendFs scVol.VolName)]) ∧
    (q = 0 →
      (setQuota bk pkg scVol w).2.log =
        w.log ++ [(scVol.Connector, .ListFilesetQuota scVol.VolBackendFs scVol.VolName),
          (scVol.Connector, .SetFilesetQuota scVol.VolBackendFs scVol.VolName
            (FormatUint scVol.VolSize))] ∧
      ((setQuota bk pkg scVol w).1 = .ok () ↔
        reply bk scVol.Connector
          (.SetFilesetQuota scVol.VolBackendFs scVol.VolName (FormatUint scVol.VolSize))
          (after bk scVol.Connector (.ListFilesetQuota scVol.VolBackendFs scVol.VolName) w) =
          .ok ())) ∧
    (q = scVol.VolSize → q ≠ 0 →
      (setQuota bk pkg scVol w).1 = .ok () ∧
      (setQuota bk pkg scVol w).2.log =
        w.log ++ [(scVol.Connector, .ListFilesetQuota scVol.VolBackendFs scVol.VolName)]) := by
  have hrun : ∀ (f : Nat → M σ Unit),
      ((call bk scVol.Connector (.ListFilesetQuota scVol.VolBackendFs scVol.VolName)
          (fun err => .errorf (Sprintf [lit "unable to list quota for fileset [", scVol.VolName,
            lit "] in filesystem [", scVol.VolBackendFs, lit "]. Error [", err.Error, lit "]"]))
        >>= fun quota =>
          (match pkg.ConvertToBytes quota with
            | .ok bytes => (pure bytes : M σ Nat)
            | .error err =>
              if strings.Contains err.Error (lit "Invalid number specified") then pure 0
              else fail (.errorf (Sprintf [lit "unable to convert quota for fileset [",
                scVol.VolName, lit "] in filesystem [", scVol.VolBackendFs, lit "]. Error [",
                err.Error, lit "]"]))) >>= f) w) =
      f q (after bk scVol.Connector (.ListFilesetQuota scVol.VolBackendFs scVol.VolName) w) := by
    intro f
    rw [bind_run, call_run, hlist]
    rcases hq with h | ⟨h0, err, herr, hc⟩
    · simp only [h, bind_run, pure_run]
    · simp only [herr, hc, if_true, bind_run, pure_run, h0]
  have hdef : setQuota bk pkg scVol w = _ := hrun _
  refine ⟨?_, ?_, ?_⟩
  · intro h0 hs
    rw [hdef]
    simp [h0, hs, fail_run, after_log]
  · intro h0
    subst h0
    rw [hdef]
    simp only [ne_eq, not_true_eq_false, and_false, if_false, if_true]
    rw [call_run]
    cases hset : reply bk scVol.Connector
        (.SetFilesetQuota scVol.VolBackendFs scVol.VolName (FormatUint scVol.VolSize))
        (after bk scVol.Connector (.ListFilesetQuota scVol.VolBackendFs scVol.VolName) w) with
    | ok x => simp [after_log]
    | error e => simp [after_log]
  · intro hs h0
    rw [hdef]
    subst hs
    simp only [ne_eq, not_true_eq_false, false_and, if_false, if_neg h0]
    exact ⟨rfl, rfl⟩

/-- Witness of `setQuota_reconciles`: no quota is set on `pvc-1`, so the quota is set to
the requested 1 GiB. -/
theorem setQuota_reconciles_witness :
    (setQuota (bkScenario { quota := lit "none" }) pkgDecimal scVolPvc1 sysIdle).2.log =
      sysIdle.log ++ [(scVolPvc1.Connector,
          .ListFilesetQuota scVolPvc1.VolBackendFs scVolPvc1.VolName),
        (scVolPvc1.Connector, .SetFilesetQuota scVolPvc1.VolBackendFs scVolPvc1.VolName
          (FormatUint scVolPvc1.VolSize))] :=
  ((setQuota_reconciles (bkScenario { quota := lit "none" }) pkgDecimal scVolPvc1 sysIdle
    (lit "none") 0 rfl (Or.inr ⟨rfl, _, rfl, rfl⟩)).2.1 rfl).1

/-! ## Which calls the lifecycle operations issue -/

theorem stepRel_onlyCalls {σ : Type} (P : Call → Bool) : StepRel (@onlyCalls σ P) := by
  constructor
  · intro w
    exact ⟨rfl, [], by simp, by simp⟩
  · rintro a b c ⟨h1, l1, hl1, hq1⟩ ⟨h2, l2, hl2, hq2⟩
    refine ⟨h2.trans h1, l1 ++ l2, by rw [hl2, hl1, List.append_assoc], ?_⟩
    intro x hx
    rcases List.mem_append.mp hx with hx | hx
    · exact hq1 x hx
    · exact hq2 x hx

theorem onlyCalls_invoke {σ : Type} (P : Call → Bool) (bk : Backend σ) (conn : ConnId)
    (k : Call) (hk : P k = true) : Maintains (onlyCalls P) (invoke bk conn k) := by
  constructor
  intro w
  refine ⟨rfl, [(conn, k)], rfl, ?_⟩
  intro c hc
  simp only [List.mem_singleton] at hc
  rw [hc]
  exact hk

theorem onlyCalls_call {σ : Type} (P : Call → Bool) (bk : Backend σ) (conn : ConnId)
    (k : Call) (wrap : error → error) (hk : P k = true) :
    Maintains (onlyCalls P) (call bk conn k wrap) :=
  maintains_call (stepRel_onlyCalls P) wrap (onlyCalls_invoke P bk conn k hk)

theorem onlyCalls_after {σ : Type} (P : Call → Bool) (bk : Backend σ) (conn : ConnId)
    (k : Call) (w : Sys σ) (hk : P k = true) : onlyCalls P w (after bk conn k w) :=
  (onlyCalls_invoke P bk conn k hk).run w

theorem onlyCalls_mono {σ : Type} {P Q : Call → Bool} (h : ∀ k, P k = true → Q k = true)
    {w w1 : Sys σ} (hw : onlyCalls P w w1) : onlyCalls Q w w1 := by
  obtain ⟨h1, calls, hl, hc⟩ := hw
  exact ⟨h1, calls, hl, fun c hm => h _ (hc c hm)⟩

theorem queriesOnly_iff_onlyCalls {σ : Type} (w w1 : Sys σ) :
    queriesOnly w w1 ↔ onlyCalls (fun k => !k.isMutating) w w1 := by
  simp [queriesOnly, onlyCalls]

theorem queriesOnly_of_resolution {σ : Type} {w w1 : Sys σ}
    (h : onlyCalls Call.isResolution w w1) : queriesOnly w w1 := by
  rw [queriesOnly_iff_onlyCalls]
  refine onlyCalls_mono ?_ h
  intro k hk
  cases k <;> simp_all [Call.isResolution, Call.isMutating]

theorem DeleteVolume_resolve_onlyCalls {σ : Type} (bk : Backend σ) (pkg : Pkg)
    (cs : ScaleControllerServer) (req : DeleteVolumeRequest) :
    Maintains (onlyCalls Call.isResolution) (DeleteVolume_resolve bk pkg cs req) := by
  unfold DeleteVolume_resolve
  repeat' first
    | exact maintains_pure (stepRel_onlyCalls _) _
    | exact maintains_fail (stepRel_onlyCalls _) _
    | exact onlyCalls_call _ _ _ _ _ rfl
    | exact maintains_liftE (stepRel_onlyCalls _) _
    | apply maintains_mapErr
    | apply maintains_bind (stepRel_onlyCalls _)
    | intro _
    | split
    | dsimp only

theorem ControllerPublishVolume_resolve_onlyCalls {σ : Type} (bk : Backend σ) (ext : Ext)
    (cs : ScaleControllerServer) (req : ControllerPublishVolumeRequest) :
    Maintains (onlyCalls Call.isResolution) (ControllerPublishVolume_resolve bk ext cs req) := by
  unfold ControllerPublishVolume_resolve
  repeat' first
    | exact maintains_pure (stepRel_onlyCalls _) _
    | exact maintains_fail (stepRel_onlyCalls _) _
    | exact onlyCalls_call _ _ _ _ _ rfl
    | exact maintains_liftE (stepRel_onlyCalls _) _
    | apply maintains_mapErr
    | apply maintains_bind (stepRel_onlyCalls _)
    | intro _
    | split
    | dsimp only

theorem CreateSnapshot_resolve_onlyCalls {σ : Type} (bk : Backend σ)
    (cs : ScaleControllerServer) (req : Option CreateSnapshotRequest) :
    Maintains (onlyCalls Call.isResolution) (CreateSnapshot_resolve bk cs req) := by
  unfold CreateSnapshot_resolve
  repeat' first
    | exact maintains_pure (stepRel_onlyCalls _) _
    | exact maintains_fail (stepRel_onlyCalls _) _
    | exact onlyCalls_call _ _ _ _ _ rfl
    | exact maintains_liftE (stepRel_onlyCalls _) _
    | apply maintains_mapErr
    | apply maintains_bind (stepRel_onlyCalls _)
    | intro _
    | split
    | dsimp only

theorem DeleteSnapshot_resolve_onlyCalls {σ : Type} (bk : Backend σ)
    (cs : ScaleControllerServer) (req : Option DeleteSnapshotRequest) :
    Maintains (onlyCalls Call.isResolution) (DeleteSnapshot_resolve bk cs req) := by
  unfold DeleteSnapshot_resolve
  repeat' first
    | exact maintains_pure (stepRel_onlyCalls _) _
    | exact maintains_fail (stepRel_onlyCalls _) _
    | exact onlyCalls_call _ _ _ _ _ rfl
    | exact maintains_liftE (stepRel_onlyCalls _) _
    | apply maintains_mapErr
    | apply maintains_bind (stepRel_onlyCalls _)
    | intro _
    | split
    | dsimp only

theorem ControllerExpandVolume_resolve_onlyCalls {σ : Type} (bk : Backend σ)
    (cs : ScaleControllerServer) (req : ControllerExpandVolumeRequest) :
    Maintains (onlyCalls Call.isResolution) (ControllerExpandVolume_resolve bk cs req) := by
  unfold ControllerExpandVolume_resolve
  repeat' first
    | exact maintains_pure (stepRel_onlyCalls _) _
    | exact maintains_fail (stepRel_onlyCalls _) _
    | exact onlyCalls_call _ _ _ _ _ rfl
    | exact maintains_liftE (stepRel_onlyCalls _) _
    | apply maintains_mapErr
    | apply maintains_bind (stepRel_onlyCalls _)
    | intro _
    | split
    | dsimp only

theorem DeleteVolume_backing_onlyCalls {σ : Type} (bk : Backend σ)
    (cs : ScaleControllerServer) (loc : DeleteVolumeLocals) :
    Maintains (onlyCalls (fun k => !k.isDeleteSymLnk)) (DeleteVolume_backing bk cs loc) := by
  unfold DeleteVolume_backing
  repeat' first
    | exact maintains_pure (stepRel_onlyCalls _) _
    | exact maintains_fail (stepRel_onlyCalls _) _
    | exact onlyCalls_call _ _ _ _ _ rfl
    | apply maintains_bind (stepRel_onlyCalls _)
    | intro _
    | split
    | dsimp only

theorem CreateSnapshot_respond_onlyCalls {σ : Type} (bk : Backend σ) (ext : Ext)
    (loc : CreateSnapshotLocals) :
    Maintains (onlyCalls Call.isSnapshotDetail) (CreateSnapshot_respond bk ext loc) := by
  unfold CreateSnapshot_respond getSnapshotCreateTimestamp getSnapRestoreSize
  repeat' first
    | exact maintains_pure (stepRel_onlyCalls _) _
    | exact maintains_fail (stepRel_onlyCalls _) _
    | exact onlyCalls_call _ _ _ _ _ rfl
    | apply maintains_bind (stepRel_onlyCalls _)
    | intro _
    | split

/-! ## Expansion -/

theorem uint64_of_nonneg (i : Int) (h0 : 0 ≤ i) (h1 : i < 2 ^ 63) : uint64 i = i.toNat := by
  unfold uint64
  have h64 : (2 : Int) ^ 64 = 18446744073709551616 := by norm_num
  have h63 : (2 : Int) ^ 63 = 9223372036854775808 := by norm_num
  rw [h63] at h1
  rw [h64, Int.emod_eq_of_lt h0 (by omega)]

theorem int64_of_lt (n : Nat) (h : (n : Int) < 2 ^ 63) : int64 n = n := by
  unfold int64
  have h63 : (2 : Int) ^ 63 = 9223372036854775808 := by norm_num
  have hn64 : (2 : Nat) ^ 64 = 18446744073709551616 := by norm_num
  have hn63 : (2 : Nat) ^ 63 = 9223372036854775808 := by norm_num
  rw [h63] at h
  rw [hn64, hn63]
  have hmod : n % 18446744073709551616 = n := Nat.mod_eq_of_lt (by omega)
  rw [hmod]
  split
  · rfl
  · omega

/-- When the resolution succeeds, the capacity it hands on is the requested one. -/
theorem ControllerExpandVolume_resolve_returns {σ : Type} (bk : Backend σ)
    (cs : ScaleControllerServer) (req : ControllerExpandVolumeRequest) :
    Returns (fun loc => ∃ cr, req.CapacityRange = some cr ∧
        loc.capacity = uint64 cr.RequiredBytes)
      (ControllerExpandVolume_resolve bk cs req) := by
  unfold ControllerExpandVolume_resolve
  split
  · exact returns_fail _
  refine returns_ite (fun _ => returns_fail _) (fun _ => ?_)
  split
  · exact returns_fail _
  rename_i capRange hcr
  refine returns_bind_any (fun v => ?_)
  refine returns_ite (fun _ => returns_fail _) (fun _ => ?_)
  refine returns_bind_any (fun conn => ?_)
  refine returns_bind_any (fun fsName => ?_)
  refine returns_bind_any (fun fset => ?_)
  refine returns_ite (fun _ => returns_fail _) (fun _ => ?_)
  exact returns_pure ⟨capRange, hcr, rfl⟩

/-- C12 (amended): grow-only expansion.  For a fileset-backed volume that passes the
name-integrity check, with current quota `q` and requested capacity `c` (byte counts
below `2^63`): when `q ≥ c`, `ControllerExpandVolume` returns capacity `max q c = q`,
node expansion not required, and issues no quota-set call; when `q < c` it issues
exactly one quota-set call (setting `c`), and returns capacity `max q c = c`, node
expansion not required, if that call succeeds, and fails with Internal if it fails.
The steps before the quota listing issue only identifier lookups. -/
theorem ControllerExpandVolume_grow_only {σ : Type} (bk : Backend σ) (pkg : Pkg)
    (cs : ScaleControllerServer) (req : ControllerExpandVolumeRequest) (w w1 : Sys σ)
    (loc : ControllerExpandVolumeLocals) (cr : CapacityRange) (quota : Str) (q : Nat)
    (hres : ControllerExpandVolume_resolve bk cs req w = (.ok loc, w1))
    (hcr : req.CapacityRange = some cr)
    (hc0 : 0 ≤ cr.RequiredBytes) (hc63 : cr.RequiredBytes < 2 ^ 63)
    (hlist : reply bk loc.conn
      (.ListFilesetQuota loc.filesystemName loc.filesetResp.FilesetName) w1 = .ok quota)
    (hq : pkg.ConvertToBytes quota = .ok q) (hq63 : (q : Int) < 2 ^ 63) :
    (cr.RequiredBytes ≤ q →
      ControllerExpandVolume bk pkg cs req w =
        (.ok { CapacityBytes := max (q : Int) cr.RequiredBytes, NodeExpansionRequired := false },
          after bk loc.conn
            (.ListFilesetQuota loc.filesystemName loc.filesetResp.FilesetName) w1)) ∧
    ((q : Int) < cr.RequiredBytes →
      (ControllerExpandVolume bk pkg cs req w).2 =
        after bk loc.conn
          (.SetFilesetQuota loc.filesystemName loc.filesetResp.FilesetName
            (FormatUint cr.RequiredBytes.toNat))
          (after bk loc.conn
            (.ListFilesetQuota loc.filesystemName loc.filesetResp.FilesetName) w1) ∧
      (reply bk loc.conn
          (.SetFilesetQuota loc.filesystemName loc.filesetResp.FilesetName
            (FormatUint cr.RequiredBytes.toNat))
          (after bk loc.conn
            (.ListFilesetQuota loc.filesystemName loc.filesetResp.FilesetName) w1) = .ok () →
        (ControllerExpandVolume bk pkg cs req w).1 =
          .ok { CapacityBytes := max (q : Int) cr.RequiredBytes,
                NodeExpansionRequired := false }) ∧
      (∀ e, reply bk loc.conn
          (.SetFilesetQuota loc.filesystemName loc.filesetResp.FilesetName
            (FormatUint cr.RequiredBytes.toNat))
          (after bk loc.conn
            (.ListFilesetQuota loc.filesystemName loc.filesetResp.FilesetName) w1) = .error e →
        ∃ msg, (ControllerExpandVolume bk pkg cs req w).1 = .error (.status .Internal msg))) ∧
    onlyCalls Call.isResolution w w1 := by
  have hq1 : onlyCalls Call.isResolution w w1 := by
    have := (ControllerExpandVolume_resolve_onlyCalls bk cs req).run w
    rw [hres] at this
    exact this
  obtain ⟨cr1, hcr1, hcap⟩ :=
    (ControllerExpandVolume_resolve_returns bk cs req).run w loc (by rw [hres])
  rw [hcr] at hcr1
  cases hcr1
  rw [uint64_of_nonneg _ hc0 hc63] at hcap
  cases loc with
  | mk capacity conn filesystemName filesetResp =>
  simp only at hcap hlist ⊢
  subst hcap
  have hcast : ((cr.RequiredBytes.toNat : Nat) : Int) = cr.RequiredBytes := Int.toNat_of_nonneg hc0
  have hrun : ControllerExpandVolume bk pkg cs req w =
      ((if q < cr.RequiredBytes.toNat then
          (call bk conn
            (.SetFilesetQuota filesystemName filesetResp.FilesetName
              (FormatUint cr.RequiredBytes.toNat))
            (fun err => .status .Internal
              (Sprintf [lit "unable to expand the volume. Error [", err.Error, lit "]"]))
            >>= fun _ => (pure cr.RequiredBytes.toNat : M σ Nat))
        else pure q) >>= fun capacity =>
        (pure { CapacityBytes := int64 capacity, NodeExpansionRequired := false } :
          M σ ControllerExpandVolumeResponse))
        (after bk conn
          (.ListFilesetQuota filesystemName filesetResp.FilesetName) w1) := by
    unfold ControllerExpandVolume
    rw [bind_run, hres]
    simp only [ControllerExpandVolume_expand]
    rw [bind_run, call_run, hlist]
    simp only
    rw [bind_run, mapErr_run, liftE_run, hq]
  refine ⟨?_, ?_, hq1⟩
  · intro hle
    have hnlt : ¬ q < cr.RequiredBytes.toNat := by omega
    rw [hrun, if_neg hnlt, bind_run, pure_run]
    simp only [pure_run, int64_of_lt q hq63, max_eq_left hle]
  · intro hlt
    have hlt' : q < cr.RequiredBytes.toNat := by omega
    have hmax : max (q : Int) cr.RequiredBytes = cr.RequiredBytes := max_eq_right (le_of_lt hlt)
    have hc : int64 cr.RequiredBytes.toNat = cr.RequiredBytes := by
      rw [int64_of_lt _ (by rw [hcast]; exact hc63), hcast]
    rw [hrun, if_pos hlt', bind_run, bind_run, call_run]
    cases hset : reply bk conn
        (.SetFilesetQuota filesystemName filesetResp.FilesetName
          (FormatUint cr.RequiredBytes.toNat))
        (after bk conn
          (.ListFilesetQuota filesystemName filesetResp.FilesetName) w1) with
    | ok x =>
      refine ⟨rfl, fun _ => ?_, fun e he => by cases he⟩
      simp only [pure_run, hc, hmax]
    | error e =>
      exact ⟨rfl, fun h => (by cases h), fun _ _ => ⟨_, rfl⟩⟩

/-- Witness of `ControllerExpandVolume_grow_only`: a fileset with quota 2147483648 asked
to expand to 1073741824 keeps its capacity. -/
theorem ControllerExpandVolume_grow_only_witness :
    (ControllerExpandVolume (bkScenario { quota := lit "2147483648" }) pkgDecimal csTwoKeys
        (reqExpand 1073741824) sysIdle).1 =
      .ok { CapacityBytes := max ((2147483648 : Nat) : Int) 1073741824,
            NodeExpansionRequired := false } :=
  congrArg Prod.fst
    ((ControllerExpandVolume_grow_only (bkScenario { quota := lit "2147483648" }) pkgDecimal
      csTwoKeys (reqExpand 1073741824) sysIdle _ _ { RequiredBytes := 1073741824 }
      (lit "2147483648") 2147483648 rfl rfl (by decide) (by decide) rfl rfl (by decide)).1
      (by decide))

/-- C12 as stated fails: with quota 1073741824 and requested capacity 2147483648 the
quota-set call is issued, and when the backend rejects it the expansion returns an
Internal error instead of the capacity 2147483648. -/
theorem ControllerExpandVolume_grow_only_counterexample :
    (ControllerExpandVolume (bkScenario { failing := Call.isSetFilesetQuota }) pkgDecimal
        csTwoKeys (reqExpand 2147483648) sysIdle).1 =
      .error (.status .Internal
        (lit "unable to expand the volume. Error [backend failure]")) ∧
    (ControllerExpandVolume (bkScenario { failing := Call.isSetFilesetQuota }) pkgDecimal
        csTwoKeys (reqExpand 2147483648) sysIdle).2.log =
      [(0, .GetFilesystemName (lit "u1")),
       (0, .GetFileSetResponseFromId (lit "fs1") (lit "7")),
       (0, .ListFilesetQuota (lit "fs1") (lit "pvc-1")),
       (0, .SetFilesetQuota (lit "fs1") (lit "pvc-1") (lit "2147483648"))] :=
  ⟨rfl, rfl⟩

/-! ## Snapshots -/

/-- What `CreateSnapshot` does once the source fileset is resolved. -/
theorem CreateSnapshot_run {σ : Type} (bk : Backend σ) (ext : Ext)
    (cs : ScaleControllerServer) (req : Option CreateSnapshotRequest) (w w1 : Sys σ)
    (loc : CreateSnapshotLocals) (hres : CreateSnapshot_resolve bk cs req w = (.ok loc, w1)) :
    CreateSnapshot bk ext cs req w =
      (CreateSnapshot_ensure bk loc >>= fun _ => CreateSnapshot_respond bk ext loc) w1 := by
  unfold CreateSnapshot
  rw [bind_run, hres]

/-- C13: snapshot ceiling.  Once the source fileset is resolved: if the requested
snapshot does not exist and the fileset's snapshot list has 256 or more entries,
`CreateSnapshot` fails with OutOfRange right after the listing (no create-snapshot
call); if the list has fewer than 256 entries it issues the create-snapshot call, and
nothing but response details is fetched afterwards; if the snapshot exists, only the
response details are fetched after the existence check (no listing, no create-snapshot
call).  The resolution itself issues identifier lookups only. -/
theorem CreateSnapshot_ceiling {σ : Type} (bk : Backend σ) (ext : Ext)
    (cs : ScaleControllerServer) (req : Option CreateSnapshotRequest) (w w1 : Sys σ)
    (loc : CreateSnapshotLocals) (hres : CreateSnapshot_resolve bk cs req w = (.ok loc, w1)) :
    (∀ l : List Snapshot_v2,
      reply bk loc.conn
        (.CheckIfSnapshotExist loc.filesystemName loc.filesetName loc.snapName) w1 = .ok false →
      reply bk loc.conn (.ListFilesetSnapshots loc.filesystemName loc.filesetName)
        (after bk loc.conn
          (.CheckIfSnapshotExist loc.filesystemName loc.filesetName loc.snapName) w1) = .ok l →
      256 ≤ l.length →
      (∃ msg, (CreateSnapshot bk ext cs req w).1 = .error (.status .OutOfRange msg)) ∧
      (CreateSnapshot bk ext cs req w).2.log =
        w1.log ++
          [(loc.conn, .CheckIfSnapshotExist loc.filesystemName loc.filesetName loc.snapName),
           (loc.conn, .ListFilesetSnapshots loc.filesystemName loc.filesetName)]) ∧
    (∀ l : List Snapshot_v2,
      reply bk loc.conn
        (.CheckIfSnapshotExist loc.filesystemName loc.filesetName loc.snapName) w1 = .ok false →
      reply bk loc.conn (.ListFilesetSnapshots loc.filesystemName loc.filesetName)
        (after bk loc.conn
          (.CheckIfSnapshotExist loc.filesystemName loc.filesetName loc.snapName) w1) = .ok l →
      l.length < 256 →
      ∃ calls, (CreateSnapshot bk ext cs req w).2.log =
        w1.log ++
          [(loc.conn, .CheckIfSnapshotExist loc.filesystemName loc.filesetName loc.snapName),
           (loc.conn, .ListFilesetSnapshots loc.filesystemName loc.filesetName),
           (loc.conn, .CreateSnapshot loc.filesystemName loc.filesetName loc.snapName)] ++
          calls ∧
        ∀ c ∈ calls, c.2.isSnapshotDetail = true) ∧
    (reply bk loc.conn
        (.CheckIfSnapshotExist loc.filesystemName loc.filesetName loc.snapName) w1 = .ok true →
      ∃ calls, (CreateSnapshot bk ext cs req w).2.log =
        w1.log ++
          [(loc.conn, .CheckIfSnapshotExist loc.filesystemName loc.filesetName loc.snapName)] ++
          calls ∧
        ∀ c ∈ calls, c.2.isSnapshotDetail = true) ∧
    onlyCalls Call.isResolution w w1 := by
  have hpre : onlyCalls Call.isResolution w w1 := by
    have := (CreateSnapshot_resolve_onlyCalls bk cs req).run w
    rw [hres] at this
    exact this
  have htail : ∀ w2 : Sys σ, ∃ calls,
      (CreateSnapshot_respond bk ext loc w2).2.log = w2.log ++ calls ∧
        ∀ c ∈ calls, c.2.isSnapshotDetail = true := fun w2 =>
    ((CreateSnapshot_respond_onlyCalls bk ext loc).run w2).2
  rw [CreateSnapshot_run bk ext cs req w w1 loc hres]
  refine ⟨?_, ?_, ?_, hpre⟩
  · intro l hchk hlst hlen
    have hnot : ¬ l.length < 256 := by omega
    simp only [CreateSnapshot_ensure, bind_run, call_run, hchk, hlst, if_true, ge_iff_le,
      if_pos hlen, fail_run]
    exact ⟨⟨_, rfl⟩, by simp [after_log]⟩
  · intro l hchk hlst hlen
    have hnot : ¬ 256 ≤ l.length := by omega
    simp only [CreateSnapshot_ensure, bind_run, call_run, hchk, hlst, if_true, ge_iff_le,
      if_neg hnot]
    cases hcrt : reply bk loc.conn
        (.CreateSnapshot loc.filesystemName loc.filesetName loc.snapName)
        (after bk loc.conn (.ListFilesetSnapshots loc.filesystemName loc.filesetName)
          (after bk loc.conn
            (.CheckIfSnapshotExist loc.filesystemName loc.filesetName loc.snapName) w1)) with
    | error e =>
      exact ⟨[], by simp [after_log], by simp⟩
    | ok x =>
      obtain ⟨calls, hl, hc⟩ := htail
        (after bk loc.conn (.CreateSnapshot loc.filesystemName loc.filesetName loc.snapName)
          (after bk loc.conn (.ListFilesetSnapshots loc.filesystemName loc.filesetName)
            (after bk loc.conn
              (.CheckIfSnapshotExist loc.filesystemName loc.filesetName loc.snapName) w1)))
      refine ⟨calls, ?_, hc⟩
      simp only
      rw [hl]
      simp [after_log]
  · intro hchk
    have hcond : ¬ (true = false) := by decide
    simp only [CreateSnapshot_ensure, bind_run, call_run, hchk, if_neg hcond, pure_run]
    obtain ⟨calls, hl, hc⟩ := htail
      (after bk loc.conn
        (.CheckIfSnapshotExist loc.filesystemName loc.filesetName loc.snapName) w1)
    refine ⟨calls, ?_, hc⟩
    rw [hl]
    simp [after_log]

/-- Witness of `CreateSnapshot_ceiling`: a fileset without snapshots gets the snapshot
created. -/
theorem CreateSnapshot_ceiling_witness :
    ∃ calls, (CreateSnapshot (bkScenario {}) (extSkip yes) csTwoKeys
        (some { SourceVolumeId := volIdPvc1, Name := lit "snap-1" }) sysIdle).2.log =
      [(0, .GetFilesystemName (lit "u1")),
       (0, .GetFileSetResponseFromId (lit "fs1") (lit "7"))] ++
        [(0, .CheckIfSnapshotExist (lit "fs1") (lit "pvc-1") (lit "snap-1")),
         (0, .ListFilesetSnapshots (lit "fs1") (lit "pvc-1")),
         (0, .CreateSnapshot (lit "fs1") (lit "pvc-1") (lit "snap-1"))] ++ calls ∧
      ∀ c ∈ calls, c.2.isSnapshotDetail = true :=
  (CreateSnapshot_ceiling (bkScenario {}) (extSkip yes) csTwoKeys
    (some { SourceVolumeId := volIdPvc1, Name := lit "snap-1" }) sysIdle _ _ rfl).2.1
    [] rfl rfl (by decide)

theorem GetVolIdMembers_nil : GetVolIdMembers [] = .error (invalidVolumeId []) := rfl

/-- C14: independent-fileset-only snapshotting.  With the snapshot capability enabled,
`CreateSnapshot` fails with InvalidArgument, having issued no call at all, when the
source volume identifier has the lightweight shape; and it fails with InvalidArgument
right after the two lookups that resolve the fileset (so without any create-snapshot
call) when that fileset has a parent fileset id (`ParentId > 0`). -/
theorem CreateSnapshot_independent_only {σ : Type} (bk : Backend σ) (ext : Ext)
    (cs : ScaleControllerServer) (r : CreateSnapshotRequest) (w : Sys σ) (v : scaleVolId)
    (hcap : cs.Driver.ValidateControllerServiceRequest .RPC_CREATE_DELETE_SNAPSHOT = none)
    (hdec : GetVolIdMembers r.SourceVolumeId = .ok v) :
    (v.IsFilesetBased = false →
      ∃ msg, CreateSnapshot bk ext cs (some r) w = (.error (.status .InvalidArgument msg), w)) ∧
    (∀ (conn : ConnId) (filesystemName : Str) (filesetResp : Fileset_v2),
      v.IsFilesetBased = true →
      cs.Driver.connmap v.ClusterId = some conn →
      reply bk conn (.GetFilesystemName v.FsUUID) w = .ok filesystemName →
      reply bk conn (.GetFileSetResponseFromId filesystemName v.FsetId)
        (after bk conn (.GetFilesystemName v.FsUUID) w) = .ok filesetResp →
      filesetResp.Config.ParentId > 0 →
      ∃ msg, CreateSnapshot bk ext cs (some r) w =
        (.error (.status .InvalidArgument msg),
          after bk conn (.GetFileSetResponseFromId filesystemName v.FsetId)
            (after bk conn (.GetFilesystemName v.FsUUID) w))) := by
  have hne : ¬ r.SourceVolumeId = [] := by
    intro h
    rw [h, GetVolIdMembers_nil] at hdec
    cases hdec
  constructor
  · intro hlw
    unfold CreateSnapshot
    simp only [CreateSnapshot_resolve, hcap, if_neg hne, bind_run, mapErr_run, liftE_run, hdec,
      hlw, if_true, fail_run]
    exact ⟨_, rfl⟩
  · intro conn filesystemName filesetResp hfs hconn hname hfset hparent
    have hfs' : ¬ v.IsFilesetBased = false := by simp [hfs]
    unfold CreateSnapshot
    simp only [CreateSnapshot_resolve, hcap, if_neg hne, bind_run, mapErr_run, liftE_run, hdec,
      if_neg hfs', getConnFromClusterID, hconn, call_run, hname, hfset, if_pos hparent,
      fail_run]
    exact ⟨_, rfl⟩

/-- Witness of `CreateSnapshot_independent_only`: a lightweight source volume. -/
theorem CreateSnapshot_independent_only_witness :
    ∃ msg, CreateSnapshot (bkScenario {}) (extSkip yes) csTwoKeys
        (some { SourceVolumeId := lit "c1;u1;path=/ibm/fs1/csifset/.volumes/pvc-1",
                Name := lit "snap-1" }) sysIdle =
      (.error (.status .InvalidArgument msg), sysIdle) :=
  (CreateSnapshot_independent_only (bkScenario {}) (extSkip yes) csTwoKeys
    { SourceVolumeId := lit "c1;u1;path=/ibm/fs1/csifset/.volumes/pvc-1", Name := lit "snap-1" }
    sysIdle { ClusterId := lit "c1", FsUUID := lit "u1",
              SymLnkPath := lit "/ibm/fs1/csifset/.volumes/pvc-1" } rfl rfl).1 rfl

/-- What `DeleteSnapshot` does once the identifier is resolved. -/
theorem DeleteSnapshot_run {σ : Type} (bk : Backend σ) (cs : ScaleControllerServer)
    (req : Option DeleteSnapshotRequest) (w w1 : Sys σ) (loc : DeleteSnapshotLocals)
    (hres : DeleteSnapshot_resolve bk cs req w = (.ok loc, w1)) :
    DeleteSnapshot bk cs req w = DeleteSnapshot_delete bk loc w1 := by
  unfold DeleteSnapshot
  rw [bind_run, hres]

theorem queriesOnly_after {σ : Type} (bk : Backend σ) (conn : ConnId) (k : Call) (w w1 : Sys σ)
    (hk : k.isMutating = false) (h : queriesOnly w w1) :
    queriesOnly w (after bk conn k w1) :=
  stepRel_queriesOnly.trans _ _ _ h ((queriesOnly_invoke bk conn k hk).run w1)

/-- C15: idempotent snapshot delete.  For a snapshot id whose cluster and filesystem
resolve, `DeleteSnapshot` returns success right after the fileset check when the
fileset no longer exists, and right after the snapshot check when the fileset exists
but the snapshot does not; unless both exist, every connector call of the whole run is
a query (no delete-snapshot call); when both exist, the delete-snapshot call is issued
after the two checks. -/
theorem DeleteSnapshot_idempotent {σ : Type} (bk : Backend σ) (cs : ScaleControllerServer)
    (req : Option DeleteSnapshotRequest) (w w1 : Sys σ) (loc : DeleteSnapshotLocals)
    (hres : DeleteSnapshot_resolve bk cs req w = (.ok loc, w1)) :
    (reply bk loc.conn (.CheckIfFilesetExist loc.filesystemName loc.filesetName) w1 = .ok false →
      DeleteSnapshot bk cs req w =
        (.ok (some {}),
          after bk loc.conn (.CheckIfFilesetExist loc.filesystemName loc.filesetName) w1)) ∧
    (reply bk loc.conn (.CheckIfFilesetExist loc.filesystemName loc.filesetName) w1 = .ok true →
      reply bk loc.conn
        (.CheckIfSnapshotExist loc.filesystemName loc.filesetName loc.snapshotName)
        (after bk loc.conn (.CheckIfFilesetExist loc.filesystemName loc.filesetName) w1) =
          .ok false →
      DeleteSnapshot bk cs req w =
        (.ok (some {}),
          after bk loc.conn
            (.CheckIfSnapshotExist loc.filesystemName loc.filesetName loc.snapshotName)
            (after bk loc.conn (.CheckIfFilesetExist loc.filesystemName loc.filesetName) w1))) ∧
    (¬ (reply bk loc.conn (.CheckIfFilesetExist loc.filesystemName loc.filesetName) w1 =
          .ok true ∧
        reply bk loc.conn
          (.CheckIfSnapshotExist loc.filesystemName loc.filesetName loc.snapshotName)
          (after bk loc.conn (.CheckIfFilesetExist loc.filesystemName loc.filesetName) w1) =
            .ok true) →
      queriesOnly w (DeleteSnapshot bk cs req w).2) ∧
    (reply bk loc.conn (.CheckIfFilesetExist loc.filesystemName loc.filesetName) w1 = .ok true →
      reply bk loc.conn
        (.CheckIfSnapshotExist loc.filesystemName loc.filesetName loc.snapshotName)
        (after bk loc.conn (.CheckIfFilesetExist loc.filesystemName loc.filesetName) w1) =
          .ok true →
      (DeleteSnapshot bk cs req w).2 =
        after bk loc.conn (.DeleteSnapshot loc.filesystemName loc.filesetName loc.snapshotName)
          (after bk loc.conn
            (.CheckIfSnapshotExist loc.filesystemName loc.filesetName loc.snapshotName)
            (after bk loc.conn (.CheckIfFilesetExist loc.filesystemName loc.filesetName) w1))) := by
  have hpre : queriesOnly w w1 := by
    have := (DeleteSnapshot_resolve_onlyCalls bk cs req).run w
    rw [hres] at this
    exact queriesOnly_of_resolution this
  have hcond : ¬ (false = true) := by decide
  rw [DeleteSnapshot_run bk cs req w w1 loc hres]
  refine ⟨?_, ?_, ?_, ?_⟩
  · intro hfe
    simp only [DeleteSnapshot_delete, bind_run, call_run, hfe, if_neg hcond, pure_run]
  · intro hfe hse
    simp only [DeleteSnapshot_delete, bind_run, call_run, hfe, hse, if_true, if_neg hcond,
      pure_run]
  · intro hnot
    have q1 := queriesOnly_after bk loc.conn
      (.CheckIfFilesetExist loc.filesystemName loc.filesetName) w w1 rfl hpre
    have q2 := queriesOnly_after bk loc.conn
      (.CheckIfSnapshotExist loc.filesystemName loc.filesetName loc.snapshotName) w _ rfl q1
    cases hfe : reply bk loc.conn (.CheckIfFilesetExist loc.filesystemName loc.filesetName) w1 with
    | error e =>
      simp only [DeleteSnapshot_delete, bind_run, call_run, hfe]
      exact q1
    | ok b =>
      cases b with
      | false =>
        simp only [DeleteSnapshot_delete, bind_run, call_run, hfe, if_neg hcond, pure_run]
        exact q1
      | true =>
        cases hse : reply bk loc.conn
            (.CheckIfSnapshotExist loc.filesystemName loc.filesetName loc.snapshotName)
            (after bk loc.conn (.CheckIfFilesetExist loc.filesystemName loc.filesetName) w1) with
        | error e =>
          simp only [DeleteSnapshot_delete, bind_run, call_run, hfe, hse, if_true]
          exact q2
        | ok b2 =>
          cases b2 with
          | false =>
            simp only [DeleteSnapshot_delete, bind_run, call_run, hfe, hse, if_true,
              if_neg hcond, pure_run]
            exact q2
          | true => exact absurd ⟨hfe, hse⟩ hnot
  · intro hfe hse
    simp only [DeleteSnapshot_delete, bind_run, call_run, hfe, hse, if_true, invoke_run]
    cases reply bk loc.conn (.DeleteSnapshot loc.filesystemName loc.filesetName loc.snapshotName)
        (after bk loc.conn
          (.CheckIfSnapshotExist loc.filesystemName loc.filesetName loc.snapshotName)
          (after bk loc.conn (.CheckIfFilesetExist loc.filesystemName loc.filesetName) w1)) <;>
      rfl

/-- Witness of `DeleteSnapshot_idempotent`: the fileset of the snapshot is gone. -/
theorem DeleteSnapshot_idempotent_witness :
    (DeleteSnapshot (bkScenario { filesetExists := false }) csTwoKeys
        (some { SnapshotId := snapIdPvc1 }) sysIdle).1 = .ok (some {}) :=
  congrArg Prod.fst
    ((DeleteSnapshot_idempotent (bkScenario { filesetExists := false }) csTwoKeys
      (some { SnapshotId := snapIdPvc1 }) sysIdle _ _ rfl).1 rfl)

/-- C16 (the code at the failing input): the fileset and the snapshot exist, the
backend rejects the delete-snapshot call, and `DeleteSnapshot` returns the pair
`(nil, nil)`: no error reaches the caller. -/
theorem DeleteSnapshot_swallows_backend_error :
    reply (bkScenario { snapshotExists := true, failing := Call.isDeleteSnapshot }) 0
        (.DeleteSnapshot (lit "fs1") (lit "pvc-1") (lit "snap-1")) sysIdle =
      .error (.errorf (lit "backend failure")) ∧
    (DeleteSnapshot (bkScenario { snapshotExists := true, failing := Call.isDeleteSnapshot })
        csTwoKeys (some { SnapshotId := snapIdPvc1 }) sysIdle).1 = .ok none ∧
    (DeleteSnapshot (bkScenario { snapshotExists := true, failing := Call.isDeleteSnapshot })
        csTwoKeys (some { SnapshotId := snapIdPvc1 }) sysIdle).2.log =
      [(0, .GetFilesystemName (lit "u1")),
       (0, .CheckIfFilesetExist (lit "fs1") (lit "pvc-1")),
       (0, .CheckIfSnapshotExist (lit "fs1") (lit "pvc-1") (lit "snap-1")),
       (0, .DeleteSnapshot (lit "fs1") (lit "pvc-1") (lit "snap-1"))] :=
  ⟨rfl, rfl, rfl⟩

/-! ## Deletion -/

theorem filepath.Base_ne_nil (path : Str) : filepath.Base path ≠ [] := by
  unfold filepath.Base
  split
  · decide
  · simp only
    split
    · decide
    · assumption

/-- What `DeleteVolume` does once the identifier is decoded and the backend filesystem
is resolved. -/
theorem DeleteVolume_run {σ : Type} (bk : Backend σ) (pkg : Pkg) (cs : ScaleControllerServer)
    (req : DeleteVolumeRequest) (w w1 : Sys σ) (loc : DeleteVolumeLocals)
    (hres : DeleteVolume_resolve bk pkg cs req w = (.ok loc, w1)) :
    DeleteVolume bk pkg cs req w =
      (DeleteVolume_backing bk cs loc >>= fun _ => DeleteVolume_symlink bk cs loc) w1 := by
  unfold DeleteVolume
  rw [bind_run, hres]

theorem DeleteVolume_resolve_pre {σ : Type} (bk : Backend σ) (pkg : Pkg)
    (cs : ScaleControllerServer) (req : DeleteVolumeRequest) (w w1 : Sys σ)
    (loc : DeleteVolumeLocals) (hres : DeleteVolume_resolve bk pkg cs req w = (.ok loc, w1)) :
    onlyCalls Call.isResolution w w1 := by
  have := (DeleteVolume_resolve_onlyCalls bk pkg cs req).run w
  rw [hres] at this
  exact this

/-- The fileset is left alone when the identifier resolves to no fileset name or to a
name other than the one the path gives. -/
theorem DeleteVolume_backing_skip {σ : Type} (bk : Backend σ) (cs : ScaleControllerServer)
    (loc : DeleteVolumeLocals) (w1 : Sys σ) (FilesetName : Str)
    (hfs : loc.volumeIdMembers.IsFilesetBased = true)
    (hname : reply bk loc.conn
      (.GetFileSetNameFromId loc.FilesystemName loc.volumeIdMembers.FsetId) w1 = .ok FilesetName)
    (hskip : FilesetName = [] ∨ filepath.Base loc.sLinkRelPath ≠ FilesetName) :
    DeleteVolume_backing bk cs loc w1 =
      (.ok (), after bk loc.conn
        (.GetFileSetNameFromId loc.FilesystemName loc.volumeIdMembers.FsetId) w1) := by
  by_cases hnil : FilesetName = []
  · simp only [DeleteVolume_backing, hfs, if_true, bind_run, call_run, hname, hnil, ne_eq,
      not_true_eq_false, if_false, pure_run]
  · have hmis : ¬ filepath.Base loc.sLinkRelPath = FilesetName := hskip.resolve_left hnil
    simp only [DeleteVolume_backing, hfs, if_true, bind_run, call_run, hname, ne_eq, hnil,
      not_false_eq_true, if_neg hmis, pure_run]

/-- The removal of the fileset when the identifier resolves to the name the path
gives: the snapshots are listed, and the fileset is deleted if there is none. -/
theorem DeleteVolume_backing_match {σ : Type} (bk : Backend σ) (cs : ScaleControllerServer)
    (loc : DeleteVolumeLocals) (w1 : Sys σ) (FilesetName : Str)
    (hfs : loc.volumeIdMembers.IsFilesetBased = true)
    (hname : reply bk loc.conn
      (.GetFileSetNameFromId loc.FilesystemName loc.volumeIdMembers.FsetId) w1 = .ok FilesetName)
    (hmatch : filepath.Base loc.sLinkRelPath = FilesetName)
    (l : List Snapshot_v2)
    (hlist : reply bk loc.conn (.ListFilesetSnapshots loc.FilesystemName FilesetName)
      (after bk loc.conn
        (.GetFileSetNameFromId loc.FilesystemName loc.volumeIdMembers.FsetId) w1) = .ok l) :
    (l ≠ [] → ∃ msg, DeleteVolume_backing bk cs loc w1 =
      (.error (.status .InvalidArgument msg),
        after bk loc.conn (.ListFilesetSnapshots loc.FilesystemName FilesetName)
          (after bk loc.conn
            (.GetFileSetNameFromId loc.FilesystemName loc.volumeIdMembers.FsetId) w1))) ∧
    (l = [] →
      (reply bk loc.conn (.DeleteFileset loc.FilesystemName FilesetName)
          (after bk loc.conn (.ListFilesetSnapshots loc.FilesystemName FilesetName)
            (after bk loc.conn
              (.GetFileSetNameFromId loc.FilesystemName loc.volumeIdMembers.FsetId) w1)) =
          .ok () →
        DeleteVolume_backing bk cs loc w1 =
          (.ok (), after bk loc.conn (.DeleteFileset loc.FilesystemName FilesetName)
            (after bk loc.conn (.ListFilesetSnapshots loc.FilesystemName FilesetName)
              (after bk loc.conn
                (.GetFileSetNameFromId loc.FilesystemName loc.volumeIdMembers.FsetId) w1)))) ∧
      (∀ e, reply bk loc.conn (.DeleteFileset loc.FilesystemName FilesetName)
          (after bk loc.conn (.ListFilesetSnapshots loc.FilesystemName FilesetName)
            (after bk loc.conn
              (.GetFileSetNameFromId loc.FilesystemName loc.volumeIdMembers.FsetId) w1)) =
          .error e →
        ∃ msg, DeleteVolume_backing bk cs loc w1 =
          (.error (.status .Internal msg),
            after bk loc.conn (.DeleteFileset loc.FilesystemName FilesetName)
              (after bk loc.conn (.ListFilesetSnapshots loc.FilesystemName FilesetName)
                (after bk loc.conn
                  (.GetFileSetNameFromId loc.FilesystemName loc.volumeIdMembers.FsetId)
                  w1))))) := by
  have hnil : ¬ FilesetName = [] := by
    rw [← hmatch]
    exact filepath.Base_ne_nil _
  have hrun : DeleteVolume_backing bk cs loc w1 =
      (if l.length > 0 then
        (fail (.status .InvalidArgument (Sprintf [lit "volume fileset [", FilesetName,
          lit "] contains one or more snapshot, delete snapshot/volumesnapshot"])) : M σ Unit)
      else
        call bk loc.conn (.DeleteFileset loc.FilesystemName FilesetName)
          (fun err => .status .Internal (Sprintf [lit "unable to Delete Fileset [",
            FilesetName, lit "] for FS [", loc.FilesystemName, lit "] and clusterId [",
            loc.volumeIdMembers.ClusterId, lit "].Error : [", err.Error, lit "]"])))
        (after bk loc.conn (.ListFilesetSnapshots loc.FilesystemName FilesetName)
          (after bk loc.conn
            (.GetFileSetNameFromId loc.FilesystemName loc.volumeIdMembers.FsetId) w1)) := by
    simp only [DeleteVolume_backing, hfs, if_true, bind_run, call_run, hname, ne_eq, hnil,
      not_false_eq_true, if_pos hmatch, hlist]
  rw [hrun]
  constructor
  · intro hl
    have hpos : l.length > 0 := List.length_pos.mpr hl
    rw [if_pos hpos]
    exact ⟨_, rfl⟩
  · intro hl
    subst hl
    have hpos : ¬ ([] : List Snapshot_v2).length > 0 := by simp
    rw [if_neg hpos, call_run]
    constructor
    · intro hdel
      rw [hdel]
    · intro e hdel
      rw [hdel]
      exact ⟨_, rfl⟩

/-- C17: delete name-mismatch guard.  For a fileset-backed identifier whose fileset id
resolves to a fileset name different from the base name of the identifier's symlink
path, `DeleteVolume` issues, after the name lookup, the delete-symlink call and nothing
else (no snapshot listing, no delete-fileset call), and it returns success if the
symlink deletion succeeds.  The steps before issue identifier lookups only. -/
theorem DeleteVolume_name_mismatch {σ : Type} (bk : Backend σ) (pkg : Pkg)
    (cs : ScaleControllerServer) (req : DeleteVolumeRequest) (w w1 : Sys σ)
    (loc : DeleteVolumeLocals) (FilesetName : Str)
    (hres : DeleteVolume_resolve bk pkg cs req w = (.ok loc, w1))
    (hfs : loc.volumeIdMembers.IsFilesetBased = true)
    (hname : reply bk loc.conn
      (.GetFileSetNameFromId loc.FilesystemName loc.volumeIdMembers.FsetId) w1 = .ok FilesetName)
    (hmis : filepath.Base loc.sLinkRelPath ≠ FilesetName) :
    (DeleteVolume bk pkg cs req w).2.log =
      w1.log ++
        [(loc.conn, .GetFileSetNameFromId loc.FilesystemName loc.volumeIdMembers.FsetId),
         (loc.primaryConn, .DeleteSymLnk cs.Driver.primary.GetPrimaryFs loc.sLinkRelPath)] ∧
    (reply bk loc.primaryConn (.DeleteSymLnk cs.Driver.primary.GetPrimaryFs loc.sLinkRelPath)
        (after bk loc.conn
          (.GetFileSetNameFromId loc.FilesystemName loc.volumeIdMembers.FsetId) w1) = .ok () →
      (DeleteVolume bk pkg cs req w).1 = .ok {}) ∧
    onlyCalls Call.isResolution w w1 := by
  refine ⟨?_, ?_, DeleteVolume_resolve_pre bk pkg cs req w w1 loc hres⟩
  · rw [DeleteVolume_run bk pkg cs req w w1 loc hres, bind_run,
      DeleteVolume_backing_skip bk cs loc w1 FilesetName hfs hname (Or.inr hmis)]
    simp only [DeleteVolume_symlink, bind_run, call_run]
    cases reply bk loc.primaryConn
        (.DeleteSymLnk cs.Driver.primary.GetPrimaryFs loc.sLinkRelPath)
        (after bk loc.conn
          (.GetFileSetNameFromId loc.FilesystemName loc.volumeIdMembers.FsetId) w1) <;>
      simp [after_log, pure_run]
  · intro hdel
    rw [DeleteVolume_run bk pkg cs req w w1 loc hres, bind_run,
      DeleteVolume_backing_skip bk cs loc w1 FilesetName hfs hname (Or.inr hmis)]
    simp only [DeleteVolume_symlink, bind_run, call_run, hdel, pure_run]

/-- Witness of `DeleteVolume_name_mismatch`: the fileset id of `pvc-1` now belongs to a
fileset named `other`. -/
theorem DeleteVolume_name_mismatch_witness :
    (DeleteVolume (bkScenario { filesetName := lit "other" }) pkgDecimal csTwoKeys
        { VolumeId := volIdPvc1 } sysIdle).1 = .ok {} :=
  (DeleteVolume_name_mismatch (bkScenario { filesetName := lit "other" }) pkgDecimal csTwoKeys
    { VolumeId := volIdPvc1 } sysIdle _ _ (lit "other") rfl rfl rfl (by decide)).2.1 rfl

/-- C18: deletion blocked by snapshots.  When the name the path gives matches the live
fileset name, `DeleteVolume` fails with InvalidArgument right after the snapshot
listing (no delete-fileset call) if the list is non-empty; if it is empty it issues
exactly one delete-fileset call, for that fileset on the resolved backend filesystem,
followed only by the delete-symlink call when the deletion succeeds.  The steps before
issue identifier lookups only. -/
theorem DeleteVolume_blocked_by_snapshots {σ : Type} (bk : Backend σ) (pkg : Pkg)
    (cs : ScaleControllerServer) (req : DeleteVolumeRequest) (w w1 : Sys σ)
    (loc : DeleteVolumeLocals) (FilesetName : Str) (l : List Snapshot_v2)
    (hres : DeleteVolume_resolve bk pkg cs req w = (.ok loc, w1))
    (hfs : loc.volumeIdMembers.IsFilesetBased = true)
    (hname : reply bk loc.conn
      (.GetFileSetNameFromId loc.FilesystemName loc.volumeIdMembers.FsetId) w1 = .ok FilesetName)
    (hmatch : filepath.Base loc.sLinkRelPath = FilesetName)
    (hlist : reply bk loc.conn (.ListFilesetSnapshots loc.FilesystemName FilesetName)
      (after bk loc.conn
        (.GetFileSetNameFromId loc.FilesystemName loc.volumeIdMembers.FsetId) w1) = .ok l) :
    (l ≠ [] →
      (∃ msg, (DeleteVolume bk pkg cs req w).1 = .error (.status .InvalidArgument msg)) ∧
      (DeleteVolume bk pkg cs req w).2.log =
        w1.log ++
          [(loc.conn, .GetFileSetNameFromId loc.FilesystemName loc.volumeIdMembers.FsetId),
           (loc.conn, .ListFilesetSnapshots loc.FilesystemName FilesetName)]) ∧
    (l = [] →
      ∃ calls, (DeleteVolume bk pkg cs req w).2.log =
        w1.log ++
          [(loc.conn, .GetFileSetNameFromId loc.FilesystemName loc.volumeIdMembers.FsetId),
           (loc.conn, .ListFilesetSnapshots loc.FilesystemName FilesetName),
           (loc.conn, .DeleteFileset loc.FilesystemName FilesetName)] ++ calls ∧
        (calls = [] ∨ calls =
          [(loc.primaryConn,
            .DeleteSymLnk cs.Driver.primary.GetPrimaryFs loc.sLinkRelPath)])) ∧
    onlyCalls Call.isResolution w w1 := by
  have hb := DeleteVolume_backing_match bk cs loc w1 FilesetName hfs hname hmatch l hlist
  refine ⟨?_, ?_, DeleteVolume_resolve_pre bk pkg cs req w w1 loc hres⟩
  · intro hl
    obtain ⟨msg, hmsg⟩ := hb.1 hl
    rw [DeleteVolume_run bk pkg cs req w w1 loc hres, bind_run, hmsg]
    exact ⟨⟨_, rfl⟩, by simp [after_log]⟩
  · intro hl
    rw [DeleteVolume_run bk pkg cs req w w1 loc hres, bind_run]
    cases hdel : reply bk loc.conn (.DeleteFileset loc.FilesystemName FilesetName)
        (after bk loc.conn (.ListFilesetSnapshots loc.FilesystemName FilesetName)
          (after bk loc.conn
            (.GetFileSetNameFromId loc.FilesystemName loc.volumeIdMembers.FsetId) w1)) with
    | error e =>
      obtain ⟨msg, hmsg⟩ := (hb.2 hl).2 e hdel
      rw [hmsg]
      exact ⟨[], by simp [after_log], Or.inl rfl⟩
    | ok x =>
      rw [(hb.2 hl).1 hdel]
      refine ⟨[(loc.primaryConn,
        .DeleteSymLnk cs.Driver.primary.GetPrimaryFs loc.sLinkRelPath)], ?_, Or.inr rfl⟩
      simp only [DeleteVolume_symlink, bind_run, call_run]
      cases reply bk loc.primaryConn
          (.DeleteSymLnk cs.Driver.primary.GetPrimaryFs loc.sLinkRelPath)
          (after bk loc.conn (.DeleteFileset loc.FilesystemName FilesetName)
            (after bk loc.conn (.ListFilesetSnapshots loc.FilesystemName FilesetName)
              (after bk loc.conn
                (.GetFileSetNameFromId loc.FilesystemName loc.volumeIdMembers.FsetId) w1))) <;>
        simp [after_log, pure_run]

/-- Witness of `DeleteVolume_blocked_by_snapshots`: the fileset `pvc-1` has a snapshot. -/
theorem DeleteVolume_blocked_by_snapshots_witness :
    ∃ msg, (DeleteVolume (bkScenario { snapshots := [{ SnapshotName := lit "snap-1" }] })
        pkgDecimal csTwoKeys { VolumeId := volIdPvc1 } sysIdle).1 =
      .error (.status .InvalidArgument msg) :=
  ((DeleteVolume_blocked_by_snapshots
    (bkScenario { snapshots := [{ SnapshotName := lit "snap-1" }] }) pkgDecimal csTwoKeys
    { VolumeId := volIdPvc1 } sysIdle _ _ (lit "pvc-1") [{ SnapshotName := lit "snap-1" }]
    rfl rfl rfl rfl rfl).1 (by decide)).1

/-- When the removal of the backing object ends without error at state `w2`,
`DeleteVolume` goes on with the delete-symlink call. -/
theorem DeleteVolume_of_backing_ok {σ : Type} (bk : Backend σ) (pkg : Pkg)
    (cs : ScaleControllerServer) (req : DeleteVolumeRequest) (w w1 w2 : Sys σ)
    (loc : DeleteVolumeLocals)
    (hres : DeleteVolume_resolve bk pkg cs req w = (.ok loc, w1))
    (hb : DeleteVolume_backing bk cs loc w1 = (.ok (), w2)) :
    endsWithDeleteSymLnk bk cs loc w2 (DeleteVolume bk pkg cs req w) := by
  rw [DeleteVolume_run bk pkg cs req w w1 loc hres, bind_run, hb]
  simp only [DeleteVolume_symlink, bind_run, call_run]
  refine ⟨?_, ?_, ?_⟩
  · cases reply bk loc.primaryConn
        (.DeleteSymLnk cs.Driver.primary.GetPrimaryFs loc.sLinkRelPath) w2 <;>
      simp only [pure_run]
  · intro hok
    rw [hok]
    simp only [pure_run]
  · intro e herr
    rw [herr]
    exact ⟨_, rfl⟩

/-- When the removal of the backing object stops with an error at state `w2`,
`DeleteVolume` stops there with that error. -/
theorem DeleteVolume_of_backing_stop {σ : Type} (bk : Backend σ) (pkg : Pkg)
    (cs : ScaleControllerServer) (req : DeleteVolumeRequest) (w w1 w2 : Sys σ)
    (loc : DeleteVolumeLocals) (code : Code)
    (hres : DeleteVolume_resolve bk pkg cs req w = (.ok loc, w1))
    (hb : stopsAt code w2 (DeleteVolume_backing bk cs loc w1)) :
    stopsAt code w2 (DeleteVolume bk pkg cs req w) := by
  obtain ⟨msg, hmsg⟩ := hb
  refine ⟨msg, ?_⟩
  rw [DeleteVolume_run bk pkg cs req w w1 loc hres, bind_run, hmsg]

/-- The removal of the directory of a lightweight volume. -/
theorem DeleteVolume_backing_lw {σ : Type} (bk : Backend σ) (cs : ScaleControllerServer)
    (loc : DeleteVolumeLocals) (w1 : Sys σ)
    (hlw : loc.volumeIdMembers.IsFilesetBased = false) :
    (reply bk loc.primaryConn
        (.DeleteDirectory cs.Driver.primary.GetPrimaryFs loc.sLinkRelPath) w1 = .ok () →
      DeleteVolume_backing bk cs loc w1 =
        (.ok (), after bk loc.primaryConn
          (.DeleteDirectory cs.Driver.primary.GetPrimaryFs loc.sLinkRelPath) w1)) ∧
    (∀ e, reply bk loc.primaryConn
        (.DeleteDirectory cs.Driver.primary.GetPrimaryFs loc.sLinkRelPath) w1 = .error e →
      stopsAt .Internal
        (after bk loc.primaryConn
          (.DeleteDirectory cs.Driver.primary.GetPrimaryFs loc.sLinkRelPath) w1)
        (DeleteVolume_backing bk cs loc w1)) := by
  constructor
  · intro hok
    simp only [DeleteVolume_backing, hlw, Bool.false_eq_true, if_false, call_run, hok]
  · intro e herr
    simp only [DeleteVolume_backing, hlw, Bool.false_eq_true, if_false, call_run, herr]
    exact ⟨_, rfl⟩

/-- The removal of a fileset stops when the lookup of the fileset name fails. -/
theorem DeleteVolume_backing_lookup_error {σ : Type} (bk : Backend σ)
    (cs : ScaleControllerServer) (loc : DeleteVolumeLocals) (w1 : Sys σ) (e : error)
    (hfs : loc.volumeIdMembers.IsFilesetBased = true)
    (hname : reply bk loc.conn
      (.GetFileSetNameFromId loc.FilesystemName loc.volumeIdMembers.FsetId) w1 = .error e) :
    stopsAt .Internal
      (after bk loc.conn
        (.GetFileSetNameFromId loc.FilesystemName loc.volumeIdMembers.FsetId) w1)
      (DeleteVolume_backing bk cs loc w1) := by
  simp only [DeleteVolume_backing, hfs, if_true, bind_run, call_run, hname]
  exact ⟨_, rfl⟩

/-- The removal of a fileset stops when the listing of its snapshots fails. -/
theorem DeleteVolume_backing_list_error {σ : Type} (bk : Backend σ)
    (cs : ScaleControllerServer) (loc : DeleteVolumeLocals) (w1 : Sys σ) (FilesetName : Str)
    (e : error)
    (hfs : loc.volumeIdMembers.IsFilesetBased = true)
    (hname : reply bk loc.conn
      (.GetFileSetNameFromId loc.FilesystemName loc.volumeIdMembers.FsetId) w1 = .ok FilesetName)
    (hmatch : filepath.Base loc.sLinkRelPath = FilesetName)
    (hlist : reply bk loc.conn (.ListFilesetSnapshots loc.FilesystemName FilesetName)
      (after bk loc.conn
        (.GetFileSetNameFromId loc.FilesystemName loc.volumeIdMembers.FsetId) w1) = .error e) :
    stopsAt .Internal
      (after bk loc.conn (.ListFilesetSnapshots loc.FilesystemName FilesetName)
        (after bk loc.conn
          (.GetFileSetNameFromId loc.FilesystemName loc.volumeIdMembers.FsetId) w1))
      (DeleteVolume_backing bk cs loc w1) := by
  have hnil : ¬ FilesetName = [] := by
    rw [← hmatch]
    exact filepath.Base_ne_nil _
  simp only [DeleteVolume_backing, hfs, if_true, bind_run, call_run, hname, ne_eq, hnil,
    not_false_eq_true, if_pos hmatch, hlist]
  exact ⟨_, rfl⟩

/-- C19 (amended): the access symlink after the backing object.  In every `DeleteVolume`
execution that has decoded the identifier and resolved the backend filesystem (state
`w1`), the delete-symlink call is issued, as the last call, exactly in the branches in
which the removal of the backing object ends without error: lightweight directory
deleted, fileset id resolving to no name, fileset name mismatch, fileset matched and
deleted.  In the other branches (directory deletion failed, name lookup failed,
snapshot listing failed, fileset refused because it has snapshots, fileset deletion
failed) `DeleteVolume` stops with that error right after the failing call and issues
no delete-symlink call. -/
theorem DeleteVolume_symlink_after_backing {σ : Type} (bk : Backend σ) (pkg : Pkg)
    (cs : ScaleControllerServer) (req : DeleteVolumeRequest) (w w1 : Sys σ)
    (loc : DeleteVolumeLocals)
    (hres : DeleteVolume_resolve bk pkg cs req w = (.ok loc, w1)) :
    (loc.volumeIdMembers.IsFilesetBased = false →
      (reply bk loc.primaryConn
          (.DeleteDirectory cs.Driver.primary.GetPrimaryFs loc.sLinkRelPath) w1 = .ok () →
        endsWithDeleteSymLnk bk cs loc
          (after bk loc.primaryConn
            (.DeleteDirectory cs.Driver.primary.GetPrimaryFs loc.sLinkRelPath) w1)
          (DeleteVolume bk pkg cs req w)) ∧
      (∀ e, reply bk loc.primaryConn
          (.DeleteDirectory cs.Driver.primary.GetPrimaryFs loc.sLinkRelPath) w1 = .error e →
        stopsAt .Internal
          (after bk loc.primaryConn
            (.DeleteDirectory cs.Driver.primary.GetPrimaryFs loc.sLinkRelPath) w1)
          (DeleteVolume bk pkg cs req w))) ∧
    (loc.volumeIdMembers.IsFilesetBased = true →
      (∀ e, reply bk loc.conn
          (.GetFileSetNameFromId loc.FilesystemName loc.volumeIdMembers.FsetId) w1 =
            .error e →
        stopsAt .Internal
          (after bk loc.conn
            (.GetFileSetNameFromId loc.FilesystemName loc.volumeIdMembers.FsetId) w1)
          (DeleteVolume bk pkg cs req w)) ∧
      (∀ FilesetName, reply bk loc.conn
          (.GetFileSetNameFromId loc.FilesystemName loc.volumeIdMembers.FsetId) w1 =
            .ok FilesetName →
        ((FilesetName = [] ∨ filepath.Base loc.sLinkRelPath ≠ FilesetName) →
          endsWithDeleteSymLnk bk cs loc
            (after bk loc.conn
              (.GetFileSetNameFromId loc.FilesystemName loc.volumeIdMembers.FsetId) w1)
            (DeleteVolume bk pkg cs req w)) ∧
        (filepath.Base loc.sLinkRelPath = FilesetName →
          (∀ e, reply bk loc.conn (.ListFilesetSnapshots loc.FilesystemName FilesetName)
              (after bk loc.conn
                (.GetFileSetNameFromId loc.FilesystemName loc.volumeIdMembers.FsetId) w1) =
                .error e →
            stopsAt .Internal
              (after bk loc.conn (.ListFilesetSnapshots loc.FilesystemName FilesetName)
                (after bk loc.conn
                  (.GetFileSetNameFromId loc.FilesystemName loc.volumeIdMembers.FsetId) w1))
              (DeleteVolume bk pkg cs req w)) ∧
          (∀ snapshotList, reply bk loc.conn
              (.ListFilesetSnapshots loc.FilesystemName FilesetName)
              (after bk loc.conn
                (.GetFileSetNameFromId loc.FilesystemName loc.volumeIdMembers.FsetId) w1) =
                .ok snapshotList →
            (snapshotList ≠ [] →
              stopsAt .InvalidArgument
                (after bk loc.conn (.ListFilesetSnapshots loc.FilesystemName FilesetName)
                  (after bk loc.conn
                    (.GetFileSetNameFromId loc.FilesystemName loc.volumeIdMembers.FsetId)
                    w1))
                (DeleteVolume bk pkg cs req w)) ∧
            (snapshotList = [] →
              (reply bk loc.conn (.DeleteFileset loc.FilesystemName FilesetName)
                  (after bk loc.conn (.ListFilesetSnapshots loc.FilesystemName FilesetName)
                    (after bk loc.conn
                      (.GetFileSetNameFromId loc.FilesystemName loc.volumeIdMembers.FsetId)
                      w1)) = .ok () →
                endsWithDeleteSymLnk bk cs loc
                  (after bk loc.conn (.DeleteFileset loc.FilesystemName FilesetName)
                    (after bk loc.conn (.ListFilesetSnapshots loc.FilesystemName FilesetName)
                      (after bk loc.conn
                        (.GetFileSetNameFromId loc.FilesystemName
                          loc.volumeIdMembers.FsetId) w1)))
                  (DeleteVolume bk pkg cs req w)) ∧
              (∀ e, reply bk loc.conn (.DeleteFileset loc.FilesystemName FilesetName)
                  (after bk loc.conn (.ListFilesetSnapshots loc.FilesystemName FilesetName)
                    (after bk loc.conn
                      (.GetFileSetNameFromId loc.FilesystemName loc.volumeIdMembers.FsetId)
                      w1)) = .error e →
                stopsAt .Internal
                  (after bk loc.conn (.DeleteFileset loc.FilesystemName FilesetName)
                    (after bk loc.conn (.ListFilesetSnapshots loc.FilesystemName FilesetName)
                      (after bk loc.conn
                        (.GetFileSetNameFromId loc.FilesystemName
                          loc.volumeIdMembers.FsetId) w1)))
                  (DeleteVolume bk pkg cs req w))))))) ∧
    onlyCalls Call.isResolution w w1 := by
  refine ⟨?_, ?_, DeleteVolume_resolve_pre bk pkg cs req w w1 loc hres⟩
  · intro hlw
    have hb := DeleteVolume_backing_lw bk cs loc w1 hlw
    exact ⟨fun hok => DeleteVolume_of_backing_ok bk pkg cs req w w1 _ loc hres (hb.1 hok),
      fun e herr => DeleteVolume_of_backing_stop bk pkg cs req w w1 _ loc _ hres (hb.2 e herr)⟩
  · intro hfs
    refine ⟨fun e hname => DeleteVolume_of_backing_stop bk pkg cs req w w1 _ loc _ hres
      (DeleteVolume_backing_lookup_error bk cs loc w1 e hfs hname), ?_⟩
    intro FilesetName hname
    refine ⟨fun hskip => DeleteVolume_of_backing_ok bk pkg cs req w w1 _ loc hres
      (DeleteVolume_backing_skip bk cs loc w1 FilesetName hfs hname hskip), ?_⟩
    intro hmatch
    refine ⟨fun e hlist => DeleteVolume_of_backing_stop bk pkg cs req w w1 _ loc _ hres
      (DeleteVolume_backing_list_error bk cs loc w1 FilesetName e hfs hname hmatch hlist), ?_⟩
    intro snapshotList hlist
    have hb := DeleteVolume_backing_match bk cs loc w1 FilesetName hfs hname hmatch
      snapshotList hlist
    refine ⟨fun hne => DeleteVolume_of_backing_stop bk pkg cs req w w1 _ loc _ hres
      (hb.1 hne), ?_⟩
    intro hnil
    exact ⟨fun hok => DeleteVolume_of_backing_ok bk pkg cs req w w1 _ loc hres
        ((hb.2 hnil).1 hok),
      fun e herr => DeleteVolume_of_backing_stop bk pkg cs req w w1 _ loc _ hres
        ((hb.2 hnil).2 e herr)⟩

/-- Witness of `DeleteVolume_symlink_after_backing`: the fileset `pvc-1` without
snapshots is deleted and then its symlink. -/
theorem DeleteVolume_symlink_after_backing_witness :
    (DeleteVolume (bkScenario {}) pkgDecimal csTwoKeys { VolumeId := volIdPvc1 } sysIdle).2.log =
      [(0, .GetFilesystemName (lit "u1")), (0, .GetFilesystemMountDetails (lit "fs1")),
       (0, .GetFileSetNameFromId (lit "fs1") (lit "7")),
       (0, .ListFilesetSnapshots (lit "fs1") (lit "pvc-1")),
       (0, .DeleteFileset (lit "fs1") (lit "pvc-1")),
       (0, .DeleteSymLnk (lit "fs1") (lit "csifset/.volumes/pvc-1"))] ∧
    (DeleteVolume (bkScenario {}) pkgDecimal csTwoKeys { VolumeId := volIdPvc1 } sysIdle).1 =
      .ok {} :=
  ⟨congrArg Sys.log
      (((((((DeleteVolume_symlink_after_backing (bkScenario {}) pkgDecimal csTwoKeys
        { VolumeId := volIdPvc1 } sysIdle _ _ rfl).2.1 rfl).2 (lit "pvc-1") rfl).2 rfl).2
          [] rfl).2 rfl).1 rfl).1,
    (((((((DeleteVolume_symlink_after_backing (bkScenario {}) pkgDecimal csTwoKeys
        { VolumeId := volIdPvc1 } sysIdle _ _ rfl).2.1 rfl).2 (lit "pvc-1") rfl).2 rfl).2
          [] rfl).2 rfl).1 rfl).2.1 rfl⟩

/-- Counterexample to C19 as stated: the identifier of `pvc-1` is decoded and its
backend filesystem resolved, the fileset has a snapshot, and `DeleteVolume` returns
InvalidArgument after four calls none of which deletes the access symlink. -/
theorem DeleteVolume_symlink_after_backing_counterexample :
    (∃ loc w1, DeleteVolume_resolve (bkScenario { snapshots := [{ SnapshotName := lit "snap-1" }] })
        pkgDecimal csTwoKeys { VolumeId := volIdPvc1 } sysIdle = (.ok loc, w1)) ∧
    (DeleteVolume (bkScenario { snapshots := [{ SnapshotName := lit "snap-1" }] })
        pkgDecimal csTwoKeys { VolumeId := volIdPvc1 } sysIdle).1 =
      .error (.status .InvalidArgument (lit
        "volume fileset [pvc-1] contains one or more snapshot, delete snapshot/volumesnapshot")) ∧
    (DeleteVolume (bkScenario { snapshots := [{ SnapshotName := lit "snap-1" }] })
        pkgDecimal csTwoKeys { VolumeId := volIdPvc1 } sysIdle).2.log =
      [(0, .GetFilesystemName (lit "u1")), (0, .GetFilesystemMountDetails (lit "fs1")),
       (0, .GetFileSetNameFromId (lit "fs1") (lit "7")),
       (0, .ListFilesetSnapshots (lit "fs1") (lit "pvc-1"))] :=
  ⟨⟨_, _, rfl⟩, rfl, rfl⟩

/-! ## Publishing -/

/-- When the primary filesystem is the volume's filesystem, the mount state of the
volume's filesystem is that of the primary. -/
theorem ControllerPublishVolume_resolve_returns {σ : Type} (bk : Backend σ) (ext : Ext)
    (cs : ScaleControllerServer) (req : ControllerPublishVolumeRequest) :
    Returns (fun loc => loc.primaryfsName = loc.fsName → loc.isFsMounted = loc.ispFsMounted)
      (ControllerPublishVolume_resolve bk ext cs req) := by
  unfold ControllerPublishVolume_resolve
  split
  · exact returns_fail _
  refine returns_ite (fun _ => returns_fail _) (fun _ => ?_)
  refine returns_ite (fun _ => returns_fail _) (fun _ => ?_)
  refine returns_ite (fun _ => returns_fail _) (fun _ => ?_)
  dsimp only
  split
  · exact returns_fail _
  refine returns_bind_any (fun fsName => ?_)
  refine returns_bind_any (fun pfsMount => ?_)
  refine returns_bind (fun b => cs.Driver.primary.GetPrimaryFs = fsName →
    b = ext.StringInSlice _ pfsMount.NodesMounted) ?_ (fun b hb => returns_pure hb)
  refine returns_ite (fun hne => ?_) (fun _ => returns_pure (fun _ => rfl))
  refine returns_bind_any (fun fsMount => returns_pure (fun h => absurd h hne))

/-- What `ControllerPublishVolume` does once the mount states are known. -/
theorem ControllerPublishVolume_run {σ : Type} (bk : Backend σ) (ext : Ext)
    (cs : ScaleControllerServer) (req : ControllerPublishVolumeRequest) (w w1 : Sys σ)
    (loc : ControllerPublishVolumeLocals)
    (hres : ControllerPublishVolume_resolve bk ext cs req w = (.ok loc, w1)) :
    ControllerPublishVolume bk ext cs req w = ControllerPublishVolume_mount bk loc w1 := by
  unfold ControllerPublishVolume
  rw [bind_run, hres]

theorem ControllerPublishVolume_resolve_pre {σ : Type} (bk : Backend σ) (ext : Ext)
    (cs : ScaleControllerServer) (req : ControllerPublishVolumeRequest) (w w1 : Sys σ)
    (loc : ControllerPublishVolumeLocals)
    (hres : ControllerPublishVolume_resolve bk ext cs req w = (.ok loc, w1)) :
    onlyCalls Call.isResolution w w1 := by
  have := (ControllerPublishVolume_resolve_onlyCalls bk ext cs req).run w
  rw [hres] at this
  exact this

theorem no_ne_yes : ¬ (no = lit "yes") := by decide

/-- The mount decision when neither short cut applies: skip mode is `no`. -/
theorem ControllerPublishVolume_mount_no {σ : Type} (bk : Backend σ) (primary : ConnId)
    (pfs fs node : Str) (isp isf : Bool) (hnot : ¬ (isf = true ∧ isp = true)) (w1 : Sys σ) :
    ControllerPublishVolume_mount bk
        { primary := primary, primaryfsName := pfs, fsName := fs, scalenodeID := node,
          skipMountUnmount := no, ispFsMounted := isp, isFsMounted := isf } w1 =
      ((if ¬ isp = true then
          call bk primary (.MountFilesystem pfs node)
            (fun err => .status .Internal (Sprintf
              [lit "ControllerPublishVolume :  Error in mounting filesystem ", pfs,
                lit " on node ", node, lit ". Error [", err.Error, lit "]"]))
        else pure ()) >>= fun _ =>
       (if ¬ isf = true ∧ pfs ≠ fs then
          call bk primary (.MountFilesystem fs node)
            (fun err => .status .Internal (Sprintf
              [lit "ControllerPublishVolume : Error in mounting filesystem ", fs,
                lit " on node ", node, lit ". Error [", err.Error, lit "]"]))
        else pure ()) >>= fun _ => (pure {} : M σ ControllerPublishVolumeResponse)) w1 := by
  simp only [ControllerPublishVolume_mount, if_neg hnot, no_ne_yes, false_and, if_false,
    and_true, true_and]

/-- C20 (amended): publish mount decision.  Once the mount state of the primary
filesystem and of the volume's filesystem on the translated node is known,
`ControllerPublishVolume` succeeds with no mount call when both are mounted; fails
(Internal) with no mount call when skip mode is `yes` and either is unmounted; and
when skip mode is `no` it issues a mount call for the primary filesystem if that is
not mounted and then, unless that call failed, one for the volume's filesystem if
that is not mounted and distinct from the primary; it succeeds if the calls issued
succeed and fails with Internal at the first one that fails, without issuing the
other.  The steps before issue only identifier and mount-state lookups. -/
theorem ControllerPublishVolume_mount_decision {σ : Type} (bk : Backend σ) (ext : Ext)
    (cs : ScaleControllerServer) (req : ControllerPublishVolumeRequest) (w w1 : Sys σ)
    (loc : ControllerPublishVolumeLocals)
    (hres : ControllerPublishVolume_resolve bk ext cs req w = (.ok loc, w1)) :
    (loc.isFsMounted = true → loc.ispFsMounted = true →
      ControllerPublishVolume bk ext cs req w = (.ok {}, w1)) ∧
    (loc.skipMountUnmount = lit "yes" →
      (loc.isFsMounted = false ∨ loc.ispFsMounted = false) →
      ∃ msg, ControllerPublishVolume bk ext cs req w = (.error (.status .Internal msg), w1)) ∧
    (loc.skipMountUnmount = no →
      (loc.ispFsMounted = false →
        (loc.isFsMounted = true ∨ loc.primaryfsName = loc.fsName) →
        (ControllerPublishVolume bk ext cs req w).2 =
          after bk loc.primary (.MountFilesystem loc.primaryfsName loc.scalenodeID) w1 ∧
        (reply bk loc.primary (.MountFilesystem loc.primaryfsName loc.scalenodeID) w1 =
            .ok () →
          (ControllerPublishVolume bk ext cs req w).1 = .ok {}) ∧
        (∀ e, reply bk loc.primary (.MountFilesystem loc.primaryfsName loc.scalenodeID) w1 =
            .error e →
          ∃ msg, (ControllerPublishVolume bk ext cs req w).1 =
            .error (.status .Internal msg))) ∧
      (loc.ispFsMounted = true → loc.isFsMounted = false →
        loc.primaryfsName ≠ loc.fsName ∧
        (ControllerPublishVolume bk ext cs req w).2 =
          after bk loc.primary (.MountFilesystem loc.fsName loc.scalenodeID) w1 ∧
        (reply bk loc.primary (.MountFilesystem loc.fsName loc.scalenodeID) w1 = .ok () →
          (ControllerPublishVolume bk ext cs req w).1 = .ok {}) ∧
        (∀ e, reply bk loc.primary (.MountFilesystem loc.fsName loc.scalenodeID) w1 =
            .error e →
          ∃ msg, (ControllerPublishVolume bk ext cs req w).1 =
            .error (.status .Internal msg))) ∧
      (loc.ispFsMounted = false → loc.isFsMounted = false →
        loc.primaryfsName ≠ loc.fsName →
        (reply bk loc.primary (.MountFilesystem loc.primaryfsName loc.scalenodeID) w1 =
            .ok () →
          (ControllerPublishVolume bk ext cs req w).2 =
            after bk loc.primary (.MountFilesystem loc.fsName loc.scalenodeID)
              (after bk loc.primary
                (.MountFilesystem loc.primaryfsName loc.scalenodeID) w1) ∧
          (reply bk loc.primary (.MountFilesystem loc.fsName loc.scalenodeID)
              (after bk loc.primary
                (.MountFilesystem loc.primaryfsName loc.scalenodeID) w1) = .ok () →
            (ControllerPublishVolume bk ext cs req w).1 = .ok {}) ∧
          (∀ e, reply bk loc.primary (.MountFilesystem loc.fsName loc.scalenodeID)
              (after bk loc.primary
                (.MountFilesystem loc.primaryfsName loc.scalenodeID) w1) = .error e →
            ∃ msg, (ControllerPublishVolume bk ext cs req w).1 =
              .error (.status .Internal msg))) ∧
        (∀ e, reply bk loc.primary (.MountFilesystem loc.primaryfsName loc.scalenodeID) w1 =
            .error e →
          ∃ msg, ControllerPublishVolume bk ext cs req w =
            (.error (.status .Internal msg),
              after bk loc.primary
                (.MountFilesystem loc.primaryfsName loc.scalenodeID) w1)))) ∧
    onlyCalls Call.isResolution w w1 := by
  have hinv := (ControllerPublishVolume_resolve_returns bk ext cs req).run w loc
    (by rw [hres])
  rw [ControllerPublishVolume_run bk ext cs req w w1 loc hres]
  refine ⟨?_, ?_, ?_, ControllerPublishVolume_resolve_pre bk ext cs req w w1 loc hres⟩
  · intro h1 h2
    simp only [ControllerPublishVolume_mount, h1, h2, and_self, if_true, pure_run]
  · intro hyes hor
    have hnot : ¬ (loc.isFsMounted = true ∧ loc.ispFsMounted = true) := by
      rcases hor with h | h <;> simp [h]
    have hcond : loc.skipMountUnmount = lit "yes" ∧
        (¬ loc.isFsMounted = true ∨ ¬ loc.ispFsMounted = true) := by
      refine ⟨hyes, ?_⟩
      rcases hor with h | h <;> simp [h]
    simp only [ControllerPublishVolume_mount, if_neg hnot, if_pos hcond]
    exact ⟨_, rfl⟩
  · intro hno
    obtain ⟨primary, pfs, fs, node, skip, isp, isf⟩ := loc
    simp only at hno hinv ⊢
    subst hno
    refine ⟨?_, ?_, ?_⟩
    · intro hp hor
      subst hp
      have hsecond : ¬ (¬ isf = true ∧ pfs ≠ fs) := by
        rcases hor with h | h
        · simp [h]
        · simp [h]
      rw [ControllerPublishVolume_mount_no bk primary pfs fs node false isf (by simp)]
      simp only [Bool.false_eq_true, not_false_eq_true, if_true, if_neg hsecond, bind_run,
        call_run]
      cases reply bk primary (.MountFilesystem pfs node) w1 <;> simp [pure_run]
    · intro hp hf
      subst hp hf
      have hne : pfs ≠ fs := fun h => by simpa using hinv h
      have hsecond : ¬ false = true ∧ pfs ≠ fs := ⟨by simp, hne⟩
      rw [ControllerPublishVolume_mount_no bk primary pfs fs node true false (by simp)]
      simp only [not_true_eq_false, if_false, if_pos hsecond, bind_run, pure_run, call_run]
      refine ⟨hne, ?_⟩
      cases reply bk primary (.MountFilesystem fs node) w1 <;> simp [pure_run]
    · intro hp hf hne
      subst hp hf
      have hsecond : ¬ false = true ∧ pfs ≠ fs := ⟨by simp, hne⟩
      rw [ControllerPublishVolume_mount_no bk primary pfs fs node false false (by simp),
        if_pos hsecond]
      simp only [Bool.false_eq_true, not_false_eq_true, if_true, bind_run, call_run]
      constructor
      · intro h1
        rw [h1]
        simp only [bind_run, call_run]
        cases reply bk primary (.MountFilesystem fs node)
          (after bk primary (.MountFilesystem pfs node) w1) <;> simp [pure_run]
      · intro e h1
        rw [h1]
        exact ⟨_, rfl⟩

/-- Witness of `ControllerPublishVolume_mount_decision`: neither `fs0` nor `fs1` is
mounted on node `n1`, skip mode is `no`, and both mount calls succeed. -/
theorem ControllerPublishVolume_mount_decision_witness :
    (ControllerPublishVolume (bkScenario {}) (extSkip no) csPrimaryFs0
        { VolumeId := volIdPvc1, NodeId := lit "n1" } sysIdle).1 = .ok {} :=
  ((((ControllerPublishVolume_mount_decision (bkScenario {}) (extSkip no) csPrimaryFs0
    { VolumeId := volIdPvc1, NodeId := lit "n1" } sysIdle _ _ rfl).2.2.1 rfl).2.2
      rfl rfl (by decide)).1 rfl).2.1 rfl

/-- Counterexample to C20 as stated: skip mode is `no`, neither the primary
filesystem `fs0` nor the volume's filesystem `fs1` is mounted on node `n1`, and the
backend refuses to mount; the only mount call issued is the one for `fs0`. -/
theorem ControllerPublishVolume_mount_decision_counterexample :
    ControllerPublishVolume_resolve (bkScenario { failing := Call.isMountFilesystem })
        (extSkip no) csPrimaryFs0 { VolumeId := volIdPvc1, NodeId := lit "n1" } sysIdle =
      (.ok { primary := 0, primaryfsName := lit "fs0", fsName := lit "fs1",
             scalenodeID := lit "n1", skipMountUnmount := lit "no",
             ispFsMounted := false, isFsMounted := false },
        { sysIdle with log :=
            [(0, .GetFilesystemName (lit "u1")), (0, .GetFilesystemMountDetails (lit "fs0")),
             (0, .GetFilesystemMountDetails (lit "fs1"))] }) ∧
    (ControllerPublishVolume (bkScenario { failing := Call.isMountFilesystem })
        (extSkip no) csPrimaryFs0 { VolumeId := volIdPvc1, NodeId := lit "n1" } sysIdle).2.log =
      [(0, .GetFilesystemName (lit "u1")), (0, .GetFilesystemMountDetails (lit "fs0")),
       (0, .GetFilesystemMountDetails (lit "fs1")),
       (0, .MountFilesystem (lit "fs0") (lit "n1"))] ∧
    (ControllerPublishVolume (bkScenario { failing := Call.isMountFilesystem })
        (extSkip no) csPrimaryFs0 { VolumeId := volIdPvc1, NodeId := lit "n1" } sysIdle).1 =
      .error (.status .Internal (lit ("ControllerPublishVolume :  Error in mounting " ++
        "filesystem fs0 on node n1. Error [backend failure]"))) :=
  ⟨rfl, rfl, rfl⟩

/-! ## The two volume-identifier decoders -/

/-- C28: the two volume-identifier decoders agree on every input.  For every string
`s`, `GetSrcVolIdMembers s` fails exactly when `GetVolIdMembers s` fails (and then with
the same error), and when both succeed they return the same cluster id, filesystem
UUID, fileset id, symlink path and shape flag. -/
theorem GetSrcVolIdMembers_agrees (s : Str) :
    (∀ e, GetSrcVolIdMembers s = .error e ↔ GetVolIdMembers s = .error e) ∧
    (∀ a, GetSrcVolIdMembers s = .ok a →
      ∃ b, GetVolIdMembers s = .ok b ∧ a.ClusterId = b.ClusterId ∧ a.FsUUID = b.FsUUID ∧
        a.FsetId = b.FsetId ∧ a.SymLnkPath = b.SymLnkPath ∧
        a.IsFilesetBased = b.IsFilesetBased) ∧
    (∀ b, GetVolIdMembers s = .ok b →
      ∃ a, GetSrcVolIdMembers s = .ok a ∧ a.ClusterId = b.ClusterId ∧ a.FsUUID = b.FsUUID ∧
        a.FsetId = b.FsetId ∧ a.SymLnkPath = b.SymLnkPath ∧
        a.IsFilesetBased = b.IsFilesetBased) := by
  unfold GetSrcVolIdMembers GetVolIdMembers
  dsimp only
  refine ⟨?_, ?_, ?_⟩
  · intro e
    split_ifs <;> simp
  · intro a
    split_ifs <;> simp <;> (intro h; subst h; simp)
  · intro b
    split_ifs <;> simp <;> (intro h; subst h; simp)

/-- Witness of `GetSrcVolIdMembers_agrees`: the identifier of `pvc-1` decodes the same
way with both decoders. -/
theorem GetSrcVolIdMembers_agrees_witness :
    ∃ b, GetVolIdMembers volIdPvc1 = .ok b ∧ lit "c1" = b.ClusterId ∧ lit "u1" = b.FsUUID ∧
      lit "7" = b.FsetId ∧ lit "/ibm/fs1/csifset/.volumes/pvc-1" = b.SymLnkPath ∧
      true = b.IsFilesetBased :=
  (GetSrcVolIdMembers_agrees volIdPvc1).2.1
    { ClusterId := lit "c1", FsUUID := lit "u1", FsetId := lit "7",
      SymLnkPath := lit "/ibm/fs1/csifset/.volumes/pvc-1", IsFilesetBased := true } rfl

/-! ## Request validation of `CreateVolume` -/

theorem checkVolumeCapabilities_unsupported (caps : List VolumeCapability)
    (hbad : ∃ c ∈ caps, c.Block = true ∨ c.Mode = .MULTI_NODE_READER_ONLY) :
    ∃ msg, checkVolumeCapabilities caps = .error (.status .Unimplemented msg) := by
  induction caps with
  | nil =>
    obtain ⟨c, hc, -⟩ := hbad
    cases hc
  | cons reqCap rest ih =>
    unfold checkVolumeCapabilities
    by_cases hblock : reqCap.Block = true
    · rw [if_pos hblock]
      exact ⟨_, rfl⟩
    · rw [if_neg hblock]
      by_cases hmode : reqCap.Mode = .MULTI_NODE_READER_ONLY
      · rw [if_pos hmode]
        exact ⟨_, rfl⟩
      · rw [if_neg hmode]
        apply ih
        obtain ⟨c, hc, hcbad⟩ := hbad
        rcases List.mem_cons.mp hc with rfl | hrest
        · rcases hcbad with h | h
          · exact absurd h hblock
          · exact absurd h hmode
        · exact ⟨c, hrest, hcbad⟩

/-- C23: unsupported capabilities.  With the volume capability enabled, `CreateVolume`
on a request with a non-empty name whose capability list contains a block-mode
capability or a capability with read-only-many access mode fails with Unimplemented
and leaves the whole state as it was: the in-flight set is not touched and no backend
call is issued. -/
theorem CreateVolume_unsupported_capability {σ : Type} (bk : Backend σ) (pkg : Pkg)
    (cs : ScaleControllerServer) (r : CreateVolumeRequest) (caps : List VolumeCapability)
    (w : Sys σ)
    (hcap : cs.Driver.ValidateControllerServiceRequest .RPC_CREATE_DELETE_VOLUME = none)
    (hname : r.Name ≠ [])
    (hcaps : r.VolumeCapabilities = some caps)
    (hbad : ∃ c ∈ caps, c.Block = true ∨ c.Mode = .MULTI_NODE_READER_ONLY) :
    ∃ msg, CreateVolume bk pkg cs (some r) w = (.error (.status .Unimplemented msg), w) := by
  obtain ⟨msg, hmsg⟩ := checkVolumeCapabilities_unsupported caps hbad
  refine ⟨msg, ?_⟩
  have hprep : CreateVolume_prepare bk pkg cs (some r) w =
      (.error (.status .Unimplemented msg), w) := by
    unfold CreateVolume_prepare
    simp only [hcap, if_neg hname, hcaps, bind_run, liftE_run, hmsg]
  unfold CreateVolume
  rw [run_bind_error hprep]

/-- Witness of `CreateVolume_unsupported_capability`: a block volume `pvc-1` is asked
for. -/
theorem CreateVolume_unsupported_capability_witness :
    ∃ msg, CreateVolume bkStore pkgDecimal csTwoKeys
        (some { Name := lit "pvc-1", VolumeCapabilities := some [{ Block := true }] })
        (sysStore {}) =
      (.error (.status .Unimplemented msg), sysStore {}) :=
  CreateVolume_unsupported_capability bkStore pkgDecimal csTwoKeys
    { Name := lit "pvc-1", VolumeCapabilities := some [{ Block := true }] }
    [{ Block := true }] (sysStore {}) rfl (by decide) rfl
    ⟨{ Block := true }, by simp, Or.inl rfl⟩

/-! ## Restore size of a snapshot -/

/-- C26 (amended): snapshot restore size.  For every fileset quota whose block limit
`b` (reported in kibibytes) satisfies `0 ≤ b < 2^53`, `getSnapRestoreSize` returns
exactly `b × 1024` bytes; for a negative block limit it fails with an Internal error;
and a failure of the quota-detail fetch is returned as the error.  The fetch is the
only call issued. -/
theorem getSnapRestoreSize_spec {σ : Type} (bk : Backend σ) (conn : ConnId)
    (filesystemName filesetName : Str) (w : Sys σ) :
    (∀ quotaResp : Quota_v2,
      reply bk conn (.GetFilesetQuotaDetails filesystemName filesetName) w = .ok quotaResp →
      0 ≤ quotaResp.BlockLimit → quotaResp.BlockLimit < 2 ^ 53 →
      getSnapRestoreSize bk conn filesystemName filesetName w =
        (.ok (quotaResp.BlockLimit * 1024),
          after bk conn (.GetFilesetQuotaDetails filesystemName filesetName) w)) ∧
    (∀ quotaResp : Quota_v2,
      reply bk conn (.GetFilesetQuotaDetails filesystemName filesetName) w = .ok quotaResp →
      quotaResp.BlockLimit < 0 →
      ∃ msg, getSnapRestoreSize bk conn filesystemName filesetName w =
        (.error (.status .Internal msg),
          after bk conn (.GetFilesetQuotaDetails filesystemName filesetName) w)) ∧
    (∀ err,
      reply bk conn (.GetFilesetQuotaDetails filesystemName filesetName) w = .error err →
      getSnapRestoreSize bk conn filesystemName filesetName w =
        (.error err, after bk conn (.GetFilesetQuotaDetails filesystemName filesetName) w)) := by
  refine ⟨?_, ?_, ?_⟩
  · intro quotaResp hreply h0 h53
    have hneg : ¬ quotaResp.BlockLimit < 0 := by omega
    have h53n : (2 : Int) ^ 53 = 9007199254740992 := by norm_num
    have h63n : (2 : Int) ^ 63 = 9223372036854775808 := by norm_num
    rw [h53n] at h53
    have hprod0 : 0 ≤ quotaResp.BlockLimit * 1024 := by omega
    have hprod63 : quotaResp.BlockLimit * 1024 < 2 ^ 63 := by
      rw [h63n]
      omega
    have hu := uint64_of_nonneg (quotaResp.BlockLimit * 1024) hprod0 hprod63
    have hcast : (((quotaResp.BlockLimit * 1024).toNat : Nat) : Int) =
        quotaResp.BlockLimit * 1024 := Int.toNat_of_nonneg hprod0
    have hi := int64_of_lt (quotaResp.BlockLimit * 1024).toNat (by rw [hcast]; exact hprod63)
    simp only [getSnapRestoreSize, bind_run, call_run, hreply, if_neg hneg, pure_run, hu, hi,
      hcast]
  · intro quotaResp hreply hneg
    simp only [getSnapRestoreSize, bind_run, call_run, hreply, if_pos hneg, fail_run]
    exact ⟨_, rfl⟩
  · intro err hreply
    simp only [getSnapRestoreSize, bind_run, call_run, hreply, id]

/-- Witness of `getSnapRestoreSize_spec`: a block limit of 1048576 KiB is 1 GiB. -/
theorem getSnapRestoreSize_spec_witness :
    (getSnapRestoreSize (bkScenario {}) 0 (lit "fs1") (lit "pvc-1") sysIdle).1 =
      .ok (1048576 * 1024) :=
  congrArg Prod.fst
    ((getSnapRestoreSize_spec (bkScenario {}) 0 (lit "fs1") (lit "pvc-1") sysIdle).1
      { BlockLimit := 1048576 } rfl (by decide) (by decide))

/-- Counterexample to C26 as stated: for the non-negative block limit `2^53` KiB the
product `2^63` does not fit the signed 64-bit result, and `getSnapRestoreSize` returns
`-2^63` and no error. -/
theorem getSnapRestoreSize_counterexample :
    (0 : Int) ≤ 9007199254740992 ∧
    (getSnapRestoreSize (bkBlockLimit 9007199254740992) 0 (lit "fs1") (lit "pvc-1") sysIdle).1 =
      .ok (-9223372036854775808) ∧
    (9007199254740992 : Int) * 1024 ≠ -9223372036854775808 := by
  refine ⟨by decide, ?_, by decide⟩
  rfl

/-! ## The connector that resolves the filesystem UUID -/

/-- C22 (the code at the failing input): with the primary cluster behind connector `0`
and cluster `c2` behind connector `1`, for identifiers that name cluster `c2`:
`DeleteVolume` and `ControllerPublishVolume` send the lookup of the filesystem UUID to
the primary connector, while `CreateSnapshot`, `DeleteSnapshot` and
`ControllerExpandVolume` send it to the connector of `c2`. -/
theorem GetFilesystemName_connector :
    csRemote.Driver.connmap (lit "primary") = some 0 ∧
    csRemote.Driver.connmap (lit "c2") = some 1 ∧
    (DeleteVolume (bkScenario {}) pkgDecimal csRemote { VolumeId := volIdRemote }
        sysIdle).2.log.filter (fun c => c.2.isGetFilesystemName) =
      [(0, .GetFilesystemName (lit "u1"))] ∧
    (ControllerPublishVolume (bkScenario {}) (extSkip no) csRemote
        { VolumeId := volIdRemote, NodeId := lit "n1" }
        sysIdle).2.log.filter (fun c => c.2.isGetFilesystemName) =
      [(0, .GetFilesystemName (lit "u1"))] ∧
    (CreateSnapshot (bkScenario {}) (extSkip no) csRemote
        (some { SourceVolumeId := volIdRemote, Name := lit "snap-1" })
        sysIdle).2.log.filter (fun c => c.2.isGetFilesystemName) =
      [(1, .GetFilesystemName (lit "u1"))] ∧
    (DeleteSnapshot (bkScenario {}) csRemote (some { SnapshotId := snapIdRemote })
        sysIdle).2.log.filter (fun c => c.2.isGetFilesystemName) =
      [(1, .GetFilesystemName (lit "u1"))] ∧
    (ControllerExpandVolume (bkScenario {}) pkgDecimal csRemote
        { VolumeId := volIdRemote, CapacityRange := some { RequiredBytes := 1073741824 } }
        sysIdle).2.log.filter (fun c => c.2.isGetFilesystemName) =
      [(1, .GetFilesystemName (lit "u1"))] :=
  ⟨rfl, rfl, rfl, rfl, rfl, rfl, rfl⟩

/-! ## Node translation and skip mode of `ControllerPublishVolume` -/

/-- What the resolution hands on: the skip mode read from the environment and the
node identifier translated through the node mapping. -/
theorem ControllerPublishVolume_resolve_env {σ : Type} (bk : Backend σ) (ext : Ext)
    (cs : ScaleControllerServer) (req : ControllerPublishVolumeRequest) :
    Returns (fun loc =>
        loc.skipMountUnmount = ext.GetEnv (lit "SKIP_MOUNT_UNMOUNT") yes ∧
        loc.scalenodeID =
          (if ext.GetEnv req.NodeId notFound = notFound then
            if ext.GetEnv (ext.GetEnv (lit "SCALE_NODE_MAPPING_PREFIX") (lit "K8sNodePrefix_") ++
                req.NodeId) notFound = notFound then req.NodeId
            else ext.GetEnv (ext.GetEnv (lit "SCALE_NODE_MAPPING_PREFIX")
                (lit "K8sNodePrefix_") ++ req.NodeId) notFound
          else ext.GetEnv req.NodeId notFound))
      (ControllerPublishVolume_resolve bk ext cs req) := by
  generalize hexp : (if ext.GetEnv req.NodeId notFound = notFound then
      if ext.GetEnv (ext.GetEnv (lit "SCALE_NODE_MAPPING_PREFIX") (lit "K8sNodePrefix_") ++
          req.NodeId) notFound = notFound then req.NodeId
      else ext.GetEnv (ext.GetEnv (lit "SCALE_NODE_MAPPING_PREFIX")
          (lit "K8sNodePrefix_") ++ req.NodeId) notFound
    else ext.GetEnv req.NodeId notFound) = expected
  unfold ControllerPublishVolume_resolve
  split
  · exact returns_fail _
  refine returns_ite (fun _ => returns_fail _) (fun _ => ?_)
  refine returns_ite (fun _ => returns_fail _) (fun _ => ?_)
  refine returns_ite (fun _ => returns_fail _) (fun _ => ?_)
  dsimp only
  split
  · exact returns_fail _
  refine returns_bind_any (fun fsName => ?_)
  refine returns_bind_any (fun pfsMount => ?_)
  refine returns_bind_any (fun isFsMounted => ?_)
  exact returns_pure ⟨rfl, hexp⟩

/-- C21: node identifier translation in `ControllerPublishVolume`.  Reading the node
mapping through `utils.GetEnv` with the default `NOT_FOUND` (a key has a value when the
answer is not that default): the backend node id used is the mapping's value for the
orchestrator node id `n` if there is one; otherwise the mapping's value for the key
`<prefix>n` if there is one, the prefix being the value of `SCALE_NODE_MAPPING_PREFIX`
and `K8sNodePrefix_` by default; otherwise `n` itself. -/
theorem ControllerPublishVolume_node_translation {σ : Type} (bk : Backend σ) (ext : Ext)
    (cs : ScaleControllerServer) (req : ControllerPublishVolumeRequest) (w w1 : Sys σ)
    (loc : ControllerPublishVolumeLocals)
    (hres : ControllerPublishVolume_resolve bk ext cs req w = (.ok loc, w1)) :
    (ext.GetEnv req.NodeId notFound ≠ notFound →
      loc.scalenodeID = ext.GetEnv req.NodeId notFound) ∧
    (ext.GetEnv req.NodeId notFound = notFound →
      ext.GetEnv (ext.GetEnv (lit "SCALE_NODE_MAPPING_PREFIX") (lit "K8sNodePrefix_") ++
        req.NodeId) notFound ≠ notFound →
      loc.scalenodeID =
        ext.GetEnv (ext.GetEnv (lit "SCALE_NODE_MAPPING_PREFIX") (lit "K8sNodePrefix_") ++
          req.NodeId) notFound) ∧
    (ext.GetEnv req.NodeId notFound = notFound →
      ext.GetEnv (ext.GetEnv (lit "SCALE_NODE_MAPPING_PREFIX") (lit "K8sNodePrefix_") ++
        req.NodeId) notFound = notFound →
      loc.scalenodeID = req.NodeId) := by
  have henv := ((ControllerPublishVolume_resolve_env bk ext cs req).run w loc
    (by rw [hres])).2
  refine ⟨fun h => ?_, fun h1 h2 => ?_, fun h1 h2 => ?_⟩
  · rw [henv, if_neg h]
  · rw [henv, if_pos h1, if_neg h2]
  · rw [henv, if_pos h1, if_pos h2]

/-- Witness of `ControllerPublishVolume_node_translation`: node `7node` has no entry
of its own and the entry of `K8sNodePrefix_7node` is `scale7`, which is the node id
handed on. -/
theorem ControllerPublishVolume_node_translation_witness :
    ControllerPublishVolume_resolve (bkScenario {})
        (extEnv [(lit "SKIP_MOUNT_UNMOUNT", lit "no"), (lit "K8sNodePrefix_7node", lit "scale7")])
        csTwoKeys { VolumeId := volIdPvc1, NodeId := lit "7node" } sysIdle =
      (.ok { primary := 0, primaryfsName := lit "fs1", fsName := lit "fs1",
             scalenodeID := lit "scale7", skipMountUnmount := lit "no",
             ispFsMounted := false, isFsMounted := false },
        { sysIdle with log :=
            [(0, .GetFilesystemName (lit "u1")), (0, .GetFilesystemMountDetails (lit "fs1"))] }) ∧
    (lit "scale7" : Str) =
      (extEnv [(lit "SKIP_MOUNT_UNMOUNT", lit "no"),
        (lit "K8sNodePrefix_7node", lit "scale7")]).GetEnv (lit "K8sNodePrefix_7node") notFound :=
  ⟨rfl, (ControllerPublishVolume_node_translation (bkScenario {})
    (extEnv [(lit "SKIP_MOUNT_UNMOUNT", lit "no"), (lit "K8sNodePrefix_7node", lit "scale7")])
    csTwoKeys { VolumeId := volIdPvc1, NodeId := lit "7node" } sysIdle
    { sysIdle with log :=
        [(0, .GetFilesystemName (lit "u1")), (0, .GetFilesystemMountDetails (lit "fs1"))] }
    { primary := 0, primaryfsName := lit "fs1", fsName := lit "fs1", scalenodeID := lit "scale7",
      skipMountUnmount := lit "no", ispFsMounted := false, isFsMounted := false }
    rfl).2.1 rfl (by decide)⟩

/-- C30: skip mode other than `yes` and `no`.  When `SKIP_MOUNT_UNMOUNT` holds a value
other than `yes` or `no` and the primary filesystem or the volume's filesystem is not
mounted on the node, `ControllerPublishVolume` returns success and issues identifier
and mount-state lookups only, no mount call.  When the value is `yes` or `no`, a
successful `ControllerPublishVolume` has found each of the two filesystems mounted on
the node or has issued a mount call for it. -/
theorem ControllerPublishVolume_other_mode {σ : Type} (bk : Backend σ) (ext : Ext)
    (cs : ScaleControllerServer) (req : ControllerPublishVolumeRequest) (w w1 : Sys σ)
    (loc : ControllerPublishVolumeLocals)
    (hres : ControllerPublishVolume_resolve bk ext cs req w = (.ok loc, w1)) :
    loc.skipMountUnmount = ext.GetEnv (lit "SKIP_MOUNT_UNMOUNT") yes ∧
    (loc.skipMountUnmount ≠ lit "yes" → loc.skipMountUnmount ≠ no →
      (loc.isFsMounted = false ∨ loc.ispFsMounted = false) →
      ControllerPublishVolume bk ext cs req w = (.ok {}, w1) ∧
      onlyCalls Call.isResolution w (ControllerPublishVolume bk ext cs req w).2) ∧
    ((loc.skipMountUnmount = lit "yes" ∨ loc.skipMountUnmount = no) →
      ∀ resp, (ControllerPublishVolume bk ext cs req w).1 = .ok resp →
      (loc.ispFsMounted = true ∨
        (loc.primary, Call.MountFilesystem loc.primaryfsName loc.scalenodeID) ∈
          (ControllerPublishVolume bk ext cs req w).2.log) ∧
      (loc.isFsMounted = true ∨
        (loc.primary, Call.MountFilesystem loc.fsName loc.scalenodeID) ∈
          (ControllerPublishVolume bk ext cs req w).2.log)) := by
  have henv := ((ControllerPublishVolume_resolve_env bk ext cs req).run w loc
    (by rw [hres])).1
  have hinv := (ControllerPublishVolume_resolve_returns bk ext cs req).run w loc
    (by rw [hres])
  have hpre := ControllerPublishVolume_resolve_pre bk ext cs req w w1 loc hres
  rw [ControllerPublishVolume_run bk ext cs req w w1 loc hres]
  refine ⟨henv, ?_, ?_⟩
  · intro hyes hno hun
    have hnot : ¬ (loc.isFsMounted = true ∧ loc.ispFsMounted = true) := by
      rcases hun with h | h <;> simp [h]
    have hskip : ¬ (loc.skipMountUnmount = lit "yes" ∧
        (¬ loc.isFsMounted = true ∨ ¬ loc.ispFsMounted = true)) := fun h => hyes h.1
    have h1 : ¬ (¬ loc.ispFsMounted = true ∧ loc.skipMountUnmount = no) := fun h => hno h.2
    have h2 : ¬ (¬ loc.isFsMounted = true ∧ loc.skipMountUnmount = no ∧
        loc.primaryfsName ≠ loc.fsName) := fun h => hno h.2.1
    have hrun : ControllerPublishVolume_mount bk loc w1 = (.ok {}, w1) := by
      unfold ControllerPublishVolume_mount
      rw [if_neg hnot, if_neg hskip, if_neg h1, if_neg h2]
      rfl
    rw [hrun]
    exact ⟨rfl, hpre⟩
  · intro hmode resp hok
    by_cases hboth : loc.isFsMounted = true ∧ loc.ispFsMounted = true
    · exact ⟨Or.inl hboth.2, Or.inl hboth.1⟩
    · rcases hmode with hyes | hno
      · have hskip : loc.skipMountUnmount = lit "yes" ∧
            (¬ loc.isFsMounted = true ∨ ¬ loc.ispFsMounted = true) :=
          ⟨hyes, not_and_or.mp hboth⟩
        have hrun : ∃ msg, ControllerPublishVolume_mount bk loc w1 =
            (.error (.status .Internal msg), w1) := by
          unfold ControllerPublishVolume_mount
          rw [if_neg hboth, if_pos hskip]
          exact ⟨_, rfl⟩
        obtain ⟨msg, hmsg⟩ := hrun
        rw [hmsg] at hok
        cases hok
      · obtain ⟨primary, pfs, fs, node, skip, isp, isf⟩ := loc
        simp only at hno hinv hboth hok ⊢
        subst hno
        rw [ControllerPublishVolume_mount_no bk primary pfs fs node isp isf hboth] at hok ⊢
        cases isp <;> cases isf
        · by_cases hsame : pfs = fs
          · subst hsame
            have hsecond : ¬ (¬ false = true ∧ pfs ≠ pfs) := fun h => h.2 rfl
            rw [if_neg hsecond]
            simp only [Bool.false_eq_true, not_false_eq_true, if_true, bind_run, call_run]
            cases reply bk primary (.MountFilesystem pfs node) w1 <;>
              simp [pure_run, after_log]
          · have hsecond : ¬ false = true ∧ pfs ≠ fs := ⟨by simp, hsame⟩
            rw [if_pos hsecond] at hok ⊢
            simp only [Bool.false_eq_true, not_false_eq_true, if_true, bind_run,
              call_run] at hok ⊢
            cases h1 : reply bk primary (.MountFilesystem pfs node) w1 with
            | error e =>
              rw [h1] at hok
              cases hok
            | ok x =>
              simp only [bind_run, call_run]
              cases reply bk primary (.MountFilesystem fs node)
                (after bk primary (.MountFilesystem pfs node) w1) <;>
                simp [pure_run, after_log]
        · have hsecond : ¬ (¬ true = true ∧ pfs ≠ fs) := fun h => h.1 rfl
          rw [if_neg hsecond]
          simp only [Bool.false_eq_true, not_false_eq_true, if_true, bind_run, call_run]
          cases reply bk primary (.MountFilesystem pfs node) w1 <;>
            simp [pure_run, after_log]
        · have hne : pfs ≠ fs := fun h => by simpa using hinv h
          have hsecond : ¬ false = true ∧ pfs ≠ fs := ⟨by simp, hne⟩
          rw [if_pos hsecond]
          simp only [not_true_eq_false, if_false, bind_run, pure_run, call_run]
          cases reply bk primary (.MountFilesystem fs node) w1 <;>
            simp [pure_run, after_log]
        · exact absurd ⟨rfl, rfl⟩ hboth

/-- Witness of `ControllerPublishVolume_other_mode`: the mode is `maybe`, `fs1` is not
mounted on node `n1`, and the call succeeds after the two lookups. -/
theorem ControllerPublishVolume_other_mode_witness :
    ControllerPublishVolume (bkScenario {}) (extSkip (lit "maybe")) csTwoKeys
        { VolumeId := volIdPvc1, NodeId := lit "n1" } sysIdle =
      (.ok {}, { sysIdle with log :=
        [(0, .GetFilesystemName (lit "u1")), (0, .GetFilesystemMountDetails (lit "fs1"))] }) :=
  ((ControllerPublishVolume_other_mode (bkScenario {}) (extSkip (lit "maybe")) csTwoKeys
    { VolumeId := volIdPvc1, NodeId := lit "n1" } sysIdle _ _ rfl).2.1
      (by decide) (by decide) (Or.inl rfl)).1

/-! ## Paths relative to a mount point -/

namespace strings

theorem HasPrefix_append (m s : Str) : HasPrefix (m ++ s) m = true := by
  induction m with
  | nil => cases s <;> rfl
  | cons c cs ih => simp [HasPrefix, ih]

theorem Replace1_append (m s : Str) : Replace1 (m ++ s) m = s := by
  cases m with
  | nil =>
    cases s with
    | nil => rfl
    | cons c cs => simp [Replace1, HasPrefix]
  | cons c cs =>
    have h := HasPrefix_append (c :: cs) s
    simp only [List.cons_append] at h ⊢
    simp [Replace1, h]

theorem dropWhile_of_head {p : Char → Bool} (s : Str)
    (h : ∀ c, s.head? = some c → p c = false) : s.dropWhile p = s := by
  cases s with
  | nil => rfl
  | cons c cs => simp [List.dropWhile, h c rfl]

theorem Trim_of_ends (s cutset : Str)
    (hhead : ∀ c, s.head? = some c → cutset.contains c = false)
    (hlast : ∀ c, s.getLast? = some c → cutset.contains c = false) :
    Trim s cutset = s := by
  unfold Trim
  rw [dropWhile_of_head s hhead, dropWhile_of_head s.reverse, List.reverse_reverse]
  intro c hc
  rw [List.head?_reverse] at hc
  exact hlast c hc

theorem Trim_slash_cons (s : Str) : Trim ('/' :: s) (lit "!/") = Trim s (lit "!/") := by
  unfold Trim
  have h : (lit "!/").contains '/' = true := by decide
  rw [List.dropWhile_cons_of_pos h]

theorem cutset_contains {c : Char} (h1 : c ≠ '/') (h2 : c ≠ '!') :
    (lit "!/").contains c = false := by
  have hlit : lit "!/" = ['!', '/'] := rfl
  rw [hlit]
  simp [h1, h2]

end strings

/-- C27: `getTargetPath` fails if and only if the fileset link path or the filesystem
mount point is empty; and for a non-empty mount point and a link path of the form
`<mountPoint>/<rel>` where `rel` neither starts nor ends with `/` or `!`, it returns
exactly `<rel>/<volumeName>-data`. -/
theorem getTargetPath_spec (fsetLinkPath fsMountPoint volumeName : Str) :
    ((∃ err, getTargetPath fsetLinkPath fsMountPoint volumeName = .error err) ↔
      (fsetLinkPath = [] ∨ fsMountPoint = [])) ∧
    (∀ rel : Str, fsMountPoint ≠ [] →
      fsetLinkPath = Sprintf [fsMountPoint, lit "/", rel] →
      (∀ c, rel.head? = some c → c ≠ '/' ∧ c ≠ '!') →
      (∀ c, rel.getLast? = some c → c ≠ '/' ∧ c ≠ '!') →
      getTargetPath fsetLinkPath fsMountPoint volumeName =
        .ok (Sprintf [rel, lit "/", volumeName, lit "-data"])) := by
  constructor
  · unfold getTargetPath
    constructor
    · intro ⟨err, herr⟩
      by_contra hne
      rw [if_neg hne] at herr
      cases herr
    · intro h
      rw [if_pos h]
      exact ⟨_, rfl⟩
  · intro rel hmount hlink hhead hlast
    have hform : fsetLinkPath = fsMountPoint ++ '/' :: rel := by
      rw [hlink]
      simp [Sprintf, lit_slash]
    have hne : ¬ (fsetLinkPath = [] ∨ fsMountPoint = []) := by
      rw [hform]
      simp [hmount]
    have htrim : strings.Trim (strings.Replace1 fsetLinkPath fsMountPoint) (lit "!/") = rel := by
      rw [hform, strings.Replace1_append, strings.Trim_slash_cons]
      exact strings.Trim_of_ends rel _
        (fun c hc => strings.cutset_contains (hhead c hc).1 (hhead c hc).2)
        (fun c hc => strings.cutset_contains (hlast c hc).1 (hlast c hc).2)
    unfold getTargetPath
    rw [if_neg hne]
    simp only [htrim]

/-- Witness of `getTargetPath_spec`: the fileset `pvc-1` linked under `/ibm/fs1`. -/
theorem getTargetPath_spec_witness :
    getTargetPath (lit "/ibm/fs1/pvc-1") (lit "/ibm/fs1") (lit "pvc-1") =
      .ok (lit "pvc-1/pvc-1-data") :=
  (getTargetPath_spec (lit "/ibm/fs1/pvc-1") (lit "/ibm/fs1") (lit "pvc-1")).2 (lit "pvc-1")
    (by decide) rfl (fun c hc => by cases hc; decide) (fun c hc => by cases hc; decide)

/-! ## The symlink path `DeleteVolume` derives -/

theorem returns_liftE {σ α : Type} (x : Except error α) :
    Returns (fun a => x = .ok a) (liftE x : M σ α) := by
  constructor
  intro w a ha
  rw [liftE_run] at ha
  exact ha

/-- The symlink path `DeleteVolume` works with is the path of the decoded identifier,
made relative to the primary mount point. -/
theorem DeleteVolume_resolve_returns {σ : Type} (bk : Backend σ) (pkg : Pkg)
    (cs : ScaleControllerServer) (req : DeleteVolumeRequest) :
    Returns (fun loc => ∃ v, GetVolIdMembers req.VolumeId = .ok v ∧
        loc.sLinkRelPath =
          strings.Trim (strings.Replace1 v.SymLnkPath cs.Driver.primary.PrimaryFSMount)
            (lit "!/"))
      (DeleteVolume_resolve bk pkg cs req) := by
  unfold DeleteVolume_resolve
  split
  · exact returns_fail _
  refine returns_ite (fun _ => returns_fail _) (fun _ => ?_)
  refine returns_bind _ (returns_liftE _) (fun v hv => ?_)
  refine returns_bind_any (fun conn => ?_)
  split
  · exact returns_fail _
  refine returns_bind_any (fun FilesystemName => ?_)
  refine returns_bind_any (fun mountInfo => ?_)
  exact returns_pure ⟨v, hv, rfl⟩

theorem takeWhile_append_cons {p : Char → Bool} (a b : Str) (c : Char)
    (ha : ∀ x ∈ a, p x = true) (hc : p c = false) :
    (a ++ c :: b).takeWhile p = a := by
  induction a with
  | nil => simp [List.takeWhile, hc]
  | cons x xs ih =>
    have hx : p x = true := ha x (List.mem_cons_self _ _)
    have hxs : ∀ y ∈ xs, p y = true := fun y hy => ha y (List.mem_cons_of_mem _ hy)
    simp [List.takeWhile, hx, ih hxs]

/-- The base name of `<dir>/<name>` is `name`. -/
theorem filepath.Base_append (dir name : Str) (hne : name ≠ []) (hslash : '/' ∉ name) :
    filepath.Base (dir ++ '/' :: name) = name := by
  have hpath : dir ++ '/' :: name ≠ [] := by simp
  have hrev : (dir ++ '/' :: name).reverse = name.reverse ++ '/' :: dir.reverse := by simp
  have hstrip : (name.reverse ++ '/' :: dir.reverse).dropWhile (fun c => decide (c = '/')) =
      name.reverse ++ '/' :: dir.reverse := by
    apply strings.dropWhile_of_head
    intro c hc
    cases hn : name.reverse with
    | nil => exact absurd (List.reverse_eq_nil_iff.mp hn) hne
    | cons x xs =>
      rw [hn] at hc
      simp only [List.cons_append, List.head?_cons, Option.some.injEq] at hc
      subst hc
      have hx : x ∈ name := by
        rw [← List.mem_reverse, hn]
        exact List.mem_cons_self _ _
      have : x ≠ '/' := fun e => hslash (e ▸ hx)
      simp [this]
  have htake : (name.reverse ++ '/' :: dir.reverse).takeWhile (fun c => decide (c ≠ '/')) =
      name.reverse := by
    apply takeWhile_append_cons
    · intro x hx
      have hx2 : x ∈ name := List.mem_reverse.mp hx
      have : x ≠ '/' := fun e => hslash (e ▸ hx2)
      simp [this]
    · simp
  unfold filepath.Base
  rw [if_neg hpath]
  simp only [hrev, hstrip, List.reverse_reverse, htake, if_neg hne]

/-- Decoding of a fileset-backed identifier whose fileset id may contain `=`: the path
is still the one encoded. -/
theorem GetVolIdMembers_fs_path (c u f p : Str) (hc : ';' ∉ c) (hu : ';' ∉ u) (hf : ';' ∉ f)
    (hp : ';' ∉ p) (hp2 : '=' ∉ p) :
    ∃ v, GetVolIdMembers (c ++ ';' :: (u ++ ';' :: ('f' :: 'i' :: 'l' :: 'e' :: 's' :: 'e' ::
        't' :: '=' :: (f ++ ';' :: 'p' :: 'a' :: 't' :: 'h' :: '=' :: p)))) = .ok v ∧
      v.SymLnkPath = p := by
  have hpath : ';' ∉ 'p' :: 'a' :: 't' :: 'h' :: '=' :: p := by
    simp only [List.mem_cons, not_or]
    exact ⟨by decide, by decide, by decide, by decide, by decide, hp⟩
  have hfs : ';' ∉ 'f' :: 'i' :: 'l' :: 'e' :: 's' :: 'e' :: 't' :: '=' :: f := by
    simp only [List.mem_cons, not_or]
    exact ⟨by decide, by decide, by decide, by decide, by decide, by decide, by decide,
      by decide, hf⟩
  have hs : strings.Split (c ++ ';' :: (u ++ ';' :: ('f' :: 'i' :: 'l' :: 'e' :: 's' :: 'e' ::
        't' :: '=' :: (f ++ ';' :: 'p' :: 'a' :: 't' :: 'h' :: '=' :: p)))) ';'
      = [c, u, 'f' :: 'i' :: 'l' :: 'e' :: 's' :: 'e' :: 't' :: '=' :: f,
          'p' :: 'a' :: 't' :: 'h' :: '=' :: p] := by
    rw [strings.Split_append_sep hc, strings.Split_append_sep hu]
    have := @strings.Split_append_sep _ ';' hfs ('p' :: 'a' :: 't' :: 'h' :: '=' :: p)
    rw [strings.Split_of_not_mem hpath] at this
    simpa using this
  have hkv : strings.Split ('p' :: 'a' :: 't' :: 'h' :: '=' :: p) '='
      = [['p', 'a', 't', 'h'], p] := by
    have := @strings.Split_append_sep ['p', 'a', 't', 'h'] '=' (by decide) p
    rw [strings.Split_of_not_mem hp2] at this
    simpa using this
  have hlen : ¬ (strings.Split ('f' :: 'i' :: 'l' :: 'e' :: 's' :: 'e' :: 't' :: '=' :: f)
      '=').length < 2 := by
    rw [strings.length_Split_lt_two_iff]
    simp
  simp [GetVolIdMembers, hs, hkv, hlen]

/-- C29 (amended): Delete addresses the symlink that Create made.  When the
registry's symlink absolute path is `<primaryMountPoint>/<symlinkRelativePath>` with a
non-empty relative path that does not start with `/` or `!`, the mount point and the
relative path contain no `;` or `=`, the cluster id, the filesystem UUID and the
fileset id contain no `;`, and the volume name is non-empty and contains no `;`, `=`,
`/` or `!`: the identifier issued by `generateVolID` decodes, the symlink path
`DeleteVolume` derives from it equals `<symlinkRelativePath>/<volumeName>`, the very
path at which `createSoftlink` makes the symlink, and its base name equals the volume
name. -/
theorem DeleteVolume_addresses_symlink {σ τ : Type} (bk : Backend σ) (bkDel : Backend τ)
    (pkg : Pkg) (cs : ScaleControllerServer) (scVol : scaleVolume) (uid volId : Str)
    (w0 : Sys σ)
    (hgen : (generateVolID bk scVol uid w0).1 = .ok volId)
    (habs : cs.Driver.primary.SymlinkAbsolutePath =
      Sprintf [cs.Driver.primary.PrimaryFSMount, lit "/", cs.Driver.primary.SymlinkRelativePath])
    (hpath : scVol.PrimarySLnkPath = cs.Driver.primary.SymlinkAbsolutePath)
    (hrel : scVol.PrimarySLnkRelPath = cs.Driver.primary.SymlinkRelativePath)
    (hrne : cs.Driver.primary.SymlinkRelativePath ≠ [])
    (hrhead : ∀ c, cs.Driver.primary.SymlinkRelativePath.head? = some c → c ≠ '/' ∧ c ≠ '!')
    (hr1 : ';' ∉ cs.Driver.primary.SymlinkRelativePath)
    (hr2 : '=' ∉ cs.Driver.primary.SymlinkRelativePath)
    (hm1 : ';' ∉ cs.Driver.primary.PrimaryFSMount)
    (hm2 : '=' ∉ cs.Driver.primary.PrimaryFSMount)
    (hc : ';' ∉ scVol.ClusterId) (hu : ';' ∉ uid)
    (hf : ∀ fSetuid,
      reply bk scVol.Connector (.GetFileSetUid scVol.VolBackendFs scVol.VolName) w0 =
        .ok fSetuid → ';' ∉ fSetuid)
    (hnne : scVol.VolName ≠ [])
    (hn1 : ';' ∉ scVol.VolName) (hn2 : '=' ∉ scVol.VolName) (hn3 : '/' ∉ scVol.VolName)
    (hn4 : '!' ∉ scVol.VolName) :
    (∃ v, GetVolIdMembers volId = .ok v ∧
      v.SymLnkPath = Sprintf [cs.Driver.primary.SymlinkAbsolutePath, lit "/", scVol.VolName]) ∧
    (∀ (w w1 : Sys τ) (loc : DeleteVolumeLocals),
      DeleteVolume_resolve bkDel pkg cs { VolumeId := volId } w = (.ok loc, w1) →
      loc.sLinkRelPath = Sprintf [scVol.PrimarySLnkRelPath, lit "/", scVol.VolName] ∧
      filepath.Base loc.sLinkRelPath = scVol.VolName) := by
  have habs1 : ';' ∉ cs.Driver.primary.SymlinkAbsolutePath := by
    rw [habs]
    exact not_mem_slink (by decide) hm1 hr1
  have habs2 : '=' ∉ cs.Driver.primary.SymlinkAbsolutePath := by
    rw [habs]
    exact not_mem_slink (by decide) hm2 hr2
  have hs1 := @not_mem_slink ';' (by decide) _ _ habs1 hn1
  have hs2 := @not_mem_slink '=' (by decide) _ _ habs2 hn2
  have hdec : ∃ v, GetVolIdMembers volId = .ok v ∧
      v.SymLnkPath = Sprintf [cs.Driver.primary.SymlinkAbsolutePath, lit "/", scVol.VolName] := by
    cases hshape : scVol.IsFilesetBased with
    | false =>
      have hid : volId = Sprintf [scVol.ClusterId, lit ";", uid, lit ";path=",
          Sprintf [cs.Driver.primary.SymlinkAbsolutePath, lit "/", scVol.VolName]] := by
        simp only [generateVolID, hshape, Bool.false_eq_true, if_false, pure_run, hpath] at hgen
        cases hgen
        rfl
      refine ⟨scaleVolId.mk scVol.ClusterId uid []
        (Sprintf [cs.Driver.primary.SymlinkAbsolutePath, lit "/", scVol.VolName]) false,
        ?_, rfl⟩
      have := GetVolIdMembers_lw scVol.ClusterId uid _ hc hu hs1 hs2
      rw [hid]
      simpa [Sprintf, lit_path, lit_semicolon] using this
    | true =>
      simp only [generateVolID, hshape, if_true, bind_run, call_run, hpath] at hgen
      cases hreply : reply bk scVol.Connector
          (.GetFileSetUid scVol.VolBackendFs scVol.VolName) w0 with
      | error e =>
        rw [hreply] at hgen
        cases hgen
      | ok fSetuid =>
        rw [hreply] at hgen
        simp only [pure_run] at hgen
        cases hgen
        obtain ⟨v, hv, hvp⟩ := GetVolIdMembers_fs_path scVol.ClusterId uid fSetuid _ hc hu
          (hf fSetuid hreply) hs1 hs2
        refine ⟨v, ?_, hvp⟩
        simpa [Sprintf, lit_path, lit_fileset, lit_semicolon] using hv
  refine ⟨hdec, ?_⟩
  intro w w1 loc hres
  obtain ⟨v, hv, hvp⟩ := hdec
  obtain ⟨v2, hv2, hloc⟩ := (DeleteVolume_resolve_returns bkDel pkg cs
    { VolumeId := volId }).run
    w loc (by rw [hres])
  have hsame : v2 = v := by
    have h := hv2.symm.trans hv
    cases h
    rfl
  subst hsame
  have hform : v2.SymLnkPath = cs.Driver.primary.PrimaryFSMount ++
      '/' :: (cs.Driver.primary.SymlinkRelativePath ++ '/' :: scVol.VolName) := by
    rw [hvp, habs]
    simp [Sprintf, lit_slash]
  have hpathrel : loc.sLinkRelPath =
      cs.Driver.primary.SymlinkRelativePath ++ '/' :: scVol.VolName := by
    rw [hloc, hform, strings.Replace1_append, strings.Trim_slash_cons]
    apply strings.Trim_of_ends
    · intro c hc
      cases hr : cs.Driver.primary.SymlinkRelativePath with
      | nil => exact absurd hr hrne
      | cons x xs =>
        rw [hr] at hc
        simp only [List.cons_append, List.head?_cons, Option.some.injEq] at hc
        subst hc
        have := hrhead x (by rw [hr]; rfl)
        exact strings.cutset_contains this.1 this.2
    · intro c hc
      have hlast : c ∈ scVol.VolName := by
        rw [List.getLast?_append_of_ne_nil _ (by simp)] at hc
        cases hn : scVol.VolName with
        | nil => exact absurd hn hnne
        | cons x xs =>
          rw [hn, List.getLast?_cons_cons] at hc
          exact List.mem_of_getLast?_eq_some hc
      exact strings.cutset_contains (fun e => hn3 (e ▸ hlast)) (fun e => hn4 (e ▸ hlast))
  constructor
  · rw [hpathrel, hrel]
    simp [Sprintf, lit_slash]
  · rw [hpathrel]
    exact filepath.Base_append _ _ hnne hn3

/-- Witness of `DeleteVolume_addresses_symlink`: the identifier issued for the
fileset-backed volume `pvc-1` (fileset id `7`) under the registry `csTwoKeys`. -/
theorem DeleteVolume_addresses_symlink_witness :
    (generateVolID bkStore scVolFileset (lit "u1") (sysStore {})).1 = .ok volIdPvc1 ∧
    ((lit "csifset/.volumes/pvc-1" : Str) =
        Sprintf [scVolFileset.PrimarySLnkRelPath, lit "/", scVolFileset.VolName] ∧
      filepath.Base (lit "csifset/.volumes/pvc-1") = scVolFileset.VolName) :=
  ⟨rfl, (DeleteVolume_addresses_symlink bkStore (bkScenario {}) pkgDecimal csTwoKeys
    scVolFileset (lit "u1") volIdPvc1 (sysStore {}) rfl rfl rfl rfl (by decide)
    (fun c hc => by cases hc; decide) (by decide) (by decide) (by decide) (by decide)
    (by decide) (by decide) (fun f hf => by cases hf; decide) (by decide) (by decide)
    (by decide) (by decide) (by decide)).2 sysIdle _ _ rfl⟩

/-- Counterexample to C29 as stated: the relative symlink path is empty (so it has no
leading or trailing `/` or `!`) and the absolute one is `/ibm/fs1/`; for the volume
`pvc-1` the symlink is made at `/pvc-1`, and the path `DeleteVolume` derives from the
identifier is `pvc-1`. -/
theorem DeleteVolume_addresses_symlink_counterexample :
    csEmptyRel.Driver.primary.SymlinkAbsolutePath =
      Sprintf [csEmptyRel.Driver.primary.PrimaryFSMount, lit "/",
        csEmptyRel.Driver.primary.SymlinkRelativePath] ∧
    generateVolID bkNone scVolEmptyRel (lit "u1") sysIdle =
      (.ok (lit "c1;u1;path=/ibm/fs1//pvc-1"), sysIdle) ∧
    Sprintf [scVolEmptyRel.PrimarySLnkRelPath, lit "/", scVolEmptyRel.VolName] = lit "/pvc-1" ∧
    (DeleteVolume_resolve (bkScenario {}) pkgDecimal csEmptyRel
        { VolumeId := lit "c1;u1;path=/ibm/fs1//pvc-1" } sysIdle).1 =
      .ok { volumeIdMembers :=
              { ClusterId := lit "c1", FsUUID := lit "u1",
                SymLnkPath := lit "/ibm/fs1//pvc-1", IsFilesetBased := false }
            conn := 0, primaryConn := 0, FilesystemName := lit "fs1",
            sLinkRelPath := lit "pvc-1" } ∧
    (lit "pvc-1" : Str) ≠ lit "/pvc-1" :=
  ⟨rfl, rfl, rfl, rfl, by decide⟩

/-! ## The provisioning steps, first run and retry -/

theorem bind_assoc_run {σ α β γ : Type} (m : M σ α) (f : α → M σ β) (g : β → M σ γ) :
    (m >>= f) >>= g = m >>= fun a => f a >>= g := by
  funext w
  simp only [bind_run]
  rcases m w with ⟨r, w1⟩
  cases r <;> rfl

/-- `createFilesetBasedVol` is its two parts in sequence. -/
theorem createFilesetBasedVol_parts {σ : Type} (bk : Backend σ) (pkg : Pkg)
    (cs : ScaleControllerServer) (scVol : scaleVolume) (fsDetails : FileSystem_v2) :
    createFilesetBasedVol bk pkg cs scVol fsDetails =
      createFilesetBasedVol_fileset bk cs scVol fsDetails >>= fun filesetInfo =>
        createFilesetBasedVol_finish bk pkg scVol fsDetails filesetInfo := by
  unfold createFilesetBasedVol createFilesetBasedVol_fileset createFilesetBasedVol_finish
  simp only [bind_assoc_run]

theorem returns_mapErr {σ α : Type} {Q : α → Prop} (wrap : error → error) {m : M σ α}
    (h : Returns Q m) : Returns Q (mapErr wrap m) := by
  constructor
  intro w a ha
  rw [mapErr_run] at ha
  rcases hm : m w with ⟨r, w1⟩
  rw [hm] at ha
  cases r with
  | ok b =>
    cases ha
    exact h.run w _ (by rw [hm])
  | error e => cases ha

/-- The second part of `createFilesetBasedVol` returns the target path of the link
path of the fileset it is given. -/
theorem createFilesetBasedVol_finish_returns {σ : Type} (bk : Backend σ) (pkg : Pkg)
    (scVol : scaleVolume) (fsDetails : FileSystem_v2) (filesetInfo : Fileset_v2) :
    Returns (fun target =>
        getTargetPath filesetInfo.Config.Path fsDetails.Mount.MountPoint scVol.VolName =
          .ok target)
      (createFilesetBasedVol_finish bk pkg scVol fsDetails filesetInfo) := by
  unfold createFilesetBasedVol_finish
  refine returns_bind_any (fun _ => ?_)
  refine returns_bind _ (returns_mapErr _ (returns_liftE _)) (fun target htarget => ?_)
  refine returns_bind_any (fun _ => ?_)
  exact returns_pure htarget

/-- What a run of the provisioning steps returns: the target path of the link path
with which its fileset part ended. -/
theorem provisioning_returns {σ : Type} (bk : Backend σ) (pkg : Pkg)
    (cs : ScaleControllerServer) (scVol : scaleVolume) (fsDetails : FileSystem_v2)
    (w0 w0L wEnd : Sys σ) (filesetInfo : Fileset_v2) (first : Str)
    (hfileset : createFilesetBasedVol_fileset bk cs scVol fsDetails w0 = (.ok filesetInfo, w0L))
    (hrun : (createFilesetBasedVol bk pkg cs scVol fsDetails >>= fun target =>
        createSoftlink bk scVol target >>= fun _ => pure target) w0 = (.ok first, wEnd)) :
    getTargetPath filesetInfo.Config.Path fsDetails.Mount.MountPoint scVol.VolName =
      .ok first := by
  rw [createFilesetBasedVol_parts, bind_run, bind_run, hfileset] at hrun
  simp only at hrun
  have hret := (createFilesetBasedVol_finish_returns bk pkg scVol fsDetails filesetInfo).run w0L
  rcases hfin : createFilesetBasedVol_finish bk pkg scVol fsDetails filesetInfo w0L with ⟨r, w3⟩
  rw [hfin] at hrun hret
  cases r with
  | error e => cases hrun
  | ok target =>
    simp only [bind_run] at hrun
    rcases hlink : createSoftlink bk scVol target w3 with ⟨r2, w4⟩
    rw [hlink] at hrun
    cases r2 with
    | error e => cases hrun
    | ok u =>
      simp only [pure_run] at hrun
      cases hrun
      exact hret _ rfl



/-- The quota step when the fileset already has the requested quota. -/
theorem setQuota_of_equal {σ : Type} (bk : Backend σ) (pkg : Pkg) (scVol : scaleVolume)
    (w : Sys σ) (quota : Str) (hsize : scVol.VolSize ≠ 0)
    (hlist : reply bk scVol.Connector (.ListFilesetQuota scVol.VolBackendFs scVol.VolName) w =
      .ok quota)
    (hconv : pkg.ConvertToBytes quota = .ok scVol.VolSize) :
    setQuota bk pkg scVol w =
      (.ok (), after bk scVol.Connector
        (.ListFilesetQuota scVol.VolBackendFs scVol.VolName) w) := by
  have h1 : ¬ (scVol.VolSize ≠ scVol.VolSize ∧ scVol.VolSize ≠ 0) := fun h => h.1 rfl
  simp only [setQuota, bind_run, call_run, hlist, hconv, pure_run, if_neg h1, if_neg hsize]

/-- The directory step when the directory is already there. -/
theorem createDirectory_of_present {σ : Type} (bk : Backend σ) (scVol : scaleVolume)
    (targetPath : Str) (w : Sys σ)
    (hdir : reply bk scVol.Connector (.CheckIfFileDirPresent scVol.VolBackendFs targetPath) w =
      .ok true) :
    createDirectory bk scVol targetPath w =
      (.ok (), after bk scVol.Connector
        (.CheckIfFileDirPresent scVol.VolBackendFs targetPath) w) := by
  have h1 : ¬ (true = false) := by decide
  simp only [createDirectory, bind_run, call_run, hdir, if_neg h1, pure_run]

/-- The symlink step when the symlink is already there. -/
theorem createSoftlink_of_present {σ : Type} (bk : Backend σ) (scVol : scaleVolume)
    (target : Str) (w : Sys σ)
    (hsym : reply bk scVol.PrimaryConnector
      (.CheckIfFileDirPresent scVol.PrimaryFS
        (Sprintf [scVol.PrimarySLnkRelPath, lit "/", scVol.VolName])) w = .ok true) :
    createSoftlink bk scVol target w =
      (.ok (), after bk scVol.PrimaryConnector
        (.CheckIfFileDirPresent scVol.PrimaryFS
          (Sprintf [scVol.PrimarySLnkRelPath, lit "/", scVol.VolName])) w) := by
  have h1 : ¬ (true = false) := by decide
  simp only [createSoftlink, bind_run, call_run, hsym, if_neg h1, pure_run]

/-- C25: idempotent retry of the provisioning steps.  Against a backend in which the
volume's fileset exists and is linked, its quota equals the requested non-zero size,
the data directory (the target path of the fileset's link path) exists and the access
symlink exists, `createFilesetBasedVol` followed by `createSoftlink` succeeds, returns
the target path `<relativeLinkPath>/<volumeName>-data` that the link path of the
fileset determines, and issues five calls, all of them queries: no create-fileset,
link-fileset, set-quota, make-directory or create-symlink call.  Its fileset part ends
with the fileset as listed, and the path it returns is the path returned by every
earlier run of the steps, from any state, whose fileset part ended with the fileset
linked at the path now listed. -/
theorem provisioning_retry {σ : Type} (bk : Backend σ) (pkg : Pkg)
    (cs : ScaleControllerServer) (scVol : scaleVolume) (fsDetails : FileSystem_v2)
    (w w1 w2 w3 w4 : Sys σ) (filesetInfo : Fileset_v2) (quota targetPath : Str)
    (hremote : validateRemoteFs cs fsDetails scVol = .ok ())
    (hsize : scVol.VolSize ≠ 0)
    (hquotaOn : reply bk scVol.Connector (.CheckIfFSQuotaEnabled scVol.VolBackendFs) w = .ok ())
    (hw1 : w1 = after bk scVol.Connector (.CheckIfFSQuotaEnabled scVol.VolBackendFs) w)
    (hfileset : reply bk scVol.Connector (.ListFileset scVol.VolBackendFs scVol.VolName) w1 =
      .ok filesetInfo)
    (hlinked : filesetInfo.Config.Path ≠ [] ∧ filesetInfo.Config.Path ≠ filesetUnlinkedPath)
    (hw2 : w2 = after bk scVol.Connector (.ListFileset scVol.VolBackendFs scVol.VolName) w1)
    (hlist : reply bk scVol.Connector (.ListFilesetQuota scVol.VolBackendFs scVol.VolName) w2 =
      .ok quota)
    (hconv : pkg.ConvertToBytes quota = .ok scVol.VolSize)
    (hw3 : w3 = after bk scVol.Connector
      (.ListFilesetQuota scVol.VolBackendFs scVol.VolName) w2)
    (htarget : getTargetPath filesetInfo.Config.Path fsDetails.Mount.MountPoint scVol.VolName =
      .ok targetPath)
    (hdir : reply bk scVol.Connector (.CheckIfFileDirPresent scVol.VolBackendFs targetPath) w3 =
      .ok true)
    (hw4 : w4 = after bk scVol.Connector
      (.CheckIfFileDirPresent scVol.VolBackendFs targetPath) w3)
    (hsym : reply bk scVol.PrimaryConnector
      (.CheckIfFileDirPresent scVol.PrimaryFS
        (Sprintf [scVol.PrimarySLnkRelPath, lit "/", scVol.VolName])) w4 = .ok true) :
    (createFilesetBasedVol bk pkg cs scVol fsDetails >>= fun target =>
        createSoftlink bk scVol target >>= fun _ => pure target) w =
      (.ok targetPath, after bk scVol.PrimaryConnector
        (.CheckIfFileDirPresent scVol.PrimaryFS
          (Sprintf [scVol.PrimarySLnkRelPath, lit "/", scVol.VolName])) w4) ∧
    (after bk scVol.PrimaryConnector
        (.CheckIfFileDirPresent scVol.PrimaryFS
          (Sprintf [scVol.PrimarySLnkRelPath, lit "/", scVol.VolName])) w4).log =
      w.log ++
        [(scVol.Connector, .CheckIfFSQuotaEnabled scVol.VolBackendFs),
         (scVol.Connector, .ListFileset scVol.VolBackendFs scVol.VolName),
         (scVol.Connector, .ListFilesetQuota scVol.VolBackendFs scVol.VolName),
         (scVol.Connector, .CheckIfFileDirPresent scVol.VolBackendFs targetPath),
         (scVol.PrimaryConnector, .CheckIfFileDirPresent scVol.PrimaryFS
           (Sprintf [scVol.PrimarySLnkRelPath, lit "/", scVol.VolName]))] ∧
    queriesOnly w (after bk scVol.PrimaryConnector
      (.CheckIfFileDirPresent scVol.PrimaryFS
        (Sprintf [scVol.PrimarySLnkRelPath, lit "/", scVol.VolName])) w4) ∧
    createFilesetBasedVol_fileset bk cs scVol fsDetails w = (.ok filesetInfo, w2) ∧
    (∀ (w0 w0L wEnd : Sys σ) (firstInfo : Fileset_v2) (first : Str),
      createFilesetBasedVol_fileset bk cs scVol fsDetails w0 = (.ok firstInfo, w0L) →
      (createFilesetBasedVol bk pkg cs scVol fsDetails >>= fun target =>
          createSoftlink bk scVol target >>= fun _ => pure target) w0 = (.ok first, wEnd) →
      firstInfo.Config.Path = filesetInfo.Config.Path →
      first = targetPath) := by
  have hnot : ¬ (filesetInfo.Config.Path = [] ∨ filesetInfo.Config.Path = filesetUnlinkedPath) :=
    fun h => h.elim hlinked.1 hlinked.2
  have hlog : (after bk scVol.PrimaryConnector
        (.CheckIfFileDirPresent scVol.PrimaryFS
          (Sprintf [scVol.PrimarySLnkRelPath, lit "/", scVol.VolName])) w4).log =
      w.log ++
        [(scVol.Connector, .CheckIfFSQuotaEnabled scVol.VolBackendFs),
         (scVol.Connector, .ListFileset scVol.VolBackendFs scVol.VolName),
         (scVol.Connector, .ListFilesetQuota scVol.VolBackendFs scVol.VolName),
         (scVol.Connector, .CheckIfFileDirPresent scVol.VolBackendFs targetPath),
         (scVol.PrimaryConnector, .CheckIfFileDirPresent scVol.PrimaryFS
           (Sprintf [scVol.PrimarySLnkRelPath, lit "/", scVol.VolName]))] := by
    rw [after_log, hw4, after_log, hw3, after_log, hw2, after_log, hw1, after_log]
    simp
  have hfs : createFilesetBasedVol_fileset bk cs scVol fsDetails w = (.ok filesetInfo, w2) := by
    simp only [createFilesetBasedVol_fileset, bind_run, liftE_run, hremote, if_pos hsize,
      call_run, hquotaOn, ← hw1, invoke_run, hfileset, ← hw2, pure_run, if_neg hnot]
  refine ⟨?_, hlog, ⟨?_, ?_⟩, hfs, ?_⟩
  · have hquota := setQuota_of_equal bk pkg scVol w2 quota hsize hlist hconv
    have hmk := createDirectory_of_present bk scVol targetPath w3 hdir
    have hlnk := createSoftlink_of_present bk scVol targetPath w4 hsym
    rw [← hw3] at hquota
    rw [← hw4] at hmk
    have hcreate : createFilesetBasedVol bk pkg cs scVol fsDetails w = (.ok targetPath, w4) := by
      simp only [createFilesetBasedVol, bind_run, liftE_run, hremote, if_pos hsize, call_run,
        hquotaOn, ← hw1, invoke_run, hfileset, ← hw2, pure_run, if_neg hnot, mapErr_run,
        hquota, htarget, hmk]
    rw [bind_run, hcreate]
    simp only [bind_run, hlnk, pure_run]
  · simp only [after_reqmap, hw4, hw3, hw2, hw1]
  · refine ⟨_, hlog, ?_⟩
    intro c hc
    simp only [List.mem_cons, List.mem_singleton, List.not_mem_nil, or_false] at hc
    rcases hc with h | h | h | h | h <;> (subst h; rfl)
  · intro w0 w0L wEnd firstInfo first hfirst hrun hsame
    have h := provisioning_returns bk pkg cs scVol fsDetails w0 w0L wEnd firstInfo first
      hfirst hrun
    rw [hsame, htarget] at h
    cases h
    rfl

/-- Witness of `provisioning_retry`: on the empty backend `bkStore` the first run
provisions `pvc-1` and returns `pvc-1/pvc-1-data`; run again on the state the first run
left, the steps issue queries only and return the same path. -/
theorem provisioning_retry_witness :
    ((createFilesetBasedVol bkStore pkgDecimal csTwoKeys scVolFileset fsDetailsFs1 >>=
        fun target => createSoftlink bkStore scVolFileset target >>= fun _ => pure target)
        (sysStore {})).1 = .ok (lit "pvc-1/pvc-1-data") ∧
    ((createFilesetBasedVol bkStore pkgDecimal csTwoKeys scVolFileset fsDetailsFs1 >>=
        fun target => createSoftlink bkStore scVolFileset target >>= fun _ => pure target)
        (sysStore {})).2.backend = storeProvisioned ∧
    ((createFilesetBasedVol bkStore pkgDecimal csTwoKeys scVolFileset fsDetailsFs1 >>=
        fun target => createSoftlink bkStore scVolFileset target >>= fun _ => pure target)
        (sysStore storeProvisioned)).1 = .ok (lit "pvc-1/pvc-1-data") :=
  ⟨rfl, rfl, congrArg Prod.fst
    (provisioning_retry bkStore pkgDecimal csTwoKeys scVolFileset fsDetailsFs1
      (sysStore storeProvisioned) _ _ _ _
      { Config := { Path := lit "/ibm/fs1/pvc-1" }, FilesetName := lit "pvc-1" }
      (lit "1073741824") (lit "pvc-1/pvc-1-data")
      rfl (by decide) rfl rfl rfl (by decide) rfl rfl rfl rfl rfl rfl rfl rfl).1⟩

/-! ## The capacity range of a request -/

theorem createDirectory_noQuota {σ : Type} (bk : Backend σ) (scVol : scaleVolume)
    (targetPath : Str) :
    Maintains (onlyCalls (fun k => !k.isQuotaCall)) (createDirectory bk scVol targetPath) := by
  unfold createDirectory
  repeat' first
    | exact maintains_pure (stepRel_onlyCalls _) _
    | exact onlyCalls_call _ _ _ _ _ rfl
    | apply maintains_bind (stepRel_onlyCalls _)
    | intro _
    | split

theorem createLWVol_noQuota {σ : Type} (bk : Backend σ) (scVol : scaleVolume) :
    Maintains (onlyCalls (fun k => !k.isQuotaCall)) (createLWVol bk scVol) := by
  unfold createLWVol
  repeat' first
    | exact maintains_pure (stepRel_onlyCalls _) _
    | exact maintains_fail (stepRel_onlyCalls _) _
    | exact onlyCalls_call _ _ _ _ _ rfl
    | exact createDirectory_noQuota _ _ _
    | apply maintains_mapErr
    | apply maintains_bind (stepRel_onlyCalls _)
    | intro _
    | split

theorem createSoftlink_noQuota {σ : Type} (bk : Backend σ) (scVol : scaleVolume)
    (target : Str) :
    Maintains (onlyCalls (fun k => !k.isQuotaCall)) (createSoftlink bk scVol target) := by
  unfold createSoftlink
  repeat' first
    | exact maintains_pure (stepRel_onlyCalls _) _
    | exact onlyCalls_call _ _ _ _ _ rfl
    | apply maintains_bind (stepRel_onlyCalls _)
    | intro _
    | split

/-- A fileset-backed volume of size 0 is created without any quota call. -/
theorem createFilesetBasedVol_noQuota {σ : Type} (bk : Backend σ) (pkg : Pkg)
    (cs : ScaleControllerServer) (scVol : scaleVolume) (fsDetails : FileSystem_v2)
    (hsize : scVol.VolSize = 0) :
    Maintains (onlyCalls (fun k => !k.isQuotaCall))
      (createFilesetBasedVol bk pkg cs scVol fsDetails) := by
  have hzero : ¬ scVol.VolSize ≠ 0 := fun h => h hsize
  unfold createFilesetBasedVol
  simp only [if_neg hzero]
  repeat' first
    | exact maintains_pure (stepRel_onlyCalls _) _
    | exact maintains_fail (stepRel_onlyCalls _) _
    | exact onlyCalls_call _ _ _ _ _ rfl
    | exact onlyCalls_invoke _ _ _ _ rfl
    | exact maintains_liftE (stepRel_onlyCalls _) _
    | exact createDirectory_noQuota _ _ _
    | apply maintains_mapErr
    | apply maintains_bind (stepRel_onlyCalls _)
    | intro _
    | split

theorem generateVolID_noQuota {σ : Type} (bk : Backend σ) (scVol : scaleVolume) (uid : Str) :
    Maintains (onlyCalls (fun k => !k.isQuotaCall)) (generateVolID bk scVol uid) := by
  unfold generateVolID
  repeat' first
    | exact maintains_pure (stepRel_onlyCalls _) _
    | exact onlyCalls_call _ _ _ _ _ rfl
    | apply maintains_bind (stepRel_onlyCalls _)
    | intro _
    | split

theorem copyVolContent_noQuota {σ : Type} (bk : Backend σ) (cs : ScaleControllerServer)
    (scVol : scaleVolume) (vID : scaleSrcVolId) (fsDetails : FileSystem_v2) (targetPath : Str) :
    Maintains (onlyCalls (fun k => !k.isQuotaCall))
      (copyVolContent bk cs scVol vID fsDetails targetPath) := by
  unfold copyVolContent
  repeat' first
    | exact onlyCalls_call _ _ _ _ _ rfl
    | exact maintains_liftE (stepRel_onlyCalls _) _
    | apply maintains_bind (stepRel_onlyCalls _)
    | intro _

theorem copySnapContent_noQuota {σ : Type} (bk : Backend σ) (cs : ScaleControllerServer)
    (scVol : scaleVolume) (snapId : scaleSnapId) (fsDetails : FileSystem_v2)
    (targetPath : Str) :
    Maintains (onlyCalls (fun k => !k.isQuotaCall))
      (copySnapContent bk cs scVol snapId fsDetails targetPath) := by
  unfold copySnapContent
  repeat' first
    | exact onlyCalls_call _ _ _ _ _ rfl
    | exact maintains_liftE (stepRel_onlyCalls _) _
    | apply maintains_bind (stepRel_onlyCalls _)
    | intro _

/-- The provisioning of a volume of size 0 issues no quota call. -/
theorem CreateVolume_provision_noQuota {σ : Type} (bk : Backend σ) (pkg : Pkg)
    (cs : ScaleControllerServer) (loc : CreateVolumeLocals)
    (hsize : loc.scaleVol.VolSize = 0) :
    Maintains (onlyCalls (fun k => !k.isQuotaCall)) (CreateVolume_provision bk pkg cs loc) := by
  unfold CreateVolume_provision
  repeat' first
    | exact maintains_pure (stepRel_onlyCalls _) _
    | exact onlyCalls_call _ _ _ _ _ rfl
    | exact createFilesetBasedVol_noQuota _ _ _ _ _ hsize
    | exact createLWVol_noQuota _ _
    | exact createSoftlink_noQuota _ _ _
    | exact generateVolID_noQuota _ _ _
    | exact copyVolContent_noQuota _ _ _ _ _ _
    | exact copySnapContent_noQuota _ _ _ _ _ _
    | apply maintains_mapErr
    | apply maintains_bind (stepRel_onlyCalls _)
    | intro _
    | split

theorem validateSrcVolID_noQuota {σ : Type} (bk : Backend σ) (cs : ScaleControllerServer)
    (vID : scaleSrcVolId) (scVol : scaleVolume) (pCid : Str) :
    Maintains (onlyCalls (fun k => !k.isQuotaCall)) (validateSrcVolID bk cs vID scVol pCid) := by
  unfold validateSrcVolID
  repeat' first
    | exact maintains_pure (stepRel_onlyCalls _) _
    | exact maintains_fail (stepRel_onlyCalls _) _
    | exact onlyCalls_call _ _ _ _ _ rfl
    | exact maintains_liftE (stepRel_onlyCalls _) _
    | apply maintains_bind (stepRel_onlyCalls _)
    | intro _
    | split

theorem validateSnapId_noQuota {σ : Type} (bk : Backend σ) (cs : ScaleControllerServer)
    (sId : scaleSnapId) (scVol : scaleVolume) (pCid : Str) :
    Maintains (onlyCalls (fun k => !k.isQuotaCall)) (validateSnapId bk cs sId scVol pCid) := by
  unfold validateSnapId
  repeat' first
    | exact maintains_pure (stepRel_onlyCalls _) _
    | exact maintains_fail (stepRel_onlyCalls _) _
    | exact onlyCalls_call _ _ _ _ _ rfl
    | exact maintains_liftE (stepRel_onlyCalls _) _
    | apply maintains_bind (stepRel_onlyCalls _)
    | intro _
    | split

/-- The steps before the in-flight guard issue no quota call. -/
theorem CreateVolume_prepare_noQuota {σ : Type} (bk : Backend σ) (pkg : Pkg)
    (cs : ScaleControllerServer) (req : Option CreateVolumeRequest) :
    Maintains (onlyCalls (fun k => !k.isQuotaCall)) (CreateVolume_prepare bk pkg cs req) := by
  unfold CreateVolume_prepare
  repeat' first
    | exact maintains_pure (stepRel_onlyCalls _) _
    | exact maintains_fail (stepRel_onlyCalls _) _
    | exact onlyCalls_call _ _ _ _ _ rfl
    | exact maintains_liftE (stepRel_onlyCalls _) _
    | exact validateSrcVolID_noQuota _ _ _ _ _
    | exact validateSnapId_noQuota _ _ _ _ _
    | apply maintains_bind (stepRel_onlyCalls _)
    | intro _
    | split
    | dsimp only

/-- The provisioning reports the size of the volume as the capacity. -/
theorem CreateVolume_provision_returns {σ : Type} (bk : Backend σ) (pkg : Pkg)
    (cs : ScaleControllerServer) (loc : CreateVolumeLocals) :
    Returns (fun resp => resp.Volume.CapacityBytes = int64 loc.scaleVol.VolSize)
      (CreateVolume_provision bk pkg cs loc) := by
  unfold CreateVolume_provision
  refine returns_bind_any (fun fsDetails => ?_)
  refine returns_bind_any (fun targetPath => ?_)
  refine returns_bind_any (fun _ => ?_)
  refine returns_bind_any (fun volID => ?_)
  refine returns_bind_any (fun _ => ?_)
  refine returns_bind_any (fun _ => ?_)
  exact returns_pure rfl

/-- What `CreateVolume` does once the steps before the guard have succeeded on a name
that is in flight: it stops on the spot. -/
theorem CreateVolume_of_inflight {σ : Type} (bk : Backend σ) (pkg : Pkg)
    (cs : ScaleControllerServer) (req : Option CreateVolumeRequest) (w w1 : Sys σ)
    (loc : CreateVolumeLocals) (cap : Int)
    (hprep : CreateVolume_prepare bk pkg cs req w = (.ok loc, w1))
    (hpresent : w1.reqmap loc.scaleVol.VolName = some cap) :
    ∃ e, CreateVolume bk pkg cs req w = (.error e, w1) := by
  unfold CreateVolume
  rw [run_bind_ok hprep]
  by_cases hcap : cap = int64 loc.scaleVol.VolSize
  · have hguard : IfSameVolReqInProcess loc.scaleVol w1 = (.ok (true, none), w1) := by
      simp [IfSameVolReqInProcess, hpresent, hcap]
    rw [run_bind_ok hguard]
    exact ⟨_, rfl⟩
  · have hguard : ∃ err, IfSameVolReqInProcess loc.scaleVol w1 =
        (.ok (false, some err), w1) := by
      simp [IfSameVolReqInProcess, hpresent, hcap]
    obtain ⟨err, herr⟩ := hguard
    rw [run_bind_ok herr]
    exact ⟨_, rfl⟩

/-- C24 (amended): the capacity range is not required.  A request without a capacity
range is handled by `CreateVolume` exactly as the same request with a capacity range
of 0 required bytes: the size read from it is 0; no run on it issues a quota call
(quota-enabled check, quota listing or quota setting); and every run that succeeds has
passed the steps before the in-flight guard with a volume of size 0, has provisioned
that volume, and reports it with capacity 0. -/
theorem CreateVolume_without_capacity {σ : Type} (bk : Backend σ) (pkg : Pkg)
    (cs : ScaleControllerServer) (r : CreateVolumeRequest) (w : Sys σ)
    (hnone : r.CapacityRange = none) :
    getVolumeSizeInBytes r = 0 ∧
    CreateVolume bk pkg cs (some r) w =
      CreateVolume bk pkg cs (some { r with CapacityRange := some { RequiredBytes := 0 } }) w ∧
    (∃ calls, (CreateVolume bk pkg cs (some r) w).2.log = w.log ++ calls ∧
      ∀ c ∈ calls, c.2.isQuotaCall = false) ∧
    (∀ resp, (CreateVolume bk pkg cs (some r) w).1 = .ok resp →
      resp.Volume.CapacityBytes = 0 ∧
      ∃ loc w1, CreateVolume_prepare bk pkg cs (some r) w = (.ok loc, w1) ∧
        loc.scaleVol.VolName = r.Name ∧ loc.scaleVol.VolSize = 0 ∧
        (CreateVolume_provision bk pkg cs loc
          { w1 with reqmap := mapSet w1.reqmap loc.scaleVol.VolName loc.volSize }).1 =
            .ok resp) := by
  have hzero : getVolumeSizeInBytes r = 0 := by
    unfold getVolumeSizeInBytes
    rw [hnone]
  have hsame : CreateVolume bk pkg cs (some r) w =
      CreateVolume bk pkg cs (some { r with CapacityRange := some { RequiredBytes := 0 } }) w := by
    obtain ⟨Name, CapacityRange, VolumeCapabilities, Parameters, VolumeContentSource⟩ := r
    simp only at hnone
    subst hnone
    rfl
  have hprepq := (CreateVolume_prepare_noQuota bk pkg cs (some r)).run w
  refine ⟨hzero, hsame, ?_, ?_⟩
  · rcases run_cases (CreateVolume_prepare bk pkg cs (some r)) w with ⟨loc, h⟩ | ⟨e, h⟩
    · obtain ⟨r2, hr2, -, hsize, -⟩ :=
        (CreateVolume_prepare_returns bk pkg cs (some r)).run w loc (by rw [h])
      cases hr2
      have hsize0 : loc.scaleVol.VolSize = 0 := by
        rw [hsize, hzero]
        rfl
      obtain ⟨-, calls1, hlog1, hq1⟩ := hprepq
      cases hmap : (CreateVolume_prepare bk pkg cs (some r) w).2.reqmap loc.scaleVol.VolName with
      | some cap =>
        obtain ⟨e, he⟩ := CreateVolume_of_inflight bk pkg cs (some r) w _ loc cap h hmap
        rw [he]
        exact ⟨calls1, hlog1, fun c hc => by simpa using hq1 c hc⟩
      | none =>
        rw [CreateVolume_of_absent bk pkg cs (some r) w _ loc h hmap]
        obtain ⟨-, calls2, hlog2, hq2⟩ :=
          (CreateVolume_provision_noQuota bk pkg cs loc hsize0).run
            { (CreateVolume_prepare bk pkg cs (some r) w).2 with
              reqmap := mapSet (CreateVolume_prepare bk pkg cs (some r) w).2.reqmap
                loc.scaleVol.VolName loc.volSize }
        refine ⟨calls1 ++ calls2, ?_, ?_⟩
        · show (CreateVolume_provision bk pkg cs loc _).2.log = _
          rw [hlog2]
          show (CreateVolume_prepare bk pkg cs (some r) w).2.log ++ calls2 = _
          rw [hlog1, List.append_assoc]
        · intro c hc
          rcases List.mem_append.mp hc with hc | hc
          · simpa using hq1 c hc
          · simpa using hq2 c hc
    · have herr : CreateVolume bk pkg cs (some r) w =
          (.error e, (CreateVolume_prepare bk pkg cs (some r) w).2) := by
        unfold CreateVolume
        rw [run_bind_error h]
      rw [herr]
      obtain ⟨-, calls1, hlog1, hq1⟩ := hprepq
      exact ⟨calls1, hlog1, fun c hc => by simpa using hq1 c hc⟩
  · intro resp hresp
    rcases run_cases (CreateVolume_prepare bk pkg cs (some r)) w with ⟨loc, h⟩ | ⟨e, h⟩
    · obtain ⟨r2, hr2, hname, hsize, -⟩ :=
        (CreateVolume_prepare_returns bk pkg cs (some r)).run w loc (by rw [h])
      cases hr2
      have hsize0 : loc.scaleVol.VolSize = 0 := by
        rw [hsize, hzero]
        rfl
      cases hmap : (CreateVolume_prepare bk pkg cs (some r) w).2.reqmap loc.scaleVol.VolName with
      | some cap =>
        obtain ⟨e, he⟩ := CreateVolume_of_inflight bk pkg cs (some r) w _ loc cap h hmap
        rw [he] at hresp
        cases hresp
      | none =>
        rw [CreateVolume_of_absent bk pkg cs (some r) w _ loc h hmap] at hresp
        have hprov : (CreateVolume_provision bk pkg cs loc
            { (CreateVolume_prepare bk pkg cs (some r) w).2 with
              reqmap := mapSet (CreateVolume_prepare bk pkg cs (some r) w).2.reqmap
                loc.scaleVol.VolName loc.volSize }).1 = .ok resp := hresp
        have hcapacity := (CreateVolume_provision_returns bk pkg cs loc).run _ resp hprov
        refine ⟨?_, loc, _, h, hname, hsize0, hprov⟩
        rw [hcapacity, hsize0]
        rfl
    · have herr : CreateVolume bk pkg cs (some r) w =
          (.error e, (CreateVolume_prepare bk pkg cs (some r) w).2) := by
        unfold CreateVolume
        rw [run_bind_error h]
      rw [herr] at hresp
      cases hresp

/-- Witness of `CreateVolume_without_capacity`: the request for `pvc-1` without a
capacity range. -/
theorem CreateVolume_without_capacity_witness :
    CreateVolume bkStore pkgDecimal csTwoKeys (some reqNoCapacity) (sysStore {}) =
      CreateVolume bkStore pkgDecimal csTwoKeys
        (some { reqNoCapacity with CapacityRange := some { RequiredBytes := 0 } })
        (sysStore {}) :=
  (CreateVolume_without_capacity bkStore pkgDecimal csTwoKeys reqNoCapacity (sysStore {})
    rfl).2.1

/-- Counterexample to C24 as stated: the request for `pvc-1` carries a name and a
supported capability but no capacity range; `CreateVolume` does not reject it, it
provisions the fileset, its directory and its symlink (without quota) and returns the
volume with capacity 0. -/
theorem CreateVolume_without_capacity_counterexample :
    reqNoCapacity.CapacityRange = none ∧
    (CreateVolume bkStore pkgDecimal csTwoKeys (some reqNoCapacity) (sysStore {})).1 =
      .ok { Volume := { VolumeId := volIdPvc1, CapacityBytes := 0, VolumeContext := [],
                        ContentSource := none } } ∧
    (CreateVolume bkStore pkgDecimal csTwoKeys (some reqNoCapacity) (sysStore {})).2.backend =
      { filesets := [(lit "pvc-1", lit "/ibm/fs1/pvc-1"), (lit "pvc-1", lit "--")]
        quotas := []
        paths := [lit "csifset/.volumes/pvc-1", lit "pvc-1/pvc-1-data"] } :=
  ⟨rfl, rfl, rfl⟩

end Scale
